import Mathlib

/-!
# DroneRadarSystem: a shallow embedding and its verified properties

The embedding follows the C++ sources function by function.

Modelling conventions
* `double` values are idealised as real numbers (`ℝ`): rounding, infinities
  and NaN are outside the model.  `qSqrt` is `Real.sqrt`, `qMax`/`qMin` are
  `max`/`min`, `qAbs` is the absolute value, `qAtan2 y x` is the argument of
  the complex number `x + y i`.  The set-up of a Curved path with coinciding
  endpoints, which computes `0 / 0`, has no value in the model (`none`), and
  so have the commands that construct such an entity.
* `int`, `qint64`, `quint32` are integers; the wire layer reduces them modulo
  `2^32` / `2^64` exactly where `QDataStream` does.
* `QDateTime::currentMSecsSinceEpoch()` is an explicit argument of every
  operation that reads the clock, one argument per read.
* Qt signals are recorded as a list of emitted `Event`s, in emission order.
* Objects owned through pointers (`Drone*`) are values in a list; where the
  source relies on object identity the model keeps a heap of objects and a
  list of indices into it.
-/

namespace DroneRadar

set_option genInjectivity false
set_option genSizeOf false
set_option genSizeOfSpec false

/-! ## Geometry: `QPointF` -/

set_option genInjectivity true in
/-- Qt point with `double` coordinates. -/
structure QPointF where
  x : ℝ
  y : ℝ

namespace QPointF

/-- Default-constructed point `QPointF()`, the null point. -/
@[reducible]
def null : QPointF := ⟨0, 0⟩

/-- Qt test `QPointF::isNull()`: both coordinates are zero. -/
def isNull (p : QPointF) : Prop := p.x = 0 ∧ p.y = 0

noncomputable instance (p : QPointF) : Decidable p.isNull := by
  unfold isNull; infer_instance

/-- Qt `QPointF::manhattanLength()`. -/
@[reducible]
def manhattanLength (p : QPointF) : ℝ := |p.x| + |p.y|

/-- Point addition, `operator+`. -/
@[reducible]
def add (p q : QPointF) : QPointF := ⟨p.x + q.x, p.y + q.y⟩

/-- Point subtraction, `operator-`. -/
@[reducible]
def sub (p q : QPointF) : QPointF := ⟨p.x - q.x, p.y - q.y⟩

/-- Scaling by a `double`, `operator*`. -/
@[reducible]
def scale (c : ℝ) (p : QPointF) : QPointF := ⟨c * p.x, c * p.y⟩

/-- Division by a `double`, `operator/`. -/
noncomputable def divide (p : QPointF) (c : ℝ) : QPointF := ⟨p.x / c, p.y / c⟩

end QPointF

/-! ## Enumerations (`Drone.h`, `WeaponStrategy.h`) -/

/-- The C++ type `enum class DroneType`, with its single value. -/
inductive DroneType where
  | Standard
deriving DecidableEq, Repr

/-- The C++ type `enum class TrajectoryType`; an `enum class` object holds any
value of its underlying type `int`, the named values are `Linear = 0` and
`Curved = 1`. -/
structure TrajectoryType where
  val : Int
deriving DecidableEq, Repr

/-- Value `TrajectoryType::Linear`. -/
def TrajectoryType.Linear : TrajectoryType := ⟨0⟩
/-- Value `TrajectoryType::Curved`. -/
def TrajectoryType.Curved : TrajectoryType := ⟨1⟩

/-- The C++ type `enum class SpeedType`: `Constant = 0`, `Accelerating = 1`. -/
structure SpeedType where
  val : Int
deriving DecidableEq, Repr

/-- Value `SpeedType::Constant`. -/
def SpeedType.Constant : SpeedType := ⟨0⟩
/-- Value `SpeedType::Accelerating`. -/
def SpeedType.Accelerating : SpeedType := ⟨1⟩

/-! ## `Drone` (`Drone.h`, `Drone.cpp`) -/

/-- Data members of `class Drone`. -/
structure Drone where
  m_id : Int
  m_initialPosition : QPointF
  m_currentPosition : QPointF
  m_velocityX : ℝ
  m_velocityY : ℝ
  m_maxSpeed : ℝ
  m_startTime : Int
  m_active : Bool
  m_destroyed : Bool
  m_type : DroneType
  m_trajectoryType : TrajectoryType
  m_speedType : SpeedType
  m_startPos : QPointF
  m_targetPos : QPointF
  m_controlPoint : QPointF
  m_startSpeed : ℝ
  m_endSpeed : ℝ
  m_currentSpeed : ℝ
  m_trajectoryProgress : ℝ
  m_totalDistance : ℝ
  m_direction : ℝ
  m_useNewTrajectorySystem : Bool

namespace Drone

/-- First constructor `Drone(id, initialPos, vx, vy, type)`: the ballistic
entity.  `raw` stands for the storage the object is built in: the members the
constructor does not initialise keep the values of `raw`.  `now` is the clock
read for `m_startTime`. -/
@[reducible]
def newBallistic (raw : Drone) (id : Int) (initialPos : QPointF) (vx vy : ℝ)
    (type : DroneType) (now : Int) : Drone :=
  { raw with
    m_id := id
    m_initialPosition := initialPos
    m_currentPosition := initialPos
    m_velocityX := vx
    m_velocityY := vy
    m_startTime := now
    m_active := true
    m_destroyed := false
    m_type := type
    m_useNewTrajectorySystem := false }

/-- Quadratic Bezier point `calculateBezierPoint(t)`. -/
@[reducible]
def calculateBezierPoint (d : Drone) (t : ℝ) : QPointF :=
  let oneMinusT : ℝ := 1 - t
  QPointF.add
    (QPointF.add (QPointF.scale (oneMinusT * oneMinusT) d.m_startPos)
      (QPointF.scale (2 * oneMinusT * t) d.m_controlPoint))
    (QPointF.scale (t * t) d.m_targetPos)

/-- Bezier tangent `calculateBezierTangent(t)`. -/
def calculateBezierTangent (d : Drone) (t : ℝ) : QPointF :=
  let oneMinusT : ℝ := 1 - t
  QPointF.add
    (QPointF.scale (2 * oneMinusT) (QPointF.sub d.m_controlPoint d.m_startPos))
    (QPointF.scale (2 * t) (QPointF.sub d.m_targetPos d.m_controlPoint))

/-- Speed for a progress value, `calculateCurrentSpeedForProgress`. -/
noncomputable def calculateCurrentSpeedForProgress (d : Drone) (progress : ℝ) : ℝ :=
  if d.m_speedType = SpeedType.Constant then
    d.m_startSpeed
  else
    let currentSpeed : ℝ := d.m_startSpeed + (d.m_endSpeed - d.m_startSpeed) * progress
    max 10 currentSpeed

/-- Position as a function of time, `calculatePositionAtTime(timeMs)`. -/
@[reducible]
noncomputable def calculatePositionAtTime (d : Drone) (timeMs : Int) : QPointF :=
  if !d.m_active then
    d.m_currentPosition
  else if !d.m_useNewTrajectorySystem then
    let timeSeconds : ℝ := ((timeMs - d.m_startTime : Int) : ℝ) / 1000
    ⟨d.m_initialPosition.x + d.m_velocityX * timeSeconds,
     d.m_initialPosition.y + d.m_velocityY * timeSeconds⟩
  else
    let elapsedSeconds : ℝ := ((timeMs - d.m_startTime : Int) : ℝ) / 1000
    let totalTime₀ : ℝ :=
      if d.m_speedType = SpeedType.Constant then
        d.m_totalDistance / max 1 d.m_startSpeed
      else
        let avgSpeed : ℝ := max 10 ((d.m_startSpeed + d.m_endSpeed) / 2)
        d.m_totalDistance / avgSpeed
    let totalTime : ℝ := max 5 (min 120 totalTime₀)
    let progress₀ : ℝ := min 1 (elapsedSeconds / totalTime)
    let progress : ℝ :=
      if progress₀ ≥ 1 then 1 + (elapsedSeconds - totalTime) / totalTime * (1 / 2)
      else progress₀
    if d.m_trajectoryType = TrajectoryType.Linear then
      QPointF.add d.m_startPos (QPointF.scale progress (QPointF.sub d.m_targetPos d.m_startPos))
    else
      d.calculateBezierPoint progress

/-- Linear extrapolation `predictPositionAtTime(futureTimeMs)`. -/
@[reducible]
noncomputable def predictPositionAtTime (d : Drone) (futureTimeMs : Int) : QPointF :=
  if !d.m_active || d.m_destroyed then
    d.m_currentPosition
  else
    let timeSeconds : ℝ := ((futureTimeMs - d.m_startTime : Int) : ℝ) / 1000
    ⟨d.m_initialPosition.x + d.m_velocityX * timeSeconds,
     d.m_initialPosition.y + d.m_velocityY * timeSeconds⟩

/-- Range test `isInRadarRange(radarCenter, radarRadius)`. -/
@[reducible]
noncomputable def isInRadarRange (d : Drone) (radarCenter : QPointF) (radarRadius : ℝ) : Bool :=
  let dx : ℝ := d.m_currentPosition.x - radarCenter.x
  let dy : ℝ := d.m_currentPosition.y - radarCenter.y
  let distance : ℝ := Real.sqrt (dx * dx + dy * dy)
  decide (distance ≤ radarRadius)

/-- Range test `isInStrikeRange(strikeCenter, strikeRadius)`. -/
@[reducible]
noncomputable def isInStrikeRange (d : Drone) (strikeCenter : QPointF) (strikeRadius : ℝ) : Bool :=
  let dx : ℝ := d.m_currentPosition.x - strikeCenter.x
  let dy : ℝ := d.m_currentPosition.y - strikeCenter.y
  let distance : ℝ := Real.sqrt (dx * dx + dy * dy)
  decide (distance ≤ strikeRadius)

/-- Base threat score `getThreatScore()`. -/
@[reducible]
noncomputable def getThreatScore (d : Drone) : ℝ :=
  let distance : ℝ :=
    Real.sqrt (d.m_currentPosition.x * d.m_currentPosition.x
      + d.m_currentPosition.y * d.m_currentPosition.y)
  1000 / max 1 distance

end Drone

/-! ## `DroneManager` (`DroneManager.h`, `DroneManager.cpp`) -/

/-- The C++ type `enum class WeaponType`. -/
inductive WeaponType where
  | Laser
  | Missile
deriving DecidableEq, Repr

/-- The C++ type `enum class TargetingStrategy`. -/
inductive TargetingStrategy where
  | ThreatPriority
  | TimePriority
deriving DecidableEq, Repr

/-- The C++ type `struct WeaponConfig`. -/
structure WeaponConfig where
  type : WeaponType
  strategy : TargetingStrategy
  cooldownTime : ℝ
  range : ℝ
  radius : ℝ
  name : String

set_option genInjectivity true in
/-- Qt signals emitted by the registry and the targeting engine. -/
inductive Event where
  | droneAdded (droneId : Int)
  | dronePositionUpdated (droneId : Int) (position : QPointF)
  | droneEscaped (droneId : Int)
  | droneDestroyed (droneId : Int)
  | droneRemoved (droneId : Int)
  | strikeExecuted (center : QPointF) (radius : ℝ) (destroyedCount : Int)
  | weaponFired (target : QPointF) (radius : ℝ) (type : WeaponType)
  | strategyChanged (config : WeaponConfig)
  | cooldownTimerStarted (msec : Int)

/-- Data members of `class DroneManager` (the timers and the random generator
apart). -/
structure DroneManager where
  m_drones : List Drone
  m_squareSize : ℝ
  m_nextDroneId : Int
  m_generationInterval : Int
  m_radarCenter : QPointF

namespace DroneManager

/-- Registry query `getActiveDrones()`. -/
@[reducible]
def getActiveDrones (m : DroneManager) : List Drone :=
  m.m_drones.filter (fun drone => drone.m_active)

/-- Registry query `getDronesInRadarRange(radarCenter, radarRadius)`. -/
@[reducible]
noncomputable def getDronesInRadarRange (m : DroneManager) (radarCenter : QPointF)
    (radarRadius : ℝ) : List Drone :=
  m.getActiveDrones.filter (fun drone => drone.isInRadarRange radarCenter radarRadius)

/-- Registry query `getDronesInStrikeRange(center, radius)`. -/
noncomputable def getDronesInStrikeRange (m : DroneManager) (center : QPointF)
    (radius : ℝ) : List Drone :=
  m.getActiveDrones.filter (fun drone => drone.isInStrikeRange center radius)

/-- Sum of the base threat scores, `calculateTotalThreat(drones)`. -/
@[reducible]
noncomputable def calculateTotalThreat (drones : List Drone) : ℝ :=
  drones.foldl (fun totalThreat drone => totalThreat + drone.getThreatScore) 0

/-- Cells `(x, y)` visited by the two nested loops of `findOptimalStrikePoint`,
`x` and `y` from `-gridSize/2` to `gridSize/2`, `x` outermost. -/
def gridCells (gridSize : Nat) : List (Int × Int) :=
  let axis : List Int := (List.range (2 * (gridSize / 2) + 1)).map
    (fun k => (k : Int) - ((gridSize / 2 : Nat) : Int))
  axis.flatMap (fun x => axis.map (fun y => (x, y)))

/-- One iteration of the inner loop body of `findOptimalStrikePoint`; the
state is `(bestStrikePoint, maxTotalThreat)`. -/
@[reducible]
noncomputable def strikePointStep (m : DroneManager) (strikeRadius searchRadius step : ℝ)
    (st : QPointF × ℝ) (cell : Int × Int) : QPointF × ℝ :=
  let testPoint : QPointF := ⟨(cell.1 : ℝ) * step, (cell.2 : ℝ) * step⟩
  if testPoint.manhattanLength > searchRadius then
    st
  else
    let totalThreat : ℝ := calculateTotalThreat (m.getDronesInStrikeRange testPoint strikeRadius)
    if totalThreat > st.2 then (testPoint, totalThreat) else st

/-- Grid search `findOptimalStrikePoint(strikeRadius, searchRadius)`. -/
noncomputable def findOptimalStrikePoint (m : DroneManager) (strikeRadius searchRadius : ℝ) :
    QPointF :=
  if (m.getDronesInRadarRange ⟨0, 0⟩ searchRadius).isEmpty then
    ⟨0, 0⟩
  else
    let gridSize : Nat := 20
    let step : ℝ := searchRadius * 2 / (gridSize : ℝ)
    ((gridCells gridSize).foldl (m.strikePointStep strikeRadius searchRadius step)
      (⟨0, 0⟩, 0)).1

/-- State of the loop of `strikeTarget`: the objects the target pointers refer
to (they outlive the call, `deleteLater`), the registry `m_drones` as indices
of objects, and the signals emitted so far. -/
structure StrikeLoop where
  heap : List Drone
  registry : List Nat
  events : List Event

/-- Body of `removeDrone(id)` on the loop state: the first registry entry whose
object has this id is taken out and `droneRemoved` is emitted. -/
def removeDroneIn (s : StrikeLoop) (id : Int) : StrikeLoop :=
  let hasId : Nat → Bool := fun j =>
    match s.heap[j]? with
    | some obj => decide (obj.m_id = id)
    | none => false
  if s.registry.any hasId then
    { s with registry := s.registry.eraseP hasId
             events := s.events ++ [Event.droneRemoved id] }
  else
    s

/-- Call `drone->destroy()` on the object at index `k`, with the slot
`onDroneDestroyed` connected to its `droneDestroyed` signal run in place. -/
def destroyObject (s : StrikeLoop) (k : Nat) : StrikeLoop :=
  match s.heap[k]? with
  | none => s
  | some obj =>
    if obj.m_destroyed then
      s
    else
      let s₁ : StrikeLoop :=
        { s with heap := s.heap.set k { obj with m_destroyed := true, m_active := false }
                 events := s.events ++ [Event.droneDestroyed obj.m_id] }
      removeDroneIn s₁ obj.m_id

/-- Registry command `strikeTarget(center, radius)`. -/
noncomputable def strikeTarget (m : DroneManager) (center : QPointF) (radius : ℝ) :
    DroneManager × List Event :=
  let indices : List Nat := List.range m.m_drones.length
  let inRange : Nat → Bool := fun k =>
    match m.m_drones[k]? with
    | some obj => obj.m_active && obj.isInStrikeRange center radius
    | none => false
  let targetDrones : List Nat := indices.filter inRange
  let s : StrikeLoop := targetDrones.foldl destroyObject ⟨m.m_drones, indices, []⟩
  let destroyedCount : Int := (targetDrones.length : Int)
  ({ m with m_drones := s.registry.filterMap (fun j => s.heap[j]?) },
   s.events ++ [Event.strikeExecuted center radius destroyedCount])

end DroneManager

/-! ## `WeaponStrategy` (`WeaponStrategy.h`, `WeaponStrategy.cpp`) -/

/-- Largest finite `double`, `std::numeric_limits<double>::max()`. -/
def DBL_MAX : ℝ := (2 ^ 53 - 1) * 2 ^ 971

/-- Conversion `static_cast<int>(x)` of a `double`: truncation toward zero. -/
noncomputable def truncToInt (x : ℝ) : Int :=
  if 0 ≤ x then ⌊x⌋ else ⌈x⌉

/-- Data members of `class WeaponStrategy` (the two timers apart). -/
structure WeaponStrategy where
  m_currentConfig : WeaponConfig
  m_lastFireTime : Int
  m_autoFireEnabled : Bool
  m_strategies : List WeaponConfig

namespace WeaponStrategy

/-- The catalog built by `initializeStrategies()`. -/
@[reducible]
noncomputable def initializeStrategies : List WeaponConfig :=
  [ { type := WeaponType.Laser, strategy := TargetingStrategy.ThreatPriority,
      cooldownTime := 3 / 2, range := 800, radius := 35, name := "激光单体打击" },
    { type := WeaponType.Missile, strategy := TargetingStrategy.ThreatPriority,
      cooldownTime := 4 / 5, range := 800, radius := 150, name := "导弹范围打击" },
    { type := WeaponType.Laser, strategy := TargetingStrategy.TimePriority,
      cooldownTime := 3 / 2, range := 800, radius := 80, name := "激光-时间优先" },
    { type := WeaponType.Missile, strategy := TargetingStrategy.TimePriority,
      cooldownTime := 4 / 5, range := 800, radius := 150, name := "导弹-时间优先" } ]

/-- Strategy switch `setCurrentStrategy(type, strategy)`. -/
@[reducible]
def setCurrentStrategy (w : WeaponStrategy) (type : WeaponType) (strategy : TargetingStrategy) :
    WeaponStrategy × List Event :=
  match w.m_strategies.find? (fun config => config.type = type ∧ config.strategy = strategy) with
  | some config => ({ w with m_currentConfig := config }, [Event.strategyChanged config])
  | none => (w, [])

/-- The constructor: catalog, default strategy Laser / ThreatPriority, never
fired.  `raw` is the storage the object is built in. -/
@[reducible]
noncomputable def new (raw : WeaponStrategy) : WeaponStrategy :=
  (setCurrentStrategy
    { raw with m_lastFireTime := 0, m_autoFireEnabled := false,
               m_strategies := initializeStrategies }
    WeaponType.Laser TargetingStrategy.ThreatPriority).1

/-- Readiness test `canFire()`; `now` is the clock read. -/
@[reducible]
noncomputable def canFire (w : WeaponStrategy) (now : Int) : Bool :=
  if w.m_lastFireTime = 0 then
    true
  else
    let elapsedSeconds : ℝ := ((now - w.m_lastFireTime : Int) : ℝ) / 1000
    decide (elapsedSeconds ≥ w.m_currentConfig.cooldownTime)

/-- Remaining cooldown `getTimeUntilReady()`; `now₁` is the clock read inside
`canFire()`, `now₂` the one that follows. -/
@[reducible]
noncomputable def getTimeUntilReady (w : WeaponStrategy) (now₁ now₂ : Int) : ℝ :=
  if w.canFire now₁ then
    0
  else
    let elapsedSeconds : ℝ := ((now₂ - w.m_lastFireTime : Int) : ℝ) / 1000
    let remaining : ℝ := w.m_currentConfig.cooldownTime - elapsedSeconds
    max 0 remaining

/-- Comparator of the `std::sort` calls: descending base threat score. -/
def threatGreater (a b : Drone) : Prop := a.getThreatScore > b.getThreatScore

noncomputable instance : DecidableRel threatGreater := fun a b => by
  unfold threatGreater; infer_instance

/-- The call `std::sort(begin, end, threatGreater)`.  The order of entities
with equal score is left open by `std::sort`; the model keeps them in their
original order, as the insertion sort that `std::sort` runs on short ranges
does: an entity is placed before the first entity that is not strictly
greater. -/
@[reducible]
noncomputable def sortByThreat (drones : List Drone) : List Drone :=
  drones.insertionSort (fun a b => ¬ threatGreater b a)

/-- Single-target, threat priority: `findLaserThreatTarget`. -/
@[reducible]
noncomputable def findLaserThreatTarget (m : DroneManager) (radarCenter : QPointF)
    (radarRadius : ℝ) : QPointF :=
  let radarDrones := m.getDronesInRadarRange radarCenter radarRadius
  if radarDrones.isEmpty then
    QPointF.null
  else
    match sortByThreat radarDrones with
    | first :: _ => first.m_currentPosition
    | [] => QPointF.null

/-- Exit time from the radar circle, `calculateTimeToLeaveRadar`. -/
noncomputable def calculateTimeToLeaveRadar (drone : Drone) (radarCenter : QPointF)
    (radarRadius : ℝ) : ℝ :=
  let currentPos := drone.m_currentPosition
  let vx := drone.m_velocityX
  let vy := drone.m_velocityY
  if |vx| < 1 / 10 ∧ |vy| < 1 / 10 then
    DBL_MAX
  else
    let dx := currentPos.x - radarCenter.x
    let dy := currentPos.y - radarCenter.y
    let a := vx * vx + vy * vy
    let b := 2 * (dx * vx + dy * vy)
    let c := dx * dx + dy * dy - radarRadius * radarRadius
    let discriminant := b * b - 4 * a * c
    if discriminant < 0 then
      DBL_MAX
    else
      let t1 := (-b + Real.sqrt discriminant) / (2 * a)
      let t2 := (-b - Real.sqrt discriminant) / (2 * a)
      let timeToLeave₀ : ℝ := DBL_MAX
      let timeToLeave₁ : ℝ := if t1 > 0 then min timeToLeave₀ t1 else timeToLeave₀
      if t2 > 0 then min timeToLeave₁ t2 else timeToLeave₁

/-- Entities leaving soon, `getDronesWithTimeToLeave`. -/
@[reducible]
noncomputable def getDronesWithTimeToLeave (m : DroneManager) (radarCenter : QPointF)
    (radarRadius maxTime : ℝ) : List Drone :=
  (m.getDronesInRadarRange radarCenter radarRadius).filter (fun drone =>
    let timeToLeave := calculateTimeToLeaveRadar drone radarCenter radarRadius
    decide (timeToLeave ≤ maxTime ∧ timeToLeave > 0))

/-- Single-target, time priority: `findLaserTimeTarget`. -/
@[reducible]
noncomputable def findLaserTimeTarget (m : DroneManager) (radarCenter : QPointF)
    (radarRadius : ℝ) : QPointF :=
  let radarDrones := m.getDronesInRadarRange radarCenter radarRadius
  if radarDrones.isEmpty then
    QPointF.null
  else
    let minThreatThreshold : ℝ := 3
    let loop : Option Drone × ℝ := radarDrones.foldl
      (fun (acc : Option Drone × ℝ) drone =>
        if drone.getThreatScore < minThreatThreshold then acc
        else
          let timeToLeave := calculateTimeToLeaveRadar drone radarCenter radarRadius
          if timeToLeave > 0 ∧ timeToLeave < acc.2 then (some drone, timeToLeave) else acc)
      (none, DBL_MAX)
    match loop.1 with
    | some bestTarget => bestTarget.m_currentPosition
    | none => findLaserThreatTarget m radarCenter radarRadius

/-- Loop selecting the entity of highest score above `maxThreat = 0`, as
written in `findMissileThreatTarget` and `findMissileTimeTarget`; the state is
`(highestThreatDrone, maxThreat)`. -/
@[reducible]
noncomputable def highestThreat (drones : List Drone) : Option Drone × ℝ :=
  drones.foldl
    (fun (acc : Option Drone × ℝ) drone =>
      if drone.getThreatScore > acc.2 then (some drone, drone.getThreatScore) else acc)
    (none, 0)

/-- Area weapon, threat priority: `findMissileThreatTarget`. -/
@[reducible]
noncomputable def findMissileThreatTarget (w : WeaponStrategy) (m : DroneManager)
    (radarCenter : QPointF) (radarRadius : ℝ) : QPointF :=
  let radarDrones := m.getDronesInRadarRange radarCenter radarRadius
  if radarDrones.isEmpty then
    QPointF.null
  else
    let optimalPoint := m.findOptimalStrikePoint w.m_currentConfig.radius radarRadius
    let targetsAtOptimal := m.getDronesInStrikeRange optimalPoint w.m_currentConfig.radius
    if !targetsAtOptimal.isEmpty then
      optimalPoint
    else
      match highestThreat radarDrones with
      | (some highestThreatDrone, maxThreat) =>
        if maxThreat ≥ 1 / 2 then
          highestThreatDrone.m_currentPosition
        else
          match radarDrones with
          | first :: _ => first.m_currentPosition
          | [] => QPointF.null
      | (none, _) =>
        match radarDrones with
        | first :: _ => first.m_currentPosition
        | [] => QPointF.null

/-- Area weapon, time priority: `findMissileTimeTarget`; `now` is the clock
read for the prediction time. -/
@[reducible]
noncomputable def findMissileTimeTarget (w : WeaponStrategy) (m : DroneManager)
    (radarCenter : QPointF) (radarRadius : ℝ) (now : Int) : QPointF :=
  let urgentDrones := getDronesWithTimeToLeave m radarCenter radarRadius 20
  if urgentDrones.isEmpty then
    findMissileThreatTarget w m radarCenter radarRadius
  else
    match (highestThreat urgentDrones).1 with
    | none => findMissileThreatTarget w m radarCenter radarRadius
    | some primaryTarget =>
      let predictTime : Int := now + 500
      let predictedPos := primaryTarget.predictPositionAtTime predictTime
      let distFromCenter := Real.sqrt (predictedPos.x * predictedPos.x
        + predictedPos.y * predictedPos.y)
      if distFromCenter > radarRadius then
        primaryTarget.m_currentPosition
      else
        predictedPos

/-- Dispatch `findThreatPriorityTarget`. -/
@[reducible]
noncomputable def findThreatPriorityTarget (w : WeaponStrategy) (m : DroneManager)
    (type : WeaponType) (radarCenter : QPointF) (radarRadius : ℝ) : QPointF :=
  if type = WeaponType.Laser then
    findLaserThreatTarget m radarCenter radarRadius
  else
    findMissileThreatTarget w m radarCenter radarRadius

/-- Dispatch `findTimePriorityTarget`. -/
noncomputable def findTimePriorityTarget (w : WeaponStrategy) (m : DroneManager)
    (type : WeaponType) (radarCenter : QPointF) (radarRadius : ℝ) (now : Int) : QPointF :=
  if type = WeaponType.Laser then
    findLaserTimeTarget m radarCenter radarRadius
  else
    findMissileTimeTarget w m radarCenter radarRadius now

/-- Result of `executeStrike`: the returned flag, the engine and the registry
after the call, and the signals emitted during it. -/
structure StrikeResult where
  fired : Bool
  weapon : WeaponStrategy
  manager : DroneManager
  events : List Event

/-- Fire command `executeStrike(radarCenter, radarRadius)`.  The clock is read
in `canFire` (`tCheck`), in the time-priority area selection (`tPredict`) and
when the cooldown starts (`tFire`). -/
@[reducible]
noncomputable def executeStrike (w : WeaponStrategy) (m : DroneManager) (radarCenter : QPointF)
    (radarRadius : ℝ) (tCheck tPredict tFire : Int) : StrikeResult :=
  if !w.canFire tCheck then
    ⟨false, w, m, []⟩
  else
    let target : QPointF :=
      if w.m_currentConfig.strategy = TargetingStrategy.ThreatPriority then
        findThreatPriorityTarget w m w.m_currentConfig.type radarCenter radarRadius
      else
        findTimePriorityTarget w m w.m_currentConfig.type radarCenter radarRadius tPredict
    if target.isNull then
      ⟨false, w, m, []⟩
    else
      let struck := m.strikeTarget target w.m_currentConfig.radius
      ⟨true, { w with m_lastFireTime := tFire }, struck.1,
       struck.2 ++ [Event.cooldownTimerStarted (truncToInt (w.m_currentConfig.cooldownTime * 1000)),
                    Event.weaponFired target w.m_currentConfig.radius w.m_currentConfig.type]⟩

end WeaponStrategy

/-! ## `RadarSimulator` (`RadarSimulator.h`, `RadarSimulator.cpp`) -/

/-- The C++ type `struct RadarDetection`. -/
structure RadarDetection where
  droneId : Int
  position : QPointF
  velocity : QPointF
  detectionTime : Int
  distance : ℝ
  azimuth : ℝ
  trajectoryType : TrajectoryType
  speedType : SpeedType
  currentDirection : ℝ
  currentSpeed : ℝ
  useNewTrajectory : Bool

/-- Qt `qAtan2(y, x)`: the angle of the point `(x, y)`, in `(-π, π]`. -/
noncomputable def qAtan2 (y x : ℝ) : ℝ := Complex.arg ⟨x, y⟩

namespace RadarSimulator

/-- Euclidean distance `calculateDistance(pos1, pos2)`. -/
noncomputable def calculateDistance (pos1 pos2 : QPointF) : ℝ :=
  let dx := pos2.x - pos1.x
  let dy := pos2.y - pos1.y
  Real.sqrt (dx * dx + dy * dy)

/-- Bearing `calculateAzimuth(center, target)`.  When the target is the
centre, `dx` and `dy` are both `+0`, the second argument `-dy` is the negative
zero and `qAtan2(+0, -0)` is `π`; in every other case `qAtan2(dx, -dy)` is the
argument of `-dy + dx i`. -/
@[reducible]
noncomputable def calculateAzimuth (center target : QPointF) : ℝ :=
  let dx := target.x - center.x
  let dy := target.y - center.y
  let angle := if dx = 0 ∧ dy = 0 then Real.pi else qAtan2 dx (-dy)
  if angle < 0 then angle + 2 * Real.pi else angle

end RadarSimulator

/-! ## `QDataStream` (Qt, version `Qt_5_15`, big-endian, double precision)

A stream over a byte array.  Bytes are natural numbers below 256.  A read
that finds fewer bytes than it needs yields zero, sets the stream status (which
neither the sender nor the receiver inspects) and leaves the device at its
end. -/

/-- Big-endian bytes of `n` reduced modulo `256 ^ width`. -/
def toBytesBE : Nat → Nat → List Nat
  | 0, _ => []
  | width + 1, n => toBytesBE width (n / 256) ++ [n % 256]

/-- Number denoted by big-endian bytes. -/
def fromBytesBE (bytes : List Nat) : Nat :=
  bytes.foldl (fun acc b => acc * 256 + b) 0

/-- Two's-complement reading of an unsigned `bits`-bit number. -/
def toSigned (bits : Nat) (n : Nat) : Int :=
  if n < 2 ^ (bits - 1) then (n : Int) else (n : Int) - 2 ^ bits

/-- Unsigned `bits`-bit pattern of an integer. -/
def toUnsigned (bits : Nat) (v : Int) : Nat := (v % 2 ^ bits).toNat

/-- IEEE-754 binary64 encoding of `double` values: the 64-bit pattern of a
value and the value of a pattern. -/
structure F64Codec where
  toBits : ℝ → Nat
  ofBits : Nat → ℝ

/-- The real number `x` is a `double`: it has a 64-bit pattern that decodes to
it. -/
def F64Codec.Represents (codec : F64Codec) (x : ℝ) : Prop :=
  codec.toBits x < 2 ^ 64 ∧ codec.ofBits (codec.toBits x) = x

namespace QDataStream

/-- Stream output `stream << quint32(v)`. -/
def writeQuint32 (v : Nat) : List Nat := toBytesBE 4 v

/-- Stream output `stream << int`. -/
def writeQint32 (v : Int) : List Nat := toBytesBE 4 (toUnsigned 32 v)

/-- Stream output `stream << qint64`. -/
def writeQint64 (v : Int) : List Nat := toBytesBE 8 (toUnsigned 64 v)

/-- Stream output `stream << double`. -/
def writeDouble (codec : F64Codec) (x : ℝ) : List Nat := toBytesBE 8 (codec.toBits x)

/-- Stream output `stream << QPointF`: the two coordinates as doubles. -/
def writePointF (codec : F64Codec) (p : QPointF) : List Nat :=
  writeDouble codec p.x ++ writeDouble codec p.y

/-- Stream output `stream << bool`: one byte. -/
def writeBool (b : Bool) : List Nat := [if b then 1 else 0]

/-- Device read `readBlock(data, len)` on the remaining bytes: the block when
`len` bytes are left, otherwise a short read that exhausts the device. -/
def readBlock (len : Nat) (s : List Nat) : Option (List Nat) × List Nat :=
  if len ≤ s.length then (some (s.take len), s.drop len) else (none, [])

/-- Read of an unsigned integer of `len` bytes, zero on a short read. -/
def readUInt (len : Nat) (s : List Nat) : Nat × List Nat :=
  match readBlock len s with
  | (some bytes, rest) => (fromBytesBE bytes, rest)
  | (none, rest) => (0, rest)

/-- Stream input `stream >> quint32`. -/
def readQuint32 (s : List Nat) : Nat × List Nat := readUInt 4 s

/-- Stream input `stream >> int`. -/
def readQint32 (s : List Nat) : Int × List Nat :=
  (toSigned 32 (readUInt 4 s).1, (readUInt 4 s).2)

/-- Stream input `stream >> qint64`. -/
def readQint64 (s : List Nat) : Int × List Nat :=
  (toSigned 64 (readUInt 8 s).1, (readUInt 8 s).2)

/-- Stream input `stream >> double`, `0.0` on a short read. -/
def readDouble (codec : F64Codec) (s : List Nat) : ℝ × List Nat :=
  match readBlock 8 s with
  | (some bytes, rest) => (codec.ofBits (fromBytesBE bytes), rest)
  | (none, rest) => (0, rest)

/-- Stream input `stream >> QPointF`. -/
def readPointF (codec : F64Codec) (s : List Nat) : QPointF × List Nat :=
  let rx := readDouble codec s
  let ry := readDouble codec rx.2
  (⟨rx.1, ry.1⟩, ry.2)

/-- Stream input `stream >> bool`: a byte, true when not zero. -/
def readBool (s : List Nat) : Bool × List Nat :=
  (decide ((readUInt 1 s).1 ≠ 0), (readUInt 1 s).2)

end QDataStream

namespace RadarSimulator
open QDataStream

/-- Bytes written for one detection by the loop of `serializeDetections`. -/
def serializeDetection (codec : F64Codec) (detection : RadarDetection) : List Nat :=
  writeQint32 detection.droneId
  ++ writePointF codec detection.position
  ++ writePointF codec detection.velocity
  ++ writeQint64 detection.detectionTime
  ++ writeDouble codec detection.distance
  ++ writeDouble codec detection.azimuth
  ++ writeQuint32 (toUnsigned 32 detection.trajectoryType.val)
  ++ writeQuint32 (toUnsigned 32 detection.speedType.val)
  ++ writeDouble codec detection.currentDirection
  ++ writeDouble codec detection.currentSpeed
  ++ writeBool detection.useNewTrajectory

/-- Frame writer `serializeDetections(detections)`; `now` is the clock read
for the timestamp. -/
def serializeDetections (codec : F64Codec) (now : Int) (detections : List RadarDetection) :
    List Nat :=
  writeQuint32 0x52444152
  ++ writeQuint32 1
  ++ writeQint64 now
  ++ writeQuint32 detections.length
  ++ (detections.map (serializeDetection codec)).flatten

end RadarSimulator

/-! ## `RadarDisplay` (`RadarDisplay.h`, `RadarDisplay.cpp`) -/

/-- Qt fuzzy zero test `qFuzzyIsNull(double)`. -/
def qFuzzyIsNull (d : ℝ) : Prop := |d| ≤ 1 / 1000000000000

/-- Qt fuzzy comparison `qFuzzyCompare(double, double)`. -/
def qFuzzyCompare (p1 p2 : ℝ) : Prop := |p1 - p2| * 1000000000000 ≤ min |p1| |p2|

/-- Qt comparison of one coordinate inside `operator==(QPointF, QPointF)`. -/
def qCoordEq (a b : ℝ) : Prop :=
  if a = 0 ∨ b = 0 then qFuzzyIsNull (a - b) else qFuzzyCompare a b

/-- Qt `operator==(const QPointF &, const QPointF &)`. -/
def QPointF.fuzzyEq (p1 p2 : QPointF) : Prop := qCoordEq p1.x p2.x ∧ qCoordEq p1.y p2.y

noncomputable instance (p1 p2 : QPointF) : Decidable (QPointF.fuzzyEq p1 p2) :=
  Classical.propDecidable _

/-- Qt colour `QColor(r, g, b)`. -/
structure QColor where
  red : Nat
  green : Nat
  blue : Nat
deriving DecidableEq, Repr

/-- The C++ type `struct DisplayDrone`; its members `type`, `threatLevel` and
`threatScore`, which `RadarDisplay.cpp` neither writes nor reads, are left
out. -/
structure DisplayDrone where
  id : Int
  position : QPointF
  velocity : QPointF
  lastUpdateTime : Int
  distance : ℝ
  azimuth : ℝ
  color : QColor
  trail : List QPointF
  trajectoryType : TrajectoryType
  speedType : SpeedType
  currentDirection : ℝ
  currentSpeed : ℝ
  useNewTrajectory : Bool

/-- Signals of `RadarDisplay` emitted while data is received. -/
inductive DisplayEvent where
  | droneDataReceived (droneCount : Int)
deriving DecidableEq, Repr

/-- Data members of `class RadarDisplay` used by the receive path. -/
structure RadarDisplay where
  m_scaleFactor : ℝ
  m_showTrails : Bool
  m_trailLength : Int
  m_drones : List DisplayDrone
  m_totalDronesDetected : Int
  m_lastDataTime : Int

namespace RadarDisplay
open QDataStream

/-- Colour of a threat score, `getThreatBasedColor(threatScore)`. -/
noncomputable def getThreatBasedColor (threatScore : ℝ) : QColor :=
  if threatScore ≥ 10 then ⟨255, 0, 0⟩
  else if threatScore ≥ 8 then ⟨255, 50, 50⟩
  else if threatScore ≥ 6 then ⟨255, 100, 0⟩
  else if threatScore ≥ 7 / 2 then ⟨255, 200, 0⟩
  else if threatScore ≥ 2 then ⟨100, 255, 100⟩
  else ⟨50, 200, 50⟩

/-- Colour computed from a detection in `processRadarData`. -/
noncomputable def detectionColor (disp : RadarDisplay) (detection : RadarDetection) : QColor :=
  let pixelDistance := Real.sqrt (detection.position.x * detection.position.x
    + detection.position.y * detection.position.y)
  let distanceToCenter := pixelDistance * disp.m_scaleFactor
  let threatScore := 1000 / max 1 distanceToCenter
  getThreatBasedColor threatScore

/-- Trail of an entity already displayed, after a detection at a new place
(the `m_showTrails` block of `processRadarData`). -/
noncomputable def updatedTrail (disp : RadarDisplay) (trail : List QPointF)
    (oldPosition : QPointF) : List QPointF :=
  let trail₁ : List QPointF := if trail.isEmpty then trail ++ [oldPosition] else trail
  let shouldAddTrail : Bool :=
    if trail.isEmpty then true
    else
      match trail.getLast? with
      | some lastPos =>
        decide (Real.sqrt ((oldPosition.x - lastPos.x) ^ 2 + (oldPosition.y - lastPos.y) ^ 2) > 5)
      | none => false
  if shouldAddTrail then
    let trail₂ := trail₁ ++ [oldPosition]
    if (trail₂.length : Int) > disp.m_trailLength then trail₂.tail else trail₂
  else
    trail₁

/-- Branch of `processRadarData` that updates an entity already displayed. -/
noncomputable def updateDrone (disp : RadarDisplay) (drone : DisplayDrone)
    (detection : RadarDetection) : DisplayDrone :=
  let oldPosition := drone.position
  { drone with
    position := detection.position
    velocity := detection.velocity
    trail :=
      if disp.m_showTrails = true ∧ ¬ QPointF.fuzzyEq oldPosition detection.position then
        updatedTrail disp drone.trail oldPosition
      else drone.trail
    lastUpdateTime := detection.detectionTime
    distance := detection.distance
    azimuth := detection.azimuth
    color := detectionColor disp detection
    trajectoryType := detection.trajectoryType
    speedType := detection.speedType
    currentDirection := detection.currentDirection
    currentSpeed := detection.currentSpeed
    useNewTrajectory := detection.useNewTrajectory }

/-- Branch of `processRadarData` that creates the entry of a new entity. -/
noncomputable def newDrone (disp : RadarDisplay) (detection : RadarDetection) : DisplayDrone :=
  { id := detection.droneId
    position := detection.position
    velocity := detection.velocity
    lastUpdateTime := detection.detectionTime
    distance := detection.distance
    azimuth := detection.azimuth
    color := detectionColor disp detection
    trail := if disp.m_showTrails then [detection.position] else []
    trajectoryType := detection.trajectoryType
    speedType := detection.speedType
    currentDirection := detection.currentDirection
    currentSpeed := detection.currentSpeed
    useNewTrajectory := detection.useNewTrajectory }

/-- Inner loop of `processRadarData`: the first displayed entity with the id
of the detection is updated; `none` when no entity has this id. -/
@[reducible]
noncomputable def updateFirstMatch (disp : RadarDisplay) (detection : RadarDetection) :
    List DisplayDrone → Option (List DisplayDrone)
  | [] => none
  | drone :: rest =>
    if drone.id = detection.droneId then
      some (updateDrone disp drone detection :: rest)
    else
      (updateFirstMatch disp detection rest).map (fun rest₁ => drone :: rest₁)

/-- One iteration of the outer loop of `processRadarData`. -/
@[reducible]
noncomputable def processDetection (disp : RadarDisplay) (detection : RadarDetection) :
    RadarDisplay :=
  match updateFirstMatch disp detection disp.m_drones with
  | some drones => { disp with m_drones := drones }
  | none =>
    { disp with
      m_drones := disp.m_drones ++ [newDrone disp detection]
      m_totalDronesDetected := disp.m_totalDronesDetected + 1 }

/-- Display update `processRadarData(detections)`; `now` is the clock read for
`m_lastDataTime`. -/
@[reducible]
noncomputable def processRadarData (disp : RadarDisplay) (detections : List RadarDetection)
    (now : Int) : RadarDisplay × List DisplayEvent :=
  ({ detections.foldl processDetection disp with m_lastDataTime := now },
   [DisplayEvent.droneDataReceived (detections.length : Int)])

/-- One record read by the parsing loop of `handleDataReceived`. -/
def parseDetection (codec : F64Codec) (s : List Nat) : RadarDetection × List Nat :=
  let rId := readQint32 s
  let rPosition := readPointF codec rId.2
  let rVelocity := readPointF codec rPosition.2
  let rTime := readQint64 rVelocity.2
  let rDistance := readDouble codec rTime.2
  let rAzimuth := readDouble codec rDistance.2
  let rTrajectory := readQuint32 rAzimuth.2
  let rSpeedType := readQuint32 rTrajectory.2
  let rDirection := readDouble codec rSpeedType.2
  let rSpeed := readDouble codec rDirection.2
  let rNew := readBool rSpeed.2
  ({ droneId := rId.1
     position := rPosition.1
     velocity := rVelocity.1
     detectionTime := rTime.1
     distance := rDistance.1
     azimuth := rAzimuth.1
     trajectoryType := ⟨toSigned 32 rTrajectory.1⟩
     speedType := ⟨toSigned 32 rSpeedType.1⟩
     currentDirection := rDirection.1
     currentSpeed := rSpeed.1
     useNewTrajectory := rNew.1 },
   rNew.2)

/-- The parsing loop `for (i = 0; i < droneCount; ++i)` of
`handleDataReceived`. -/
def parseDetections (codec : F64Codec) : Nat → List Nat → List RadarDetection
  | 0, _ => []
  | droneCount + 1, s =>
    (parseDetection codec s).1 :: parseDetections codec droneCount (parseDetection codec s).2

/-- Header check and parse of one datagram in `handleDataReceived`: the
detections handed to `processRadarData`, or `none` when the datagram is
discarded (`continue`). -/
def parseDatagram (codec : F64Codec) (datagram : List Nat) : Option (List RadarDetection) :=
  let rMagic := readQuint32 datagram
  let rVersion := readQuint32 rMagic.2
  if rMagic.1 ≠ 0x52444152 then
    none
  else if rVersion.1 ≠ 1 then
    none
  else
    let rTimestamp := readQint64 rVersion.2
    let rCount := readQuint32 rTimestamp.2
    some (parseDetections codec rCount.1 rCount.2)

/-- Body of the `while (hasPendingDatagrams())` loop of `handleDataReceived`
for one datagram; `now` is the clock read by `processRadarData`. -/
@[reducible]
noncomputable def handleDatagram (codec : F64Codec) (disp : RadarDisplay)
    (datagram : List Nat) (now : Int) : RadarDisplay × List DisplayEvent :=
  match parseDatagram codec datagram with
  | none => (disp, [])
  | some detections => processRadarData disp detections now

/-- Slot `handleDataReceived()`: every pending datagram in turn, each paired
with the clock value read while it is processed. -/
noncomputable def handleDataReceived (codec : F64Codec) (disp : RadarDisplay)
    (pending : List (List Nat × Int)) : RadarDisplay × List DisplayEvent :=
  pending.foldl
    (fun acc item =>
      let r := handleDatagram codec acc.1 item.1 item.2
      (r.1, acc.2 ++ r.2))
    (disp, [])

end RadarDisplay

/-- A 32-bit `int` value. -/
def IsInt32 (v : Int) : Prop := -2147483648 ≤ v ∧ v < 2147483648

/-- A `qint64` value. -/
def IsInt64 (v : Int) : Prop := -9223372036854775808 ≤ v ∧ v < 9223372036854775808

/-- The members of a detection are values of their C++ types: the integers
and enumerations fit their width and every `double` member is a `double` of
the codec. -/
def RadarDetection.WellFormed (codec : F64Codec) (d : RadarDetection) : Prop :=
  IsInt32 d.droneId ∧ IsInt64 d.detectionTime
  ∧ IsInt32 d.trajectoryType.val ∧ IsInt32 d.speedType.val
  ∧ codec.Represents d.position.x ∧ codec.Represents d.position.y
  ∧ codec.Represents d.velocity.x ∧ codec.Represents d.velocity.y
  ∧ codec.Represents d.distance ∧ codec.Represents d.azimuth
  ∧ codec.Represents d.currentDirection ∧ codec.Represents d.currentSpeed

/-! ## `Drone`: parametric construction, prediction and approach geometry -/

namespace Drone

/-- Trajectory set-up `initializeTrajectory()`.  `rndOffset` and `rndSign` are
the two random draws of the Curved branch (`generateDouble()` and
`bounded(2)`).  For a Curved entity whose start and target coincide the
perpendicular has length `qSqrt(0) = 0` and the quotient
`perpendicular / 0` is not a number in C++: the control point, and with it
every later position of the entity, lies outside the real numbers, and the
model has no value (`none`). -/
@[reducible]
noncomputable def initializeTrajectory (d : Drone) (rndOffset : ℝ) (rndSign : Int) :
    Option Drone :=
  let direction := QPointF.sub d.m_targetPos d.m_startPos
  let totalDistance := Real.sqrt (direction.x * direction.x + direction.y * direction.y)
  let d₁ : Drone := { d with m_totalDistance := totalDistance }
  let d₂ : Drone :=
    if totalDistance > 0 then
      { d₁ with
        m_velocityX := direction.x / totalDistance * d.m_startSpeed
        m_velocityY := direction.y / totalDistance * d.m_startSpeed }
    else d₁
  if d.m_trajectoryType = TrajectoryType.Curved then
    let midPoint := QPointF.divide (QPointF.add d.m_startPos d.m_targetPos) 2
    let perpendicular₀ : QPointF := ⟨-direction.y, direction.x⟩
    let length : ℝ :=
      Real.sqrt (perpendicular₀.x * perpendicular₀.x + perpendicular₀.y * perpendicular₀.y)
    if length = 0 then
      none
    else
      let perpendicular := QPointF.divide perpendicular₀ length
      let offset : ℝ := totalDistance * (6 / 5 + rndOffset * (3 / 5))
      let direction_sign : ℝ := if rndSign ≠ 0 then 1 else -1
      some { d₂ with
        m_controlPoint :=
          QPointF.add midPoint
            (QPointF.scale direction_sign (QPointF.scale offset perpendicular)) }
  else some d₂

/-- Second constructor `Drone(id, startPos, endPos, trajectory, speedType,
startSpeed, endSpeed, type)`: the parametric entity.  `raw` is the storage the
object is built in, `now` the clock read for `m_startTime`, `rndOffset` and
`rndSign` the random draws of `initializeTrajectory()`.  The result is `none`
exactly where `initializeTrajectory()` has no value. -/
@[reducible]
noncomputable def newParametric (raw : Drone) (id : Int) (startPos endPos : QPointF)
    (trajectory : TrajectoryType) (speedType : SpeedType) (startSpeed endSpeed : ℝ)
    (type : DroneType) (now : Int) (rndOffset : ℝ) (rndSign : Int) : Option Drone :=
  initializeTrajectory
    { raw with
      m_id := id
      m_initialPosition := startPos
      m_currentPosition := startPos
      m_startTime := now
      m_active := true
      m_destroyed := false
      m_type := type
      m_trajectoryType := trajectory
      m_speedType := speedType
      m_startPos := startPos
      m_targetPos := endPos
      m_startSpeed := startSpeed
      m_endSpeed := if endSpeed < 0 then startSpeed else endSpeed
      m_currentSpeed := startSpeed
      m_trajectoryProgress := 0
      m_direction := 0
      m_useNewTrajectorySystem := true }
    rndOffset rndSign

/-- The local `totalTime` of `calculatePositionAtTime`, after the clamp to
5..120 seconds. -/
@[reducible]
noncomputable def traverseTime (d : Drone) : ℝ :=
  let totalTime₀ : ℝ :=
    if d.m_speedType = SpeedType.Constant then
      d.m_totalDistance / max 1 d.m_startSpeed
    else
      let avgSpeed : ℝ := max 10 ((d.m_startSpeed + d.m_endSpeed) / 2)
      d.m_totalDistance / avgSpeed
  max 5 (min 120 totalTime₀)

/-- The local `progress` of `calculatePositionAtTime` as a function of the
elapsed seconds. -/
@[reducible]
noncomputable def progressAt (d : Drone) (elapsedSeconds : ℝ) : ℝ :=
  let progress₀ : ℝ := min 1 (elapsedSeconds / d.traverseTime)
  if progress₀ ≥ 1 then 1 + (elapsedSeconds - d.traverseTime) / d.traverseTime * (1 / 2)
  else progress₀

/-- Speed `getSpeed()`. -/
@[reducible]
noncomputable def getSpeed (d : Drone) : ℝ :=
  Real.sqrt (d.m_velocityX * d.m_velocityX + d.m_velocityY * d.m_velocityY)

/-- Time to the origin `getTimeToReachRadarCenter()`. -/
noncomputable def getTimeToReachRadarCenter (d : Drone) : ℝ :=
  if !d.m_active || d.m_destroyed then
    -1
  else
    let currentPos := d.m_currentPosition
    if d.m_velocityX * (-currentPos.x) + d.m_velocityY * (-currentPos.y) ≤ 0 then
      -1
    else
      let speed := d.getSpeed
      if speed ≤ 0 then
        -1
      else
        let distance := Real.sqrt (currentPos.x * currentPos.x + currentPos.y * currentPos.y)
        distance / speed

/-- Closest approach to the origin `getMinDistanceToRadarCenter()`. -/
@[reducible]
noncomputable def getMinDistanceToRadarCenter (d : Drone) : ℝ :=
  if !d.m_active || d.m_destroyed then
    -1
  else
    let currentPos := d.m_currentPosition
    let vx := d.m_velocityX
    let vy := d.m_velocityY
    let denominator := vx * vx + vy * vy
    if denominator ≤ 0 then
      Real.sqrt (currentPos.x * currentPos.x + currentPos.y * currentPos.y)
    else
      let t := -(currentPos.x * vx + currentPos.y * vy) / denominator
      if t < 0 then
        Real.sqrt (currentPos.x * currentPos.x + currentPos.y * currentPos.y)
      else
        let minX := currentPos.x + t * vx
        let minY := currentPos.y + t * vy
        Real.sqrt (minX * minX + minY * minY)

/-- Sampled zone test `willEnterRadarZone(radarCenter, radarRadius,
timeWindowMs)`: the loop `for (t = currentTime; t <= endTime; t += 1000)`;
`now` is the clock read. -/
noncomputable def willEnterRadarZone (d : Drone) (radarCenter : QPointF) (radarRadius : ℝ)
    (timeWindowMs : Int) (now : Int) : Bool :=
  if !d.m_active || d.m_destroyed then
    false
  else
    let steps : Nat := if timeWindowMs < 0 then 0 else (timeWindowMs / 1000 + 1).toNat
    (List.range steps).any (fun i =>
      let futurePos := d.predictPositionAtTime (now + 1000 * (i : Int))
      let dx := futurePos.x - radarCenter.x
      let dy := futurePos.y - radarCenter.y
      let distance := Real.sqrt (dx * dx + dy * dy)
      decide (distance ≤ radarRadius))

/-- Area test `isInSquareArea(squareSize)`. -/
@[reducible]
noncomputable def isInSquareArea (d : Drone) (squareSize : ℝ) : Bool :=
  let halfSize := squareSize / 2
  decide (d.m_currentPosition.x ≥ -halfSize ∧ d.m_currentPosition.x ≤ halfSize ∧
          d.m_currentPosition.y ≥ -halfSize ∧ d.m_currentPosition.y ≤ halfSize)

end Drone

/-! ## `RadarSimulator`: the scan -/

/-- Data members of `class RadarSimulator` read by the scan (sockets, timer and
client list apart). -/
structure RadarSimulator where
  m_radarCenter : QPointF
  m_radarRadius : ℝ
  m_scanInterval : Int
  m_latestDetections : List RadarDetection

namespace RadarSimulator

/-- The detection built in the loop body of `performScan` for an entity in
range; `currentTime` is the clock read at the start of the scan. -/
noncomputable def scanDetection (sim : RadarSimulator) (drone : Drone) (currentTime : Int) :
    RadarDetection :=
  let dronePos := drone.m_currentPosition
  let distance := calculateDistance sim.m_radarCenter dronePos
  { droneId := drone.m_id
    position := dronePos
    velocity := ⟨drone.m_velocityX, drone.m_velocityY⟩
    detectionTime := currentTime
    distance := distance
    azimuth := calculateAzimuth sim.m_radarCenter dronePos
    trajectoryType := drone.m_trajectoryType
    speedType := drone.m_speedType
    currentDirection := drone.m_direction
    currentSpeed := drone.m_currentSpeed
    useNewTrajectory := true }

/-- Scan `performScan()`: the loop over the active entities of the registry,
appending a detection for each entity in radar range.  The scan only calls
`const` member functions of the registry and of the entities. -/
noncomputable def performScan (sim : RadarSimulator) (m : DroneManager) (currentTime : Int) :
    List RadarDetection :=
  m.getActiveDrones.foldl
    (fun detections drone =>
      if drone.isInRadarRange sim.m_radarCenter sim.m_radarRadius then
        detections ++ [scanDetection sim drone currentTime]
      else detections)
    []

end RadarSimulator

/-! ## `DroneManager`: threat assessment -/

namespace DroneManager

/-- Advanced score `calculateAdvancedThreatScore(drone, radarCenter)`; a null
pointer is `none`. -/
@[reducible]
noncomputable def calculateAdvancedThreatScore (drone : Option Drone) (radarCenter : QPointF) : ℝ :=
  match drone with
  | none => 0
  | some drone =>
    if !drone.m_active || drone.m_destroyed then
      0
    else
      let baseThreat := drone.getThreatScore
      let dronePos := drone.m_currentPosition
      let distance := Real.sqrt ((dronePos.x - radarCenter.x) * (dronePos.x - radarCenter.x)
        + (dronePos.y - radarCenter.y) * (dronePos.y - radarCenter.y))
      let distanceFactor := 1000 / (distance + 100)
      let speed := drone.getSpeed
      let speedFactor := 1 + speed / 100
      let minDistance := drone.getMinDistanceToRadarCenter
      let trajectoryFactor : ℝ :=
        if minDistance ≥ 0 ∧ minDistance < 800 then 2 - minDistance / 800 else 1
      let timeToCenter := drone.getTimeToReachRadarCenter
      let urgencyFactor : ℝ :=
        if timeToCenter > 0 ∧ timeToCenter < 30 then 2 - timeToCenter / 30 else 1
      baseThreat * distanceFactor * speedFactor * trajectoryFactor * urgencyFactor

/-- Engagement gate `shouldEngageTarget(drone, radarCenter, radarRadius)`; a
null pointer is `none`, `now` is the clock read by `willEnterRadarZone`. -/
@[reducible]
noncomputable def shouldEngageTarget (drone : Option Drone) (radarCenter : QPointF)
    (radarRadius : ℝ) (now : Int) : Bool :=
  match drone with
  | none => false
  | some drone =>
    if !drone.m_active || drone.m_destroyed then
      false
    else if !drone.isInRadarRange radarCenter radarRadius then
      false
    else
      let threatScore := calculateAdvancedThreatScore (some drone) radarCenter
      if threatScore < 50 then
        false
      else
        let coreDefenseRadius := radarRadius * (1 / 2)
        if drone.willEnterRadarZone radarCenter coreDefenseRadius 10000 now then
          true
        else if threatScore > 500 then
          true
        else
          let minDistance := drone.getMinDistanceToRadarCenter
          if minDistance ≥ 0 ∧ minDistance < radarRadius * (7 / 10) then
            true
          else
            false

end DroneManager

/-! ## `DroneManager::strikeTarget`: the loop state and its description -/

/-- Effect of `Drone::destroy()` on the members of an entity that is not yet
destroyed. -/
@[reducible]
def Drone.struck (o : Drone) : Drone := { o with m_destroyed := true, m_active := false }

namespace DroneManager

/-- Loop state of `strikeTarget(center, radius)` when the loop over
`targetDrones` has ended: the objects, the registry and the signals emitted
by the loop. -/
noncomputable def strikeTargetLoop (m : DroneManager) (center : QPointF) (radius : ℝ) :
    StrikeLoop :=
  let indices : List Nat := List.range m.m_drones.length
  let inRange : Nat → Bool := fun k =>
    match m.m_drones[k]? with
    | some obj => obj.m_active && obj.isInStrikeRange center radius
    | none => false
  let targetDrones : List Nat := indices.filter inRange
  targetDrones.foldl destroyObject ⟨m.m_drones, indices, []⟩

/-- Signals of one target of `strikeTarget`: `droneDestroyed` from `destroy()`
through `onDroneDestroyed`, then `droneRemoved` from `removeDrone`. -/
@[reducible]
def strikeEvents (o : Option Drone) : List Event :=
  match o with
  | some obj => [Event.droneDestroyed obj.m_id, Event.droneRemoved obj.m_id]
  | none => []

/-- Description of the loop state of `strikeTarget` over the objects `L` after
the targets with indices `P` have been processed. -/
structure StrikeInv (L : List Drone) (P : List Nat) (s : StrikeLoop) : Prop where
  heap_hit : ∀ j, j ∈ P → s.heap[j]? = (L[j]?).map Drone.struck
  heap_miss : ∀ j, j ∉ P → s.heap[j]? = L[j]?
  registry_eq : s.registry = (List.range L.length).filter (fun j => decide (j ∉ P))
  events_eq : s.events = P.flatMap (fun k => strikeEvents L[k]?)

end DroneManager

/-! ## `Drone`: motion update (`setVelocity`, `updatePosition`) -/

namespace Drone

/-- Setter `setVelocity(vx, vy)`, with the cap at `m_maxSpeed`. -/
noncomputable def setVelocity (d : Drone) (vx vy : ℝ) : Drone :=
  let d₁ : Drone := { d with m_velocityX := vx, m_velocityY := vy }
  let currentSpeed : ℝ := d₁.getSpeed
  if currentSpeed > d₁.m_maxSpeed ∧ d₁.m_maxSpeed > 0 then
    let ratio : ℝ := d₁.m_maxSpeed / currentSpeed
    { d₁ with m_velocityX := d₁.m_velocityX * ratio, m_velocityY := d₁.m_velocityY * ratio }
  else
    d₁

/-- The block of `updatePosition()` that runs for the parametric system once
the position has changed: progress, direction, current speed and velocity. -/
noncomputable def updateTrajectoryState (d : Drone) (currentTime : Int) : Drone :=
  let elapsedSeconds : ℝ := ((currentTime - d.m_startTime : Int) : ℝ) / 1000
  let totalTime : ℝ :=
    if d.m_speedType = SpeedType.Constant then
      d.m_totalDistance / d.m_startSpeed
    else
      let avgSpeed : ℝ := (d.m_startSpeed + d.m_endSpeed) / 2
      d.m_totalDistance / avgSpeed
  let d₁ : Drone := { d with m_trajectoryProgress := min 1 (elapsedSeconds / totalTime) }
  let d₂ : Drone :=
    if d₁.m_trajectoryType = TrajectoryType.Linear then
      let direction : QPointF := QPointF.sub d₁.m_targetPos d₁.m_startPos
      if direction.x ≠ 0 ∨ direction.y ≠ 0 then
        { d₁ with m_direction := qAtan2 direction.y direction.x }
      else d₁
    else
      let tangent : QPointF := d₁.calculateBezierTangent d₁.m_trajectoryProgress
      if tangent.x ≠ 0 ∨ tangent.y ≠ 0 then
        { d₁ with m_direction := qAtan2 tangent.y tangent.x }
      else d₁
  let d₃ : Drone :=
    { d₂ with m_currentSpeed := d₂.calculateCurrentSpeedForProgress d₂.m_trajectoryProgress }
  if d₃.m_currentSpeed > 0 then
    { d₃ with m_velocityX := d₃.m_currentSpeed * Real.cos d₃.m_direction
              m_velocityY := d₃.m_currentSpeed * Real.sin d₃.m_direction }
  else
    d₃

/-- Method `updatePosition()` with the clock read `currentTime`: the entity
afterwards and the signal `positionUpdated`, listed as the registry passes it
on (`onDronePositionUpdated` emits `dronePositionUpdated`). -/
noncomputable def updatePosition (d : Drone) (currentTime : Int) : Drone × List Event :=
  if !d.m_active then
    (d, [])
  else
    let newPosition : QPointF := d.calculatePositionAtTime currentTime
    if ¬ QPointF.fuzzyEq newPosition d.m_currentPosition then
      let d₁ : Drone := { d with m_currentPosition := newPosition }
      let d₂ : Drone :=
        if d₁.m_useNewTrajectorySystem then d₁.updateTrajectoryState currentTime else d₁
      (d₂, [Event.dronePositionUpdated d₂.m_id d₂.m_currentPosition])
    else
      (d, [])

end Drone

/-! ## `DroneManager`: registry commands -/

/-- Random draws and clock read consumed by one call of
`generateRandomDrone()`, in the order of the calls: `bounded(4)` and
`bounded(rangeMin, rangeMax)` of `generateRandomEdgePosition`, the trajectory
and speed-type draws, the draws of `generateRandomTargetPosition`, the start
speed and multiplier draws, then the inputs of the `Drone` constructor. -/
structure GenerationDraws where
  edge : Fin 4
  coord : Int
  uTrajectory : ℝ
  uSpeedType : ℝ
  uTarget : ℝ
  targetEdge : Fin 4
  t1 : ℝ
  t2 : ℝ
  uStartSpeed : ℝ
  uMultiplier : ℝ
  raw : Drone
  now : Int
  rndOffset : ℝ
  rndSign : Int

/-- Random draws and clock read consumed for one entity by one pass of the
loop of `updateAllDrones()`. -/
structure TickDraws where
  uChange : ℝ
  uApply : ℝ
  uAngle : ℝ
  uSpeed : ℝ
  now : Int

namespace DroneManager

/-- Constructor `DroneManager(squareSize)`. -/
def new (squareSize : ℝ) : DroneManager :=
  { m_drones := [], m_squareSize := squareSize, m_nextDroneId := 1, m_generationInterval := 3000,
    m_radarCenter := ⟨0, 0⟩ }

/-- Lookup `getDroneById(id)`: the first entity with this id. -/
def getDroneById (m : DroneManager) (id : Int) : Option Drone :=
  m.m_drones.find? (fun drone => decide (drone.m_id = id))

/-- Command `addDrone(id, initialPos, vx, vy, type)`; `raw` and `now` are the
inputs of the `Drone` constructor. -/
def addDrone (m : DroneManager) (raw : Drone) (id : Int) (initialPos : QPointF) (vx vy : ℝ)
    (type : DroneType) (now : Int) : DroneManager × List Event :=
  if (m.getDroneById id).isSome then
    (m, [])
  else
    let drone : Drone := Drone.newBallistic raw id initialPos vx vy type now
    ({ m with m_drones := m.m_drones ++ [drone] }, [Event.droneAdded id])

/-- Command `addDroneWithTrajectory(id, startPos, endPos, trajectory,
speedType, startSpeed, endSpeed, type)`; `raw`, `now`, `rndOffset` and
`rndSign` are the inputs of the `Drone` constructor.  The duplicate check
comes first; after it the result is `none` where the constructor has no
value. -/
noncomputable def addDroneWithTrajectory (m : DroneManager) (raw : Drone) (id : Int)
    (startPos endPos : QPointF) (trajectory : TrajectoryType) (speedType : SpeedType)
    (startSpeed endSpeed : ℝ) (type : DroneType) (now : Int) (rndOffset : ℝ) (rndSign : Int) :
    Option (DroneManager × List Event) :=
  if (m.getDroneById id).isSome then
    some (m, [])
  else
    match Drone.newParametric raw id startPos endPos trajectory speedType
      startSpeed endSpeed type now rndOffset rndSign with
    | some drone => some ({ m with m_drones := m.m_drones ++ [drone] }, [Event.droneAdded id])
    | none => none

/-- Command `removeDrone(id)`: the first entity with this id is taken out. -/
def removeDrone (m : DroneManager) (id : Int) : DroneManager × List Event :=
  if m.m_drones.any (fun drone => decide (drone.m_id = id)) then
    ({ m with m_drones := m.m_drones.eraseP (fun drone => decide (drone.m_id = id)) },
     [Event.droneRemoved id])
  else
    (m, [])

/-- Command `removeAllDrones()`. -/
def removeAllDrones (m : DroneManager) : DroneManager × List Event :=
  ({ m with m_drones := [] }, m.m_drones.map (fun drone => Event.droneRemoved drone.m_id))

/-- Helper `generateRandomEdgePosition()`; `edge` is the result of
`bounded(4)`, `coord` the result of `bounded(rangeMin, rangeMax)`. -/
noncomputable def generateRandomEdgePosition (m : DroneManager) (edge : Fin 4) (coord : Int) :
    QPointF :=
  let halfSize : ℝ := m.m_squareSize / 2
  let distance : ℝ := halfSize
  match edge.val with
  | 0 => ⟨(coord : ℝ), -distance⟩
  | 1 => ⟨distance, (coord : ℝ)⟩
  | 2 => ⟨(coord : ℝ), distance⟩
  | _ => ⟨-distance, (coord : ℝ)⟩

/-- Helper `generateRandomTargetPosition()`; `u` is the first draw,
`targetEdge` the result of `bounded(4)`, `t1` and `t2` the two following draws
in the order of the statements. -/
noncomputable def generateRandomTargetPosition (m : DroneManager) (u : ℝ) (targetEdge : Fin 4)
    (t1 t2 : ℝ) : QPointF :=
  if u < 4 / 5 then
    let halfSize : ℝ := m.m_squareSize / 2
    match targetEdge.val with
    | 0 => ⟨(t1 - 1 / 2) * m.m_squareSize, -halfSize + t2 * halfSize * (3 / 10)⟩
    | 1 => ⟨halfSize - t1 * halfSize * (3 / 10), (t2 - 1 / 2) * m.m_squareSize⟩
    | 2 => ⟨(t1 - 1 / 2) * m.m_squareSize, halfSize - t2 * halfSize * (3 / 10)⟩
    | _ => ⟨-halfSize + t1 * halfSize * (3 / 10), (t2 - 1 / 2) * m.m_squareSize⟩
  else
    let offsetRange : ℝ := 300
    ⟨(t1 - 1 / 2) * offsetRange * 2, (t2 - 1 / 2) * offsetRange * 2⟩

/-- Slot `generateRandomDrone()`; `generateUniqueId()` returns `m_nextDroneId`
and increments it.  The result is `none` where `addDroneWithTrajectory` has no
value. -/
noncomputable def generateRandomDrone (m : DroneManager) (g : GenerationDraws) :
    Option (DroneManager × List Event) :=
  let id : Int := m.m_nextDroneId
  let m₁ : DroneManager := { m with m_nextDroneId := m.m_nextDroneId + 1 }
  let startPos : QPointF := m₁.generateRandomEdgePosition g.edge g.coord
  let trajectory : TrajectoryType :=
    if g.uTrajectory < 4 / 5 then TrajectoryType.Curved else TrajectoryType.Linear
  let speedType : SpeedType :=
    if g.uSpeedType < 3 / 5 then SpeedType.Accelerating else SpeedType.Constant
  let targetPos : QPointF := m₁.generateRandomTargetPosition g.uTarget g.targetEdge g.t1 g.t2
  let startSpeed : ℝ := 30 + g.uStartSpeed * 70
  let endSpeed : ℝ :=
    if speedType = SpeedType.Accelerating then
      let speedMultiplier : ℝ := 3 / 10 + g.uMultiplier * (27 / 10)
      max 10 (min (startSpeed * speedMultiplier) 150)
    else
      startSpeed
  m₁.addDroneWithTrajectory g.raw id startPos targetPos trajectory speedType startSpeed endSpeed
    DroneType.Standard g.now g.rndOffset g.rndSign

/-- Helper `applyRandomVelocityChange(drone)` for a non-null `drone`; `u`,
`uAngle` and `uSpeed` are its three draws. -/
noncomputable def applyRandomVelocityChange (drone : Drone) (u uAngle uSpeed : ℝ) : Drone :=
  let vx : ℝ := drone.m_velocityX
  let vy : ℝ := drone.m_velocityY
  let currentSpeed : ℝ := drone.getSpeed
  let maxSpeed : ℝ := drone.m_maxSpeed
  if u < 3 / 20 then
    let angleChange : ℝ := (uAngle - 1 / 2) * (3 / 10)
    let speedChange : ℝ := (uSpeed - 1 / 2) * 10
    let currentAngle : ℝ := qAtan2 vy vx
    let newAngle : ℝ := currentAngle + angleChange
    let newSpeed : ℝ := max 10 (min maxSpeed (currentSpeed + speedChange))
    drone.setVelocity (newSpeed * Real.cos newAngle) (newSpeed * Real.sin newAngle)
  else
    drone

/-- Body of the first loop of `updateAllDrones()` for one entity: the entity
afterwards, the signals, and its id if it is appended to `dronesOutOfBounds`. -/
noncomputable def updateEntity (m : DroneManager) (drone : Drone) (t : TickDraws) :
    Drone × List Event × List Int :=
  if drone.m_active then
    let d₁ : Drone :=
      if t.uChange < 3 / 10 then applyRandomVelocityChange drone t.uApply t.uAngle t.uSpeed
      else drone
    let r : Drone × List Event := d₁.updatePosition t.now
    (r.1, r.2, if !r.1.isInSquareArea m.m_squareSize then [r.1.m_id] else [])
  else
    (drone, [], [])

/-- First loop of `updateAllDrones()` over the entities from position `i` on:
the entities afterwards, the signals, and `dronesOutOfBounds`. -/
noncomputable def updateLoop (m : DroneManager) (draws : Nat → TickDraws) :
    Nat → List Drone → List Drone × List Event × List Int
  | _, [] => ([], [], [])
  | i, drone :: rest =>
    let r := m.updateEntity drone (draws i)
    let rs := updateLoop m draws (i + 1) rest
    (r.1 :: rs.1, r.2.1 ++ rs.2.1, r.2.2 ++ rs.2.2)

/-- Slot `onDroneOutOfBounds(droneId)`. -/
def onDroneOutOfBounds (m : DroneManager) (droneId : Int) : DroneManager × List Event :=
  let r := m.removeDrone droneId
  (r.1, Event.droneEscaped droneId :: r.2)

/-- Slot `updateAllDrones()`, the tick; `draws i` are the draws and the clock
read for the entity at position `i` of the registry. -/
noncomputable def updateAllDrones (m : DroneManager) (draws : Nat → TickDraws) :
    DroneManager × List Event :=
  let r := updateLoop m draws 0 m.m_drones
  r.2.2.foldl
    (fun st id =>
      let e := st.1.onDroneOutOfBounds id
      (e.1, st.2 ++ e.2))
    ({ m with m_drones := r.1 }, r.2.1)

/-- Registry states that the commands and slots of `DroneManager` produce from
a freshly constructed registry; a command that builds a parametric entity
counts where it has a value. -/
inductive Reachable : DroneManager → Prop where
  | new (squareSize : ℝ) : Reachable (DroneManager.new squareSize)
  | addDrone (m : DroneManager) (raw : Drone) (id : Int) (initialPos : QPointF) (vx vy : ℝ)
      (type : DroneType) (now : Int) :
      Reachable m → Reachable (m.addDrone raw id initialPos vx vy type now).1
  | addDroneWithTrajectory (m : DroneManager) (raw : Drone) (id : Int)
      (startPos endPos : QPointF) (trajectory : TrajectoryType) (speedType : SpeedType)
      (startSpeed endSpeed : ℝ) (type : DroneType) (now : Int) (rndOffset : ℝ) (rndSign : Int)
      (r : DroneManager × List Event) :
      Reachable m →
      m.addDroneWithTrajectory raw id startPos endPos trajectory speedType
        startSpeed endSpeed type now rndOffset rndSign = some r →
      Reachable r.1
  | removeDrone (m : DroneManager) (id : Int) : Reachable m → Reachable (m.removeDrone id).1
  | removeAllDrones (m : DroneManager) : Reachable m → Reachable m.removeAllDrones.1
  | generateRandomDrone (m : DroneManager) (g : GenerationDraws)
      (r : DroneManager × List Event) :
      Reachable m → m.generateRandomDrone g = some r → Reachable r.1
  | updateAllDrones (m : DroneManager) (draws : Nat → TickDraws) :
      Reachable m → Reachable (m.updateAllDrones draws).1
  | strikeTarget (m : DroneManager) (center : QPointF) (radius : ℝ) :
      Reachable m → Reachable (m.strikeTarget center radius).1
  | setSquareSize (m : DroneManager) (size : ℝ) :
      Reachable m → Reachable { m with m_squareSize := size }
  | startAutoGeneration (m : DroneManager) (intervalMs : Int) :
      Reachable m → Reachable { m with m_generationInterval := intervalMs }

end DroneManager

/-- Invariant of the registry: the ids are pairwise distinct and no active
entity is destroyed. -/
def DroneManager.WellFormed (m : DroneManager) : Prop :=
  (m.m_drones.map Drone.m_id).Nodup ∧
  ∀ d ∈ m.m_drones, d.m_active = true → d.m_destroyed = false

/-- The members of an entity that the registry invariant reads. -/
@[reducible]
def Drone.key (d : Drone) : Int × Bool × Bool := (d.m_id, d.m_active, d.m_destroyed)

/-! ## `WeaponStrategy::findLaserTimeTarget`: the loop and its candidates -/

namespace WeaponStrategy

/-- Body of the loop of `findLaserTimeTarget`; the state is
`(bestTarget, minTimeToLeave)`. -/
noncomputable def laserTimeStep (radarCenter : QPointF) (radarRadius : ℝ)
    (acc : Option Drone × ℝ) (drone : Drone) : Option Drone × ℝ :=
  if drone.getThreatScore < 3 then acc
  else
    let timeToLeave := calculateTimeToLeaveRadar drone radarCenter radarRadius
    if timeToLeave > 0 ∧ timeToLeave < acc.2 then (some drone, timeToLeave) else acc

/-- Entities that qualify in `findLaserTimeTarget`: base threat score at least
3 and an exit time from the radar circle that is positive and below the
"never" sentinel. -/
def LaserTimeCandidate (radarCenter : QPointF) (radarRadius : ℝ) (d : Drone) : Prop :=
  3 ≤ d.getThreatScore ∧ 0 < calculateTimeToLeaveRadar d radarCenter radarRadius ∧
    calculateTimeToLeaveRadar d radarCenter radarRadius < DBL_MAX

end WeaponStrategy

/-! ## Control channel (`RadarSimulator::processConfigCommand`) -/

set_option genInjectivity true in
/-- Qt type `QJsonValue`, as far as the control channel reads and writes it;
`undefined` is the value of an absent key. -/
inductive QJsonValue where
  | undefined
  | null
  | bool (b : Bool)
  | number (x : ℝ)
  | string (s : String)

namespace QJsonValue

/-- Conversion `toString()`: the string, or the empty string for any other
value. -/
@[reducible]
def toString (v : QJsonValue) : String :=
  match v with
  | string s => s
  | _ => ""

/-- Conversion `toDouble()`: the number, or 0 for any other value. -/
@[reducible]
noncomputable def toDouble (v : QJsonValue) : ℝ :=
  match v with
  | number x => x
  | _ => 0

/-- Conversion `toInt()`: the number when it is an integer that fits an `int`,
otherwise the default 0. -/
noncomputable def toInt (v : QJsonValue) : Int :=
  match v with
  | number x =>
    if ((⌊x⌋ : Int) : ℝ) = x ∧ -2147483648 ≤ ⌊x⌋ ∧ ⌊x⌋ < 2147483648 then ⌊x⌋ else 0
  | _ => 0

end QJsonValue

/-- Qt type `QJsonObject`: the members as key-value pairs, one pair per key. -/
def QJsonObject : Type := List (String × QJsonValue)

namespace QJsonObject

/-- The empty object `QJsonObject()`. -/
def empty : QJsonObject := ([] : List (String × QJsonValue))

/-- Read access `object[key]`, `value(key)`. -/
@[reducible]
def value (o : QJsonObject) (key : String) : QJsonValue :=
  match List.find? (fun kv => kv.1 == key) o with
  | some kv => kv.2
  | none => QJsonValue.undefined

/-- Test `contains(key)`. -/
@[reducible]
def contains (o : QJsonObject) (key : String) : Bool :=
  List.any o (fun kv => kv.1 == key)

/-- Write access `object[key] = v`: the member is added or replaced. -/
@[reducible]
def insert (o : QJsonObject) (key : String) (v : QJsonValue) : QJsonObject :=
  (key, v) :: List.filter (fun kv => kv.1 != key) o

end QJsonObject

/-- Number formatting of `QString::arg`, kept abstract. -/
structure QStringArg where
  ofInt : Int → String
  ofDouble : ℝ → String

/-- State read and written by the control channel: the simulator members, the
registry, and whether the scan timer and the generation timer are active. -/
structure ControlState where
  sim : RadarSimulator
  scanTimerActive : Bool
  manager : DroneManager
  generationTimerActive : Bool

namespace ControlState

/-- Registry query `isAutoGenerationActive()`. -/
@[reducible]
def isAutoGenerationActive (s : ControlState) : Bool := s.generationTimerActive

/-- Registry query `getGenerationInterval()`. -/
@[reducible]
def getGenerationInterval (s : ControlState) : Int := s.manager.m_generationInterval

/-- Registry command `stopAutoGeneration()`. -/
def stopAutoGeneration (s : ControlState) : ControlState :=
  { s with generationTimerActive := false }

/-- Registry command `startAutoGeneration(intervalMs)`. -/
def startAutoGeneration (s : ControlState) (intervalMs : Int) : ControlState :=
  { s with manager := { s.manager with m_generationInterval := intervalMs }
           generationTimerActive := true }

/-- The block of `processConfigCommand` for the category "radar": the state
afterwards, the flag `changed` and the text `changes`.  Restarting the scan
timer leaves it active. -/
noncomputable def configureRadar (fmt : QStringArg) (s : ControlState) (command : QJsonObject) :
    ControlState × Bool × String :=
  let st₀ : ControlState × Bool × String := (s, false, "")
  let st₁ : ControlState × Bool × String :=
    if command.contains "scanInterval" then
      let newInterval : Int := (command.value "scanInterval").toInt
      if newInterval ≠ st₀.1.sim.m_scanInterval then
        ({ st₀.1 with sim := { st₀.1.sim with m_scanInterval := newInterval } }, true,
          st₀.2.2 ++ ("扫描间隔: " ++ fmt.ofInt newInterval ++ "ms "))
      else st₀
    else st₀
  let st₂ : ControlState × Bool × String :=
    if command.contains "radarRadius" then
      let newRadius : ℝ := (command.value "radarRadius").toDouble
      if newRadius ≠ st₁.1.sim.m_radarRadius then
        ({ st₁.1 with sim := { st₁.1.sim with m_radarRadius := newRadius } }, true,
          st₁.2.2 ++ ("雷达半径: " ++ fmt.ofDouble newRadius ++ "px "))
      else st₁
    else st₁
  if command.contains "centerX" && command.contains "centerY" then
    let newX : ℝ := (command.value "centerX").toDouble
    let newY : ℝ := (command.value "centerY").toDouble
    let newCenter : QPointF := ⟨newX, newY⟩
    if ¬ QPointF.fuzzyEq newCenter st₂.1.sim.m_radarCenter then
      ({ st₂.1 with sim := { st₂.1.sim with m_radarCenter := newCenter } }, true,
        st₂.2.2 ++ ("中心位置: (" ++ fmt.ofDouble newX ++ "," ++ fmt.ofDouble newY ++ ") "))
    else st₂
  else st₂

/-- The block of `processConfigCommand` for the category "drone": the state
afterwards, the flag `changed` and the text `changes`. -/
noncomputable def configureDrone (fmt : QStringArg) (s : ControlState) (command : QJsonObject) :
    ControlState × Bool × String :=
  let st₀ : ControlState × Bool × String := (s, false, "")
  let st₁ : ControlState × Bool × String :=
    if command.contains "generationInterval" then
      let newInterval : Int := (command.value "generationInterval").toInt
      if st₀.1.getGenerationInterval ≠ newInterval then
        let s₁ : ControlState :=
          if st₀.1.isAutoGenerationActive then
            st₀.1.stopAutoGeneration.startAutoGeneration newInterval
          else st₀.1
        (s₁, true, st₀.2.2 ++ ("生成间隔: " ++ fmt.ofInt newInterval ++ "ms "))
      else st₀
    else st₀
  let st₂ : ControlState × Bool × String :=
    if command.contains "maxDrones" then
      (st₁.1, true,
        st₁.2.2 ++ ("最大无人机数: " ++ fmt.ofInt (command.value "maxDrones").toInt ++ " "))
    else st₁
  if command.contains "minSpeed" || command.contains "maxSpeed" then
    (st₂.1, true,
      st₂.2.2 ++ ("速度范围: " ++ fmt.ofDouble (command.value "minSpeed").toDouble ++ "-"
        ++ fmt.ofDouble (command.value "maxSpeed").toDouble ++ " "))
  else st₂

/-- Handler `processConfigCommand(command, sender, senderPort)`: the state
afterwards and the response object handed to `sendConfigResponse`. -/
noncomputable def processConfigCommand (fmt : QStringArg) (s : ControlState)
    (command : QJsonObject) : ControlState × QJsonObject :=
  let type : String := (command.value "type").toString
  let response₀ : QJsonObject :=
    QJsonObject.empty.insert "type" (QJsonValue.string "config_result")
  if type = "config" then
    let category : String := (command.value "category").toString
    let response₁ : QJsonObject := response₀.insert "category" (QJsonValue.string category)
    if category = "radar" then
      let r := configureRadar fmt s command
      (r.1, (response₁.insert "success" (QJsonValue.bool r.2.1)).insert "message"
        (QJsonValue.string (if r.2.1 then r.2.2.trim else "没有参数需要更新")))
    else if category = "drone" then
      let r := configureDrone fmt s command
      (r.1, (response₁.insert "success" (QJsonValue.bool r.2.1)).insert "message"
        (QJsonValue.string (if r.2.1 then r.2.2.trim else "没有参数需要更新")))
    else
      (s, (response₁.insert "success" (QJsonValue.bool false)).insert "message"
        (QJsonValue.string ("未知的配置类别: " ++ category)))
  else if type = "query" then
    let request : String := (command.value "request").toString
    if request = "current_settings" then
      (s, ((((((((response₀.insert "type" (QJsonValue.string "settings")).insert
        "scanInterval" (QJsonValue.number (s.sim.m_scanInterval : ℝ))).insert
        "radarRadius" (QJsonValue.number s.sim.m_radarRadius)).insert
        "centerX" (QJsonValue.number s.sim.m_radarCenter.x)).insert
        "centerY" (QJsonValue.number s.sim.m_radarCenter.y)).insert
        "generationInterval" (QJsonValue.number (s.getGenerationInterval : ℝ))).insert
        "maxDrones" (QJsonValue.number 10)).insert
        "minSpeed" (QJsonValue.number 10)).insert
        "maxSpeed" (QJsonValue.number 50))
    else
      (s, response₀)
  else
    (s, response₀)

end ControlState

/-! ## Sample objects -/

/-- Storage contents used to build sample objects. -/
def rawDrone : Drone :=
  { m_id := 0, m_initialPosition := ⟨0, 0⟩, m_currentPosition := ⟨0, 0⟩, m_velocityX := 0,
    m_velocityY := 0, m_maxSpeed := 0, m_startTime := 0, m_active := false,
    m_destroyed := false, m_type := DroneType.Standard,
    m_trajectoryType := TrajectoryType.Linear, m_speedType := SpeedType.Constant,
    m_startPos := ⟨0, 0⟩, m_targetPos := ⟨0, 0⟩, m_controlPoint := ⟨0, 0⟩, m_startSpeed := 0,
    m_endSpeed := 0, m_currentSpeed := 0, m_trajectoryProgress := 0, m_totalDistance := 0,
    m_direction := 0, m_useNewTrajectorySystem := false }

/-- An active ballistic entity standing at `pos`, id 1. -/
def droneAt (pos : QPointF) : Drone :=
  Drone.newBallistic rawDrone 1 pos 0 0 DroneType.Standard 0

/-- Registry holding the given entities, with the default square of 2000. -/
def registryOf (drones : List Drone) : DroneManager :=
  { m_drones := drones, m_squareSize := 2000, m_nextDroneId := 1, m_generationInterval := 3000,
    m_radarCenter := ⟨0, 0⟩ }

/-- Storage contents used to build a sample targeting engine. -/
def rawWeapon : WeaponStrategy :=
  { m_currentConfig :=
      { type := WeaponType.Laser, strategy := TargetingStrategy.ThreatPriority, cooldownTime := 0,
        range := 0, radius := 0, name := "" },
    m_lastFireTime := 0, m_autoFireEnabled := false, m_strategies := [] }

/-- Engine as constructed, then switched to `(type, strategy)`, with the given
last-fire time. -/
noncomputable def weaponWith (type : WeaponType) (strategy : TargetingStrategy)
    (lastFireTime : Int) : WeaponStrategy :=
  { ((WeaponStrategy.new rawWeapon).setCurrentStrategy type strategy).1 with
    m_lastFireTime := lastFireTime }

/-- A codec used in examples: natural numbers below `2 ^ 64` stand for
themselves. -/
noncomputable def sampleCodec : F64Codec :=
  { toBits := fun x => ⌊x⌋.toNat, ofBits := fun n => (n : ℝ) }

/-- A detection used in examples. -/
def sampleDetection : RadarDetection :=
  { droneId := 7, position := ⟨3, 4⟩, velocity := ⟨1, 2⟩, detectionTime := 1000, distance := 5,
    azimuth := 2, trajectoryType := TrajectoryType.Curved, speedType := SpeedType.Accelerating,
    currentDirection := 1, currentSpeed := 50, useNewTrajectory := true }

/-- The display as constructed: scale 1, trails shown, trail length 15. -/
@[reducible]
def emptyDisplay : RadarDisplay :=
  { m_scaleFactor := 1, m_showTrails := true, m_trailLength := 15, m_drones := [],
    m_totalDronesDetected := 0, m_lastDataTime := 0 }

/-- A parametric entity on the straight path from (-1000, 0) to (1000, 0),
created at time 0: the value of the constructor, which exists because the
path is Linear. -/
@[reducible]
noncomputable def linearDrone (speedType : SpeedType) (startSpeed endSpeed : ℝ) : Drone :=
  (Drone.newParametric rawDrone 1 ⟨-1000, 0⟩ ⟨1000, 0⟩ TrajectoryType.Linear speedType
    startSpeed endSpeed DroneType.Standard 0 0 0).getD rawDrone

/-- An active ballistic entity created at (200, 0) with velocity (-50, 0),
standing at `pos`. -/
@[reducible]
def westboundAt (pos : QPointF) : Drone :=
  { Drone.newBallistic rawDrone 1 ⟨200, 0⟩ (-50) 0 DroneType.Standard 0 with
    m_currentPosition := pos }

/-- Resting entity with the given id and position, created at time 0. -/
@[reducible]
def droneWithId (id : Int) (pos : QPointF) : Drone :=
  Drone.newBallistic rawDrone id pos 0 0 DroneType.Standard 0

/-- Registry of the strike scenario: three entities within 150 of the origin
and a fourth one at distance 500, with ids 1 to 4. -/
@[reducible]
def strikeScenario : DroneManager :=
  registryOf [droneWithId 1 ⟨0, 0⟩, droneWithId 2 ⟨100, 0⟩, droneWithId 3 ⟨-100, 0⟩,
    droneWithId 4 ⟨500, 0⟩]

/-- Registry reached from a fresh one by adding one resting entity with id 7. -/
def registryWithSeven : DroneManager :=
  ((DroneManager.new 2000).addDrone rawDrone 7 ⟨0, 0⟩ 0 0 DroneType.Standard 0).1

/-- Ballistic entity created at time 0 at (250, 0) with velocity (-150, 0). -/
@[reducible]
def recedingDrone : Drone :=
  Drone.newBallistic rawDrone 1 ⟨250, 0⟩ (-150) 0 DroneType.Standard 0

/-- The parametric Linear entity from (-1000, 0) to (1000, 0) with speed
ramping from 50 to 150, created at time 0, after `updatePosition()` at clock
12000. -/
noncomputable def rampedAfterTick : Drone :=
  ((linearDrone SpeedType.Accelerating 50 150).updatePosition 12000).1

/-- Ballistic entity with id 1 created at time 0 at (990, 0) with velocity
(100, 0), standing at `pos`. -/
@[reducible]
def eastboundAt (pos : QPointF) : Drone :=
  { Drone.newBallistic rawDrone 1 ⟨990, 0⟩ 100 0 DroneType.Standard 0 with
    m_currentPosition := pos }

/-- Registry of the tick scenario, square of 2000: the entity `eastboundAt`
at its start position and a resting entity with id 2 at the origin. -/
@[reducible]
def tickScenario : DroneManager :=
  registryOf [eastboundAt ⟨990, 0⟩, droneWithId 2 ⟨0, 0⟩]

/-- Draws of the tick scenario: no velocity change, clock 1000. -/
@[reducible]
def tickDraws : Nat → TickDraws :=
  fun _ => { uChange := 1, uApply := 1, uAngle := 0, uSpeed := 0, now := 1000 }

/-- The command `\x7btype: config, category: radar, scanInterval: i,
radarRadius: r, centerX: x, centerY: y\x7d`. -/
@[reducible]
noncomputable def radarCommand (i : Int) (r x y : ℝ) : QJsonObject :=
  [("type", QJsonValue.string "config"), ("category", QJsonValue.string "radar"),
   ("scanInterval", QJsonValue.number (i : ℝ)), ("radarRadius", QJsonValue.number r),
   ("centerX", QJsonValue.number x), ("centerY", QJsonValue.number y)]

/-- The command `\x7btype: config, category: drone, generationInterval: g\x7d`. -/
@[reducible]
noncomputable def droneCommand (g : Int) : QJsonObject :=
  [("type", QJsonValue.string "config"), ("category", QJsonValue.string "drone"),
   ("generationInterval", QJsonValue.number (g : ℝ))]

/-- The command `\x7btype: query, request: current_settings\x7d`. -/
@[reducible]
def settingsQuery : QJsonObject :=
  [("type", QJsonValue.string "query"), ("request", QJsonValue.string "current_settings")]

/-- Control state of a freshly constructed simulator (centre (0, 0), radius
800, scan interval 1000) and registry (generation interval 3000), both timers
stopped. -/
def freshControl : ControlState :=
  { sim := { m_radarCenter := ⟨0, 0⟩, m_radarRadius := 800, m_scanInterval := 1000,
             m_latestDetections := [] }
    scanTimerActive := false
    manager := DroneManager.new 2000
    generationTimerActive := false }

/-- Formatting used in examples. -/
def sampleArg : QStringArg := { ofInt := fun _ => "n", ofDouble := fun _ => "x" }

/-! ## Theorems -/

open WeaponStrategy DroneManager

/-! ### Targeting engine: cooldown gate -/

theorem canFire_eq_false_iff (w : WeaponStrategy) (t : Int) :
    w.canFire t = false ↔
      w.m_lastFireTime ≠ 0 ∧
        ((t - w.m_lastFireTime : Int) : ℝ) < w.m_currentConfig.cooldownTime * 1000 := by
  unfold canFire
  by_cases h : w.m_lastFireTime = 0
  · simp [h]
  · simp only [h, if_false, ne_eq, not_false_eq_true, true_and, decide_eq_false_iff_not, ge_iff_le,
      not_le]
    rw [div_lt_iff₀ (by norm_num : (0 : ℝ) < 1000)]

theorem executeStrike_of_cooling (w : WeaponStrategy) (m : DroneManager)
    (radarCenter : QPointF) (radarRadius : ℝ) (t tPredict tFire : Int)
    (hfired : w.m_lastFireTime ≠ 0)
    (hcooling : ((t - w.m_lastFireTime : Int) : ℝ) < w.m_currentConfig.cooldownTime * 1000) :
    (w.executeStrike m radarCenter radarRadius t tPredict tFire).fired = false ∧
    (w.executeStrike m radarCenter radarRadius t tPredict tFire).manager = m ∧
    (w.executeStrike m radarCenter radarRadius t tPredict tFire).weapon = w ∧
    (w.executeStrike m radarCenter radarRadius t tPredict tFire).events = [] := by
  have h : w.canFire t = false := (canFire_eq_false_iff w t).2 ⟨hfired, hcooling⟩
  simp [executeStrike, h]

/-- C9. No valid target means failure without mutation: whatever the weapon
configuration, if no active entity of the registry lies within `radarRadius`
of `radarCenter`, `executeStrike` returns false, emits no signal (neither
`strikeTarget` nor `weaponFired` runs), leaves the registry unchanged and
leaves the engine unchanged, so no cooldown starts. -/
theorem executeStrike_no_target (w : WeaponStrategy) (m : DroneManager)
    (radarCenter : QPointF) (radarRadius : ℝ) (tCheck tPredict tFire : Int)
    (hnone : ∀ d ∈ m.m_drones, d.m_active = true →
      radarRadius < Real.sqrt
        ((d.m_currentPosition.x - radarCenter.x) * (d.m_currentPosition.x - radarCenter.x)
          + (d.m_currentPosition.y - radarCenter.y) * (d.m_currentPosition.y - radarCenter.y))) :
    (w.executeStrike m radarCenter radarRadius tCheck tPredict tFire).fired = false ∧
    (w.executeStrike m radarCenter radarRadius tCheck tPredict tFire).manager = m ∧
    (w.executeStrike m radarCenter radarRadius tCheck tPredict tFire).weapon = w ∧
    (w.executeStrike m radarCenter radarRadius tCheck tPredict tFire).events = [] := by
  have findMissileThreatTarget_nil (w : WeaponStrategy) (m : DroneManager) (c : QPointF) (r : ℝ)
      (h : m.getDronesInRadarRange c r = []) :
      findMissileThreatTarget w m c r = QPointF.null := by
    simp [findMissileThreatTarget, h]
  have getDronesInRadarRange_eq_nil (m : DroneManager) (c : QPointF) (r : ℝ)
      (hnone : ∀ d ∈ m.m_drones, d.m_active = true →
        r < Real.sqrt ((d.m_currentPosition.x - c.x) * (d.m_currentPosition.x - c.x)
          + (d.m_currentPosition.y - c.y) * (d.m_currentPosition.y - c.y))) :
      m.getDronesInRadarRange c r = [] := by
    unfold getDronesInRadarRange getActiveDrones
    rw [List.filter_filter, List.filter_eq_nil_iff]
    intro d hd hboth
    simp only [Bool.and_eq_true, Drone.isInRadarRange, decide_eq_true_eq] at hboth
    exact absurd hboth.1 (not_le.2 (hnone d hd hboth.2))
  have findLaserThreatTarget_nil (m : DroneManager) (c : QPointF) (r : ℝ)
      (h : m.getDronesInRadarRange c r = []) : findLaserThreatTarget m c r = QPointF.null := by
    simp [findLaserThreatTarget, h]
  have findLaserTimeTarget_nil (m : DroneManager) (c : QPointF) (r : ℝ)
      (h : m.getDronesInRadarRange c r = []) : findLaserTimeTarget m c r = QPointF.null := by
    simp [findLaserTimeTarget, h]
  have findMissileTimeTarget_nil (w : WeaponStrategy) (m : DroneManager) (c : QPointF) (r : ℝ)
      (now : Int) (h : m.getDronesInRadarRange c r = []) :
      findMissileTimeTarget w m c r now = QPointF.null := by
    simp [findMissileTimeTarget, getDronesWithTimeToLeave, h, findMissileThreatTarget_nil]
  have executeStrike_of_null_target (w : WeaponStrategy) (m : DroneManager) (c : QPointF)
      (r : ℝ) (tCheck tPredict tFire : Int)
      (hthreat : findThreatPriorityTarget w m w.m_currentConfig.type c r = QPointF.null)
      (htime : findTimePriorityTarget w m w.m_currentConfig.type c r tPredict = QPointF.null) :
      w.executeStrike m c r tCheck tPredict tFire = ⟨false, w, m, []⟩ := by
    unfold executeStrike
    by_cases hcan : w.canFire tCheck = true
    · by_cases hs : w.m_currentConfig.strategy = TargetingStrategy.ThreatPriority
      · simp [hcan, hs, hthreat, QPointF.isNull, QPointF.null]
      · simp [hcan, hs, htime, QPointF.isNull, QPointF.null]
    · simp [hcan]
  have h := getDronesInRadarRange_eq_nil m radarCenter radarRadius hnone
  have e := executeStrike_of_null_target w m radarCenter radarRadius tCheck tPredict tFire
    (by unfold findThreatPriorityTarget
        split
        · exact findLaserThreatTarget_nil m _ _ h
        · exact findMissileThreatTarget_nil w m _ _ h)
    (by unfold findTimePriorityTarget
        split
        · exact findLaserTimeTarget_nil m _ _ h
        · exact findMissileTimeTarget_nil w m _ _ _ h)
  rw [e]
  exact ⟨rfl, rfl, rfl, rfl⟩

theorem executeStrike_no_target_witness :
    (∀ d ∈ (registryOf [droneAt ⟨900, 0⟩]).m_drones, d.m_active = true →
      (800 : ℝ) < Real.sqrt
        ((d.m_currentPosition.x - (0 : ℝ)) * (d.m_currentPosition.x - (0 : ℝ))
          + (d.m_currentPosition.y - (0 : ℝ)) * (d.m_currentPosition.y - (0 : ℝ)))) ∧
    ((weaponWith WeaponType.Missile TargetingStrategy.TimePriority 0).executeStrike
        (registryOf [droneAt ⟨900, 0⟩]) ⟨0, 0⟩ 800 5000 5000 5000).fired = false := by
  have hn : ∀ d ∈ (registryOf [droneAt ⟨900, 0⟩]).m_drones, d.m_active = true →
      (800 : ℝ) < Real.sqrt
        ((d.m_currentPosition.x - (0 : ℝ)) * (d.m_currentPosition.x - (0 : ℝ))
          + (d.m_currentPosition.y - (0 : ℝ)) * (d.m_currentPosition.y - (0 : ℝ))) := by
    intro d hd _
    simp only [registryOf, List.mem_singleton] at hd
    subst hd
    rw [Real.lt_sqrt (by norm_num)]
    simp only [droneAt, Drone.newBallistic]
    norm_num
  exact ⟨hn, (executeStrike_no_target _ _ ⟨0, 0⟩ 800 5000 5000 5000 hn).1⟩

/-! ### Cooldown and configuration switch -/

theorem canFire_eq_true_iff (w : WeaponStrategy) (t : Int) :
    w.canFire t = true ↔
      w.m_lastFireTime = 0 ∨
        w.m_currentConfig.cooldownTime * 1000 ≤ ((t - w.m_lastFireTime : Int) : ℝ) := by
  unfold canFire
  by_cases h : w.m_lastFireTime = 0
  · simp [h]
  · simp only [h, if_false, false_or, decide_eq_true_eq, ge_iff_le]
    rw [le_div_iff₀ (by norm_num : (0 : ℝ) < 1000)]

theorem weaponWith_config_laser_threat (f : Int) :
    (weaponWith WeaponType.Laser TargetingStrategy.ThreatPriority f).m_currentConfig.cooldownTime
      = 3 / 2 ∧
    (weaponWith WeaponType.Laser TargetingStrategy.ThreatPriority f).m_currentConfig.type
      = WeaponType.Laser ∧
    (weaponWith WeaponType.Laser TargetingStrategy.ThreatPriority f).m_currentConfig.strategy
      = TargetingStrategy.ThreatPriority ∧
    (weaponWith WeaponType.Laser TargetingStrategy.ThreatPriority f).m_lastFireTime = f := by
  simp [weaponWith, WeaponStrategy.new, setCurrentStrategy, initializeStrategies]

theorem setCurrentStrategy_catalog (w : WeaponStrategy) (type : WeaponType)
    (strategy : TargetingStrategy) (hcat : w.m_strategies = initializeStrategies) :
    (w.setCurrentStrategy type strategy).1.m_lastFireTime = w.m_lastFireTime ∧
    (w.setCurrentStrategy type strategy).1.m_currentConfig.type = type ∧
    (w.setCurrentStrategy type strategy).1.m_currentConfig.strategy = strategy ∧
    (w.setCurrentStrategy type strategy).1.m_currentConfig.cooldownTime
      = (if type = WeaponType.Laser then 3 / 2 else 4 / 5) := by
  cases type <;> cases strategy <;>
    simp [setCurrentStrategy, hcat, initializeStrategies]

/-- C8 (failing input). After a laser shot at time 1000 the engine is still
cooling at time 2000 (`canFire` false, 0.5 s remaining); switching to the
missile configuration at that moment makes `canFire` true and the remaining
time 0: the switch changes the answers of `canFire` and `getTimeUntilReady`
while the cooldown is in progress.  The single-shot cooldown timer that the
shot started with 1500 ms is not restarted by the switch, so the engine
reports ready 500 ms before its own timer signals the end of the cooldown. -/
theorem switch_profile_changes_cooldown :
    (weaponWith WeaponType.Laser TargetingStrategy.ThreatPriority 1000).canFire 2000 = false ∧
    (((weaponWith WeaponType.Laser TargetingStrategy.ThreatPriority 1000).setCurrentStrategy
        WeaponType.Missile TargetingStrategy.ThreatPriority).1).canFire 2000 = true ∧
    (weaponWith WeaponType.Laser TargetingStrategy.ThreatPriority 1000).getTimeUntilReady
        2000 2000 = 1 / 2 ∧
    (((weaponWith WeaponType.Laser TargetingStrategy.ThreatPriority 1000).setCurrentStrategy
        WeaponType.Missile TargetingStrategy.ThreatPriority).1).getTimeUntilReady
        2000 2000 = 0 := by
  have hcat : (weaponWith WeaponType.Laser TargetingStrategy.ThreatPriority 1000).m_strategies
      = initializeStrategies := by
    simp [weaponWith, WeaponStrategy.new, setCurrentStrategy, initializeStrategies]
  obtain ⟨hc, -, -, hf⟩ := weaponWith_config_laser_threat 1000
  obtain ⟨hf₂, -, -, hc₂⟩ := setCurrentStrategy_catalog _ WeaponType.Missile
    TargetingStrategy.ThreatPriority hcat
  have h1 : (weaponWith WeaponType.Laser TargetingStrategy.ThreatPriority 1000).canFire 2000
      = false := by
    rw [canFire_eq_false_iff, hc, hf]; norm_num
  have h2 : (((weaponWith WeaponType.Laser TargetingStrategy.ThreatPriority 1000).setCurrentStrategy
        WeaponType.Missile TargetingStrategy.ThreatPriority).1).canFire 2000 = true := by
    rw [canFire_eq_true_iff, hc₂, hf₂, hf]; simp; norm_num
  refine ⟨h1, h2, ?_, ?_⟩
  · simp only [getTimeUntilReady, h1, hc, hf]; norm_num
  · simp only [getTimeUntilReady, h2]; norm_num

/-- In an engine holding the catalog, `setCurrentStrategy` never changes the
last-fire time, and when the selected pair keeps the current weapon profile
(so the cooldown time is the same) `canFire` and `getTimeUntilReady` give the
same results before and after the switch. -/
theorem switch_strategy_keeps_cooldown (w : WeaponStrategy) (type : WeaponType)
    (strategy : TargetingStrategy) (t₁ t₂ : Int)
    (hcat : w.m_strategies = initializeStrategies)
    (hcur : w.m_currentConfig ∈ initializeStrategies) :
    (w.setCurrentStrategy type strategy).1.m_lastFireTime = w.m_lastFireTime ∧
    (type = w.m_currentConfig.type →
      (w.setCurrentStrategy type strategy).1.canFire t₁ = w.canFire t₁ ∧
      (w.setCurrentStrategy type strategy).1.getTimeUntilReady t₁ t₂
        = w.getTimeUntilReady t₁ t₂) := by
  have canFire_congr (w w₂ : WeaponStrategy) (t : Int)
      (hf : w₂.m_lastFireTime = w.m_lastFireTime)
      (hc : w₂.m_currentConfig.cooldownTime = w.m_currentConfig.cooldownTime) :
      w₂.canFire t = w.canFire t := by
    simp [canFire, hf, hc]
  have catalog_cooldown (config : WeaponConfig) (h : config ∈ initializeStrategies) :
      config.cooldownTime = (if config.type = WeaponType.Laser then 3 / 2 else 4 / 5) := by
    simp only [initializeStrategies, List.mem_cons, List.mem_singleton, List.not_mem_nil,
      or_false] at h
    rcases h with h | h | h | h <;> subst h <;> simp
  have getTimeUntilReady_congr (w w₂ : WeaponStrategy) (t₁ t₂ : Int)
      (hf : w₂.m_lastFireTime = w.m_lastFireTime)
      (hc : w₂.m_currentConfig.cooldownTime = w.m_currentConfig.cooldownTime) :
      w₂.getTimeUntilReady t₁ t₂ = w.getTimeUntilReady t₁ t₂ := by
    simp [getTimeUntilReady, canFire_congr w w₂ t₁ hf hc, hf, hc]
  obtain ⟨hf, -, -, hc⟩ := setCurrentStrategy_catalog w type strategy hcat
  refine ⟨hf, fun hty => ?_⟩
  have hcc : (w.setCurrentStrategy type strategy).1.m_currentConfig.cooldownTime
      = w.m_currentConfig.cooldownTime := by
    rw [hc, catalog_cooldown _ hcur, hty]
  exact ⟨canFire_congr _ _ _ hf hcc, getTimeUntilReady_congr _ _ _ _ hf hcc⟩

/-- A successful `executeStrike` starts the single-shot cooldown timer with the
cooldown time of the configuration that fires; `setCurrentStrategy` emits at
most `strategyChanged` and keeps the last-fire time: it does not restart the
timer. -/
theorem cooldown_timer_started_by_fire_alone (w : WeaponStrategy) (m : DroneManager)
    (c : QPointF) (r : ℝ) (tCheck tPredict tFire : Int) (type : WeaponType)
    (strategy : TargetingStrategy) :
    ((w.executeStrike m c r tCheck tPredict tFire).fired = true →
      Event.cooldownTimerStarted (truncToInt (w.m_currentConfig.cooldownTime * 1000))
        ∈ (w.executeStrike m c r tCheck tPredict tFire).events) ∧
    (∀ ev ∈ (w.setCurrentStrategy type strategy).2,
      ∃ config, ev = Event.strategyChanged config) ∧
    (w.setCurrentStrategy type strategy).1.m_lastFireTime = w.m_lastFireTime := by
  refine ⟨fun h => ?_, ?_, ?_⟩
  · unfold executeStrike at h ⊢
    by_cases hcan : w.canFire tCheck = true
    · simp only [hcan, Bool.not_true, Bool.false_eq_true, if_false] at h ⊢
      generalize (if w.m_currentConfig.strategy = TargetingStrategy.ThreatPriority then
          findThreatPriorityTarget w m w.m_currentConfig.type c r
        else findTimePriorityTarget w m w.m_currentConfig.type c r tPredict) = target at h ⊢
      by_cases hn : target.isNull
      · simp [hn] at h
      · simp [hn]
    · simp [hcan] at h
  · intro ev hev
    unfold setCurrentStrategy at hev
    cases hfind : w.m_strategies.find?
        (fun config => config.type = type ∧ config.strategy = strategy) with
    | none => rw [hfind] at hev; exact absurd hev (List.not_mem_nil ev)
    | some config =>
      rw [hfind] at hev
      exact ⟨config, List.mem_singleton.1 hev⟩
  · unfold setCurrentStrategy
    cases hfind : w.m_strategies.find?
        (fun config => config.type = type ∧ config.strategy = strategy) with
    | none => rfl
    | some config => rfl

/-! ### Fire attempts -/

theorem executeStrike_fired_iff (w : WeaponStrategy) (m : DroneManager) (c : QPointF) (r : ℝ)
    (tCheck tPredict tFire : Int) :
    (w.executeStrike m c r tCheck tPredict tFire).fired = true ↔
      w.canFire tCheck = true ∧
      ¬ (if w.m_currentConfig.strategy = TargetingStrategy.ThreatPriority then
          findThreatPriorityTarget w m w.m_currentConfig.type c r
        else
          findTimePriorityTarget w m w.m_currentConfig.type c r tPredict).isNull := by
  unfold executeStrike
  by_cases hcan : w.canFire tCheck = true
  · simp only [hcan, Bool.not_true, Bool.false_eq_true, if_false, true_and]
    generalize (if w.m_currentConfig.strategy = TargetingStrategy.ThreatPriority then
        findThreatPriorityTarget w m w.m_currentConfig.type c r
      else findTimePriorityTarget w m w.m_currentConfig.type c r tPredict) = target
    by_cases hn : target.isNull <;> simp [hn]
  · simp [hcan]

theorem executeStrike_fired_lastFireTime (w : WeaponStrategy) (m : DroneManager) (c : QPointF)
    (r : ℝ) (tCheck tPredict tFire : Int)
    (h : (w.executeStrike m c r tCheck tPredict tFire).fired = true) :
    (w.executeStrike m c r tCheck tPredict tFire).weapon.m_lastFireTime = tFire ∧
    (w.executeStrike m c r tCheck tPredict tFire).weapon.m_currentConfig = w.m_currentConfig := by
  unfold executeStrike at h ⊢
  by_cases hcan : w.canFire tCheck = true
  · simp only [hcan, Bool.not_true, Bool.false_eq_true, if_false] at h ⊢
    generalize (if w.m_currentConfig.strategy = TargetingStrategy.ThreatPriority then
        findThreatPriorityTarget w m w.m_currentConfig.type c r
      else findTimePriorityTarget w m w.m_currentConfig.type c r tPredict) = target at h ⊢
    by_cases hn : target.isNull
    · simp [hn] at h
    · simp [hn]
  · simp [hcan] at h

/-- Attempt 500 ms after a fire with the 1.5 s single-target profile fails. -/
theorem laser_attempt_after_500ms_fails (f : Int) (hf : f ≠ 0) (m : DroneManager) (c : QPointF)
    (r : ℝ) (tPredict tFire : Int) :
    ((weaponWith WeaponType.Laser TargetingStrategy.ThreatPriority f).executeStrike m c r
      (f + 500) tPredict tFire).fired = false := by
  obtain ⟨hc, -, -, hl⟩ := weaponWith_config_laser_threat f
  refine (executeStrike_of_cooling _ m c r (f + 500) tPredict tFire ?_ ?_).1
  · rw [hl]; exact hf
  · rw [hl, hc]; simp; norm_num

/-- Attempt 2000 ms after a fire with the 1.5 s single-target profile passes
the cooldown gate: it fires exactly when the selected point is not the null
point. -/
theorem laser_attempt_after_2000ms (f : Int) (m : DroneManager) (c : QPointF)
    (r : ℝ) (tPredict tFire : Int) :
    ((weaponWith WeaponType.Laser TargetingStrategy.ThreatPriority f).executeStrike m c r
      (f + 2000) tPredict tFire).fired = true ↔ ¬ (findLaserThreatTarget m c r).isNull := by
  obtain ⟨hc, hty, hst, hl⟩ := weaponWith_config_laser_threat f
  rw [executeStrike_fired_iff]
  have hcan : (weaponWith WeaponType.Laser TargetingStrategy.ThreatPriority f).canFire (f + 2000)
      = true := by
    rw [canFire_eq_true_iff, hl, hc]; right; simp; norm_num
  simp [hcan, hst, hty, findThreatPriorityTarget]

theorem droneAt_position (p : QPointF) : (droneAt p).m_currentPosition = p := rfl

theorem registryOf_single_active (p : QPointF) :
    (registryOf [droneAt p]).getActiveDrones = [droneAt p] := by
  have droneAt_active (p : QPointF) : (droneAt p).m_active = true := rfl
  simp [getActiveDrones, registryOf, droneAt_active]

/-- C7 (failing input). Laser / threat priority, fired at time 1000; at time
3000, two seconds later, the cooldown has elapsed and one active entity is in
radar range, standing at the point (0, 0).  The selected target is the null
point, which `executeStrike` takes for "no target": the attempt fails. -/
theorem laser_does_not_fire_on_entity_at_origin :
    (weaponWith WeaponType.Laser TargetingStrategy.ThreatPriority 1000).canFire 3000 = true ∧
    (registryOf [droneAt ⟨0, 0⟩]).getDronesInRadarRange ⟨0, 0⟩ 800 = [droneAt ⟨0, 0⟩] ∧
    ((weaponWith WeaponType.Laser TargetingStrategy.ThreatPriority 1000).executeStrike
      (registryOf [droneAt ⟨0, 0⟩]) ⟨0, 0⟩ 800 3000 3000 3000).fired = false := by
  obtain ⟨hc, -, -, hl⟩ := weaponWith_config_laser_threat 1000
  have hrange : (registryOf [droneAt ⟨0, 0⟩]).getDronesInRadarRange ⟨0, 0⟩ 800
      = [droneAt ⟨0, 0⟩] := by
    simp [getDronesInRadarRange, registryOf_single_active, Drone.isInRadarRange,
      droneAt_position]
  refine ⟨?_, hrange, ?_⟩
  · rw [canFire_eq_true_iff, hl, hc]; right; norm_num
  · have h := laser_attempt_after_2000ms 1000 (registryOf [droneAt ⟨0, 0⟩]) ⟨0, 0⟩ 800 3000 3000
    have hnull : (findLaserThreatTarget (registryOf [droneAt ⟨0, 0⟩]) ⟨0, 0⟩ 800).isNull := by
      simp [findLaserThreatTarget, hrange, sortByThreat, droneAt_position, QPointF.isNull]
    have h2 : ¬ ((weaponWith WeaponType.Laser TargetingStrategy.ThreatPriority 1000).executeStrike
        (registryOf [droneAt ⟨0, 0⟩]) ⟨0, 0⟩ 800 (1000 + 2000) 3000 3000).fired = true := by
      rw [h]; exact fun hn => hn hnull
    simpa using h2

/-! ### The grid search on a registry with one entity -/

theorem foldl_fixed {α β : Type} (f : β → α → β) (s : β) (l : List α)
    (h : ∀ a ∈ l, f s a = s) : l.foldl f s = s := by
  induction l with
  | nil => rfl
  | cons a l ih =>
    rw [List.foldl_cons, h a (List.mem_cons_self _ _)]
    exact ih (fun b hb => h b (List.mem_cons_of_mem _ hb))

theorem getThreatScore_pos (d : Drone) : 0 < d.getThreatScore := by
  unfold Drone.getThreatScore
  exact div_pos (by norm_num) (lt_of_lt_of_le one_pos (le_max_left _ _))

theorem single_strikeRange (p c : QPointF) (r : ℝ) :
    (registryOf [droneAt p]).getDronesInStrikeRange c r
      = if (droneAt p).isInStrikeRange c r then [droneAt p] else [] := by
  simp [getDronesInStrikeRange, registryOf_single_active, List.filter_cons]

theorem weaponWith_config_missile_threat (f : Int) :
    (weaponWith WeaponType.Missile TargetingStrategy.ThreatPriority f).m_currentConfig.radius
      = 150 ∧
    (weaponWith WeaponType.Missile TargetingStrategy.ThreatPriority f).m_currentConfig.type
      = WeaponType.Missile ∧
    (weaponWith WeaponType.Missile TargetingStrategy.ThreatPriority f).m_currentConfig.strategy
      = TargetingStrategy.ThreatPriority ∧
    (weaponWith WeaponType.Missile TargetingStrategy.ThreatPriority f).m_lastFireTime = f := by
  simp [weaponWith, WeaponStrategy.new, setCurrentStrategy, initializeStrategies]

set_option maxRecDepth 100000 in
/-- C10 (failing input). Missile / threat priority, never fired, radar centre
(0, 0), radius 800, one active entity at (100, 100).  The grid search returns
the cell (0, 0), the first cell whose blast radius holds the entity;
`findMissileThreatTarget` returns it, and `executeStrike` takes this null
point for "no target": the weapon is ready, a target is in range, and no shot
is fired. -/
theorem missile_threat_does_not_fire_when_best_cell_is_origin :
    (weaponWith WeaponType.Missile TargetingStrategy.ThreatPriority 0).canFire 5000 = true ∧
    (registryOf [droneAt ⟨100, 100⟩]).getDronesInRadarRange ⟨0, 0⟩ 800
      = [droneAt ⟨100, 100⟩] ∧
    findMissileThreatTarget (weaponWith WeaponType.Missile TargetingStrategy.ThreatPriority 0)
      (registryOf [droneAt ⟨100, 100⟩]) ⟨0, 0⟩ 800 = ⟨0, 0⟩ ∧
    ((weaponWith WeaponType.Missile TargetingStrategy.ThreatPriority 0).executeStrike
      (registryOf [droneAt ⟨100, 100⟩]) ⟨0, 0⟩ 800 5000 5000 5000).fired = false := by
  have findOptimalStrikePoint_single_100_100 :
      (registryOf [droneAt ⟨100, 100⟩]).findOptimalStrikePoint 150 800 = ⟨0, 0⟩ := by
    have single_totalThreat_le (p c : QPointF) (r : ℝ) :
        calculateTotalThreat ((registryOf [droneAt p]).getDronesInStrikeRange c r)
          ≤ (droneAt p).getThreatScore := by
      rw [single_strikeRange]
      split
      · simp [calculateTotalThreat]
      · simp only [calculateTotalThreat, List.foldl_nil]
        exact (getThreatScore_pos _).le
    /- Cells visited before the cell `(0, 0)`. -/
    have gridCells_split :
        gridCells 20 = (gridCells 20).take 220 ++ (0, 0) :: (gridCells 20).drop 221 := by
      decide
    have gridCells_before_origin :
        ∀ cell ∈ (gridCells 20).take 220, cell.1 ≤ -1 ∨ (cell.1 = 0 ∧ cell.2 ≤ -1) := by
      decide
    have not_inStrikeRange_before_origin (cell : Int × Int)
        (h : cell.1 ≤ -1 ∨ (cell.1 = 0 ∧ cell.2 ≤ -1)) :
        (droneAt ⟨100, 100⟩).isInStrikeRange ⟨(cell.1 : ℝ) * 80, (cell.2 : ℝ) * 80⟩ 150 = false := by
      simp only [Drone.isInStrikeRange, droneAt_position, decide_eq_false_iff_not, not_le]
      rw [Real.lt_sqrt (by norm_num)]
      rcases h with h | ⟨h1, h2⟩
      · have hx : (cell.1 : ℝ) ≤ -1 := by exact_mod_cast h
        nlinarith [mul_self_nonneg ((100 : ℝ) - (cell.2 : ℝ) * 80)]
      · have hx : (cell.1 : ℝ) = 0 := by exact_mod_cast h1
        have hy : (cell.2 : ℝ) ≤ -1 := by exact_mod_cast h2
        rw [hx]
        nlinarith
    have hin : (droneAt ⟨100, 100⟩).isInRadarRange ⟨0, 0⟩ 800 = true := by
      simp only [Drone.isInRadarRange, droneAt_position, decide_eq_true_eq]
      rw [Real.sqrt_le_left (by norm_num)]
      norm_num
    have hstep : (800 : ℝ) * 2 / ((20 : ℕ) : ℝ) = 80 := by norm_num
    have hpre : ∀ cell ∈ (gridCells 20).take 220,
        (registryOf [droneAt ⟨100, 100⟩]).strikePointStep 150 800 80 (⟨0, 0⟩, 0) cell
          = (⟨0, 0⟩, 0) := by
      intro cell hcell
      dsimp only [strikePointStep]
      rw [single_strikeRange,
        not_inStrikeRange_before_origin cell (gridCells_before_origin cell hcell)]
      simp [calculateTotalThreat]
    have hmid : (registryOf [droneAt ⟨100, 100⟩]).strikePointStep 150 800 80 (⟨0, 0⟩, 0) (0, 0)
        = (⟨0, 0⟩, (droneAt ⟨100, 100⟩).getThreatScore) := by
      have hr : (droneAt ⟨100, 100⟩).isInStrikeRange ⟨0, 0⟩ 150 = true := by
        simp only [Drone.isInStrikeRange, droneAt_position, decide_eq_true_eq]
        rw [Real.sqrt_le_left (by norm_num)]
        norm_num
      simp [strikePointStep, QPointF.manhattanLength, single_strikeRange, hr, calculateTotalThreat,
        getThreatScore_pos]
    have hpost : ∀ cell ∈ (gridCells 20).drop 221,
        (registryOf [droneAt ⟨100, 100⟩]).strikePointStep 150 800 80
          (⟨0, 0⟩, (droneAt ⟨100, 100⟩).getThreatScore) cell
          = (⟨0, 0⟩, (droneAt ⟨100, 100⟩).getThreatScore) := by
      intro cell _
      dsimp only [strikePointStep]
      rw [if_neg (not_lt.2 (single_totalThreat_le _ _ _))]
      simp
    unfold findOptimalStrikePoint
    have hne : ((registryOf [droneAt ⟨100, 100⟩]).getDronesInRadarRange ⟨0, 0⟩ 800).isEmpty
        = false := by
      simp [getDronesInRadarRange, registryOf_single_active, hin]
    simp only [hne, Bool.false_eq_true, if_false, hstep]
    rw [gridCells_split, List.foldl_append, foldl_fixed _ _ _ hpre, List.foldl_cons, hmid,
      foldl_fixed _ _ _ hpost]
  obtain ⟨hrad, hty, hst, hl⟩ := weaponWith_config_missile_threat 0
  have hin : (droneAt ⟨100, 100⟩).isInRadarRange ⟨0, 0⟩ 800 = true := by
    simp only [Drone.isInRadarRange, droneAt_position, decide_eq_true_eq]
    rw [Real.sqrt_le_left (by norm_num)]
    norm_num
  have hrange : (registryOf [droneAt ⟨100, 100⟩]).getDronesInRadarRange ⟨0, 0⟩ 800
      = [droneAt ⟨100, 100⟩] := by
    simp [getDronesInRadarRange, registryOf_single_active, hin]
  have hr : (droneAt ⟨100, 100⟩).isInStrikeRange ⟨0, 0⟩ 150 = true := by
    simp only [Drone.isInStrikeRange, droneAt_position, decide_eq_true_eq]
    rw [Real.sqrt_le_left (by norm_num)]
    norm_num
  have htarget : findMissileThreatTarget
      (weaponWith WeaponType.Missile TargetingStrategy.ThreatPriority 0)
      (registryOf [droneAt ⟨100, 100⟩]) ⟨0, 0⟩ 800 = ⟨0, 0⟩ := by
    unfold findMissileThreatTarget
    simp only [hrange, hrad, findOptimalStrikePoint_single_100_100, single_strikeRange, hr]
    simp
  have hcan : (weaponWith WeaponType.Missile TargetingStrategy.ThreatPriority 0).canFire 5000
      = true := by
    rw [canFire_eq_true_iff, hl]; left; rfl
  refine ⟨hcan, hrange, htarget, ?_⟩
  have hnot : ¬ ((weaponWith WeaponType.Missile TargetingStrategy.ThreatPriority 0).executeStrike
      (registryOf [droneAt ⟨100, 100⟩]) ⟨0, 0⟩ 800 5000 5000 5000).fired = true := by
    rw [executeStrike_fired_iff]
    simp [hst, hty, findThreatPriorityTarget, htarget, QPointF.isNull]
  simpa using hnot

/-! ### Wire format: stream primitives -/

open QDataStream RadarSimulator RadarDisplay

theorem toBytesBE_length (width n : Nat) : (toBytesBE width n).length = width := by
  induction width generalizing n with
  | zero => rfl
  | succ k ih => simp [toBytesBE, ih]

theorem fromBytesBE_toBytesBE (width n : Nat) :
    fromBytesBE (toBytesBE width n) = n % 256 ^ width := by
  have fromBytesBE_append_single (l : List Nat) (b : Nat) :
      fromBytesBE (l ++ [b]) = fromBytesBE l * 256 + b := by
    simp [fromBytesBE, List.foldl_append]
  induction width generalizing n with
  | zero => simp [toBytesBE, fromBytesBE, Nat.mod_one]
  | succ k ih =>
    rw [toBytesBE, fromBytesBE_append_single, ih, pow_succ, Nat.mul_comm (256 ^ k) 256,
      Nat.mod_mul]
    ring

theorem readBlock_append (l rest : List Nat) :
    readBlock l.length (l ++ rest) = (some l, rest) := by
  simp [readBlock]

theorem readUInt_short (len : Nat) (s : List Nat) (h : s.length < len) :
    readUInt len s = (0, []) := by
  have readBlock_short (len : Nat) (s : List Nat) (h : s.length < len) :
      readBlock len s = (none, []) := by
    simp [readBlock, Nat.not_le.2 h]
  simp [readUInt, readBlock_short len s h]

theorem readUInt_toBytesBE (width n : Nat) (rest : List Nat) :
    readUInt width (toBytesBE width n ++ rest) = (n % 256 ^ width, rest) := by
  have h := readBlock_append (toBytesBE width n) rest
  rw [toBytesBE_length] at h
  simp [readUInt, h, fromBytesBE_toBytesBE]

theorem readQuint32_write (v : Nat) (rest : List Nat) (h : v < 4294967296) :
    readQuint32 (writeQuint32 v ++ rest) = (v, rest) := by
  rw [readQuint32, writeQuint32, readUInt_toBytesBE]
  norm_num
  omega

theorem readQint32_write (v : Int) (rest : List Nat) (h : IsInt32 v) :
    readQint32 (writeQint32 v ++ rest) = (v, rest) := by
  have toSigned_toUnsigned_32 (v : Int) (h : IsInt32 v) :
      toSigned 32 (toUnsigned 32 v % 256 ^ 4) = v := by
    obtain ⟨h1, h2⟩ := h
    simp only [toSigned, toUnsigned]
    norm_num
    omega
  rw [readQint32, writeQint32, readUInt_toBytesBE, toSigned_toUnsigned_32 v h]

/-! ### Wire format: records and frames -/

theorem parseDatagram_header (codec : F64Codec) (now : Int) (count : Nat) (body : List Nat)
    (hcount : count < 4294967296) :
    parseDatagram codec
      (writeQuint32 0x52444152 ++ writeQuint32 1 ++ writeQint64 now ++ writeQuint32 count ++ body)
      = some (parseDetections codec count body) := by
  have readQint64_write_rest (v : Int) (rest : List Nat) :
      (readQint64 (writeQint64 v ++ rest)).2 = rest := by
    simp [readQint64, writeQint64, readUInt_toBytesBE]
  simp only [parseDatagram, List.append_assoc,
    readQuint32_write _ _ (by norm_num : (0x52444152 : Nat) < 4294967296),
    readQuint32_write _ _ (by norm_num : (1 : Nat) < 4294967296), readQint64_write_rest,
    readQuint32_write _ _ hcount]
  simp

/-! ### Receiver: discarded frames -/

theorem readQuint32_of_le (s : List Nat) (h : 4 ≤ s.length) :
    readQuint32 s = (fromBytesBE (s.take 4), s.drop 4) := by
  simp [readQuint32, readUInt, readBlock, h]

theorem parseDatagram_short (codec : F64Codec) (datagram : List Nat)
    (h : datagram.length < 8) : parseDatagram codec datagram = none := by
  by_cases h4 : datagram.length < 4
  · simp [parseDatagram, readQuint32, readUInt_short 4 datagram h4]
  · have hv : readQuint32 (readQuint32 datagram).2 = (0, []) := by
      rw [readQuint32_of_le datagram (by omega)]
      exact readUInt_short 4 _ (by simp only [List.length_drop]; omega)
    simp [parseDatagram, hv]

theorem handleDatagram_of_none (codec : F64Codec) (disp : RadarDisplay) (datagram : List Nat)
    (now : Int) (h : parseDatagram codec datagram = none) :
    handleDatagram codec disp datagram now = (disp, []) := by
  simp [handleDatagram, h]

theorem handleDatagram_of_some (codec : F64Codec) (disp : RadarDisplay) (datagram : List Nat)
    (now : Int) (ds : List RadarDetection) (h : parseDatagram codec datagram = some ds) :
    handleDatagram codec disp datagram now = processRadarData disp ds now := by
  unfold handleDatagram
  rw [h]

/-! ### Receiver: truncated frames -/

theorem parseDatagram_cut_in_body (codec : F64Codec) (now : Int) (ds : List RadarDetection)
    (k : Nat) (hlen : ds.length < 4294967296) (h20 : 20 ≤ k) :
    parseDatagram codec ((serializeDetections codec now ds).take k)
      = some (parseDetections codec ds.length
          (((ds.map (serializeDetection codec)).flatten).take (k - 20))) := by
  have hh : (writeQuint32 0x52444152 ++ writeQuint32 1 ++ writeQint64 now
      ++ writeQuint32 ds.length).length = 20 := by
    simp [writeQuint32, writeQint64, toBytesBE_length]
  rw [serializeDetections, List.take_append_eq_append_take, List.take_of_length_le (by omega),
    hh, parseDatagram_header codec now _ _ hlen]

/-! ### Claims on motion, wire format, azimuth and the cooldown gate -/

/-- C1. An active ballistic entity (origin `m_initialPosition`, velocity
`(m_velocityX, m_velocityY)`, start time `m_startTime`) is, at every time `t`
in milliseconds, at `origin + velocity * (t - start) / 1000`, without
clamping; with origin (-800, 0) and velocity (50, 0) it is at (-300, 0) ten
seconds after its start. -/
theorem ballistic_position_at_time (d : Drone) (t : Int)
    (hactive : d.m_active = true) (hballistic : d.m_useNewTrajectorySystem = false) :
    d.calculatePositionAtTime t =
      ⟨d.m_initialPosition.x + d.m_velocityX * (((t - d.m_startTime : Int) : ℝ) / 1000),
       d.m_initialPosition.y + d.m_velocityY * (((t - d.m_startTime : Int) : ℝ) / 1000)⟩ ∧
    (d.m_initialPosition = ⟨-800, 0⟩ → d.m_velocityX = 50 → d.m_velocityY = 0 →
      d.calculatePositionAtTime (d.m_startTime + 10000) = ⟨-300, 0⟩) := by
  have ballistic_position_formula (d : Drone) (t : Int)
      (hactive : d.m_active = true) (hballistic : d.m_useNewTrajectorySystem = false) :
      d.calculatePositionAtTime t =
        ⟨d.m_initialPosition.x + d.m_velocityX * (((t - d.m_startTime : Int) : ℝ) / 1000),
         d.m_initialPosition.y + d.m_velocityY * (((t - d.m_startTime : Int) : ℝ) / 1000)⟩ := by
    simp [Drone.calculatePositionAtTime, hactive, hballistic]
  refine ⟨ballistic_position_formula d t hactive hballistic, ?_⟩
  intro ho hvx hvy
  rw [ballistic_position_formula d _ hactive hballistic, ho, hvx, hvy]
  simp only [add_sub_cancel_left, Int.cast_ofNat, QPointF.mk.injEq]
  constructor <;> norm_num

theorem ballistic_position_at_time_witness :
    (Drone.newBallistic rawDrone 1 ⟨-800, 0⟩ 50 0 DroneType.Standard 5000).m_active = true ∧
    (Drone.newBallistic rawDrone 1 ⟨-800, 0⟩ 50 0 DroneType.Standard
      5000).m_useNewTrajectorySystem = false ∧
    (Drone.newBallistic rawDrone 1 ⟨-800, 0⟩ 50 0 DroneType.Standard 5000).calculatePositionAtTime
      (5000 + 10000) = ⟨-300, 0⟩ :=
  ⟨rfl, rfl,
    (ballistic_position_at_time
      (Drone.newBallistic rawDrone 1 ⟨-800, 0⟩ 50 0 DroneType.Standard 5000) 0 rfl rfl).2
      rfl rfl rfl⟩

/-- C2. Round trip of the detection frame: for every list of detections whose
members are values of their C++ types, the receiver's parser applied to the
bytes written by `serializeDetections` accepts the frame and hands to
`processRadarData` exactly the list that was serialized: same length, same
order, every field of every record identical. -/
theorem detection_frame_round_trip (codec : F64Codec) (now : Int)
    (detections : List RadarDetection) (hlen : detections.length < 4294967296)
    (hwf : ∀ d ∈ detections, d.WellFormed codec) :
    parseDatagram codec (serializeDetections codec now detections) = some detections ∧
    ∀ (disp : RadarDisplay) (rxTime : Int),
      handleDatagram codec disp (serializeDetections codec now detections) rxTime
        = processRadarData disp detections rxTime := by
  have readDouble_write (codec : F64Codec) (x : ℝ) (rest : List Nat)
      (h : codec.Represents x) :
      readDouble codec (writeDouble codec x ++ rest) = (x, rest) := by
    obtain ⟨hlt, hrt⟩ := h
    have hb := readBlock_append (toBytesBE 8 (codec.toBits x)) rest
    rw [toBytesBE_length] at hb
    have hmod : codec.toBits x % 256 ^ 8 = codec.toBits x := Nat.mod_eq_of_lt (by
      have : (256 : Nat) ^ 8 = 2 ^ 64 := by norm_num
      rw [this]; exact hlt)
    simp only [readDouble, writeDouble, hb, fromBytesBE_toBytesBE, hmod, hrt]
  have parseDatagram_serializeDetections (codec : F64Codec) (now : Int)
      (ds : List RadarDetection) (hlen : ds.length < 4294967296)
      (h : ∀ d ∈ ds, d.WellFormed codec) :
      parseDatagram codec (serializeDetections codec now ds) = some ds := by
    have parseDetections_serialize (codec : F64Codec) (ds : List RadarDetection)
        (rest : List Nat) (h : ∀ d ∈ ds, d.WellFormed codec) :
        parseDetections codec ds.length ((ds.map (serializeDetection codec)).flatten ++ rest) = ds := by
      have parseDetection_serializeDetection (codec : F64Codec) (d : RadarDetection)
          (rest : List Nat) (h : d.WellFormed codec) :
          parseDetection codec (serializeDetection codec d ++ rest) = (d, rest) := by
        have readQint64_write (v : Int) (rest : List Nat) (h : IsInt64 v) :
            readQint64 (writeQint64 v ++ rest) = (v, rest) := by
          have toSigned_toUnsigned_64 (v : Int) (h : IsInt64 v) :
              toSigned 64 (toUnsigned 64 v % 256 ^ 8) = v := by
            obtain ⟨h1, h2⟩ := h
            simp only [toSigned, toUnsigned]
            norm_num
            omega
          rw [readQint64, writeQint64, readUInt_toBytesBE, toSigned_toUnsigned_64 v h]
        have readPointF_write (codec : F64Codec) (p : QPointF) (rest : List Nat)
            (hx : codec.Represents p.x) (hy : codec.Represents p.y) :
            readPointF codec (writePointF codec p ++ rest) = (p, rest) := by
          simp [readPointF, writePointF, List.append_assoc, readDouble_write, hx, hy]
        have readBool_write (b : Bool) (rest : List Nat) :
            readBool (writeBool b ++ rest) = (b, rest) := by
          cases b <;> simp [readBool, writeBool, readUInt, readBlock, fromBytesBE]
        have toUnsigned_32_lt (v : Int) : toUnsigned 32 v < 4294967296 := by
          simp only [toUnsigned]
          norm_num
          omega
        have toSigned_toUnsigned_32_exact (v : Int) (h : IsInt32 v) :
            toSigned 32 (toUnsigned 32 v) = v := by
          obtain ⟨h1, h2⟩ := h
          simp only [toSigned, toUnsigned]
          norm_num
          omega
        obtain ⟨hid, htime, htraj, hspeed, hpx, hpy, hvx, hvy, hdist, haz, hdir, hspd⟩ := h
        simp only [parseDetection, serializeDetection, List.append_assoc,
          readQint32_write _ _ hid, readPointF_write _ _ _ hpx hpy, readPointF_write _ _ _ hvx hvy,
          readQint64_write _ _ htime, readDouble_write _ _ _ hdist, readDouble_write _ _ _ haz,
          readQuint32_write _ _ (toUnsigned_32_lt _), toSigned_toUnsigned_32_exact _ htraj,
          toSigned_toUnsigned_32_exact _ hspeed, readDouble_write _ _ _ hdir,
          readDouble_write _ _ _ hspd, readBool_write]
      induction ds with
      | nil => rfl
      | cons d ds ih =>
        simp only [List.length_cons, List.map_cons, List.flatten_cons, List.append_assoc,
          parseDetections,
          parseDetection_serializeDetection codec d _ (h d (List.mem_cons_self _ _))]
        rw [ih (fun e he => h e (List.mem_cons_of_mem _ he))]
    have hp := parseDetections_serialize codec ds [] h
    rw [List.append_nil] at hp
    rw [serializeDetections, parseDatagram_header codec now _ _ hlen, hp]
  have h := parseDatagram_serializeDetections codec now detections hlen hwf
  exact ⟨h, fun disp rxTime => handleDatagram_of_some codec disp _ rxTime detections h⟩

theorem detection_frame_round_trip_witness :
    parseDatagram sampleCodec
      (serializeDetections sampleCodec 1234 [sampleDetection, sampleDetection])
      = some [sampleDetection, sampleDetection] := by
  have sampleDetection_wellFormed : sampleDetection.WellFormed sampleCodec := by
    simp only [RadarDetection.WellFormed, IsInt32, IsInt64, F64Codec.Represents, sampleDetection,
      sampleCodec, TrajectoryType.Curved, SpeedType.Accelerating]
    norm_num
    refine ⟨?_, ?_, ?_, ?_, ?_, ?_⟩ <;> rfl
  exact
    (detection_frame_round_trip sampleCodec 1234 [sampleDetection, sampleDetection]
      (by simp)
      (by intro d hd
          simp only [List.mem_cons, List.mem_singleton, List.not_mem_nil, or_false, or_self] at hd
          rw [hd]; exact sampleDetection_wellFormed)).1

/-- C3. The receiver checks magic and version before the body: a datagram
shorter than the two words, or whose first big-endian `u32` is not
`0x52444152`, or whose second `u32` is not 1, is discarded as a whole:
`processRadarData` is not called, no signal is emitted and the display
(entity list included) is unchanged. -/
theorem frame_with_bad_header_discarded (codec : F64Codec) (disp : RadarDisplay)
    (datagram : List Nat) (rxTime : Int)
    (hbad : datagram.length < 8 ∨ fromBytesBE (datagram.take 4) ≠ 0x52444152
      ∨ fromBytesBE ((datagram.drop 4).take 4) ≠ 1) :
    parseDatagram codec datagram = none ∧
    handleDatagram codec disp datagram rxTime = (disp, []) ∧
    handleDataReceived codec disp [(datagram, rxTime)] = (disp, []) := by
  have parseDatagram_bad_header (codec : F64Codec) (datagram : List Nat)
      (h : datagram.length < 8 ∨ fromBytesBE (datagram.take 4) ≠ 0x52444152
        ∨ fromBytesBE ((datagram.drop 4).take 4) ≠ 1) :
      parseDatagram codec datagram = none := by
    by_cases hs : datagram.length < 8
    · exact parseDatagram_short codec datagram hs
    · have h4 : 4 ≤ datagram.length := by omega
      have h8 : 4 ≤ (datagram.drop 4).length := by simp only [List.length_drop]; omega
      rcases h with h | h | h
      · exact absurd h hs
      · simp [parseDatagram, readQuint32_of_le datagram h4, h]
      · simp only [parseDatagram, readQuint32_of_le datagram h4, readQuint32_of_le _ h8]
        simp [h]
  have handleDataReceived_all_discarded (codec : F64Codec) (disp : RadarDisplay)
      (pending : List (List Nat × Int))
      (h : ∀ item ∈ pending, parseDatagram codec item.1 = none) :
      handleDataReceived codec disp pending = (disp, []) := by
    unfold handleDataReceived
    apply foldl_fixed
    intro item hitem
    simp [handleDatagram_of_none codec disp item.1 item.2 (h item hitem)]
  have h := parseDatagram_bad_header codec datagram hbad
  refine ⟨h, handleDatagram_of_none codec disp datagram rxTime h, ?_⟩
  apply handleDataReceived_all_discarded
  intro item hitem
  simp only [List.mem_singleton] at hitem
  rw [hitem]
  exact h

theorem frame_with_bad_header_discarded_witness :
    parseDatagram sampleCodec [82, 68, 65, 82, 0, 0, 0, 2, 0, 0, 0, 0, 0, 0, 0, 0, 0, 0, 0, 1]
      = none ∧
    handleDatagram sampleCodec emptyDisplay
      [82, 68, 65, 82, 0, 0, 0, 2, 0, 0, 0, 0, 0, 0, 0, 0, 0, 0, 0, 1] 1 = (emptyDisplay, []) :=
  have h := frame_with_bad_header_discarded sampleCodec emptyDisplay
    [82, 68, 65, 82, 0, 0, 0, 2, 0, 0, 0, 0, 0, 0, 0, 0, 0, 0, 0, 1] 1
    (Or.inr (Or.inr (by decide)))
  ⟨h.1, h.2.1⟩

theorem serializeDetections_single_length (codec : F64Codec) (now : Int) (d : RadarDetection) :
    (serializeDetections codec now [d]).length = 105 := by
  have serializeDetection_length (codec : F64Codec) (d : RadarDetection) :
      (serializeDetection codec d).length = 85 := by
    simp [serializeDetection, writeQint32, writePointF, writeDouble, writeQint64, writeQuint32,
      writeBool, toBytesBE_length]
  simp [serializeDetections, writeQint64, writeQuint32, toBytesBE_length,
    serializeDetection_length]

/-- C4 (counterexample). The frame of one detection (105 bytes) cut after 24
bytes, that is after the header and the entity id, is a proper part of a
well-formed frame; the receiver does not discard it: it hands one detection to
`processRadarData` (id 7, every other field zero) and the display, empty
before, shows one entity afterwards. -/
theorem truncated_frame_is_processed :
    ((serializeDetections sampleCodec 0 [sampleDetection]).take 24).length
      < (serializeDetections sampleCodec 0 [sampleDetection]).length ∧
    parseDatagram sampleCodec ((serializeDetections sampleCodec 0 [sampleDetection]).take 24)
      = some [{ droneId := 7, position := ⟨0, 0⟩, velocity := ⟨0, 0⟩, detectionTime := 0,
                distance := 0, azimuth := 0, trajectoryType := ⟨0⟩, speedType := ⟨0⟩,
                currentDirection := 0, currentSpeed := 0, useNewTrajectory := false }] ∧
    (handleDatagram sampleCodec emptyDisplay
      ((serializeDetections sampleCodec 0 [sampleDetection]).take 24) 1).1.m_drones.length
      = 1 := by
  have parseDetection_id_only (codec : F64Codec) (id : Int) (h : IsInt32 id) :
      parseDetection codec (writeQint32 id)
        = ({ droneId := id, position := ⟨0, 0⟩, velocity := ⟨0, 0⟩, detectionTime := 0,
             distance := 0, azimuth := 0, trajectoryType := ⟨0⟩, speedType := ⟨0⟩,
             currentDirection := 0, currentSpeed := 0, useNewTrajectory := false }, []) := by
    have hr : readQint32 (writeQint32 id) = (id, []) := by
      have := readQint32_write id [] h
      rwa [List.append_nil] at this
    simp [parseDetection, hr, readPointF, readDouble, readBlock, readQint64, readUInt, readQuint32,
      readBool, toSigned]
  have hparse : parseDatagram sampleCodec
      ((serializeDetections sampleCodec 0 [sampleDetection]).take 24)
      = some [{ droneId := 7, position := ⟨0, 0⟩, velocity := ⟨0, 0⟩, detectionTime := 0,
                distance := 0, azimuth := 0, trajectoryType := ⟨0⟩, speedType := ⟨0⟩,
                currentDirection := 0, currentSpeed := 0, useNewTrajectory := false }] := by
    rw [parseDatagram_cut_in_body sampleCodec 0 [sampleDetection] 24 (by simp) (by norm_num)]
    have htake : (([sampleDetection].map (serializeDetection sampleCodec)).flatten).take (24 - 20)
        = writeQint32 7 := by
      have h4 : (writeQint32 (7 : Int)).length = 4 := toBytesBE_length _ _
      simp only [List.map_cons, List.map_nil, List.flatten_cons, List.flatten_nil,
        List.append_nil, serializeDetection, List.append_assoc, sampleDetection]
      rw [List.take_append_eq_append_take, List.take_of_length_le (by omega), h4]
      simp
    rw [htake]
    simp only [List.length_singleton, parseDetections,
      parseDetection_id_only sampleCodec 7 (by constructor <;> norm_num)]
  refine ⟨?_, hparse, ?_⟩
  · rw [List.length_take, serializeDetections_single_length]
    norm_num
  · rw [handleDatagram_of_some _ _ _ _ _ hparse]
    simp [processRadarData, processDetection, updateFirstMatch, emptyDisplay]

/-- C4 (amended). For a proper part (the first `k` bytes) of a well-formed
frame carrying at least one record: cut inside the two header words (`k < 8`)
the datagram is discarded; cut later inside the 20-byte header
(`8 ≤ k < 20`) the count reads as zero, no detection reaches
`processRadarData` and the entity list is unchanged; cut inside the records
(`20 ≤ k`) the datagram is not discarded: `processRadarData` receives as many
detections as the header announces. -/
theorem truncated_frame_delivery (codec : F64Codec) (disp : RadarDisplay) (now rxTime : Int)
    (detections : List RadarDetection) (k : Nat)
    (hne : detections ≠ []) (hlen : detections.length < 4294967296)
    (hk : k < (serializeDetections codec now detections).length) :
    (k < 8 →
      parseDatagram codec ((serializeDetections codec now detections).take k) = none ∧
      handleDatagram codec disp ((serializeDetections codec now detections).take k) rxTime
        = (disp, [])) ∧
    (8 ≤ k → k < 20 →
      parseDatagram codec ((serializeDetections codec now detections).take k) = some [] ∧
      (handleDatagram codec disp ((serializeDetections codec now detections).take k)
        rxTime).1.m_drones = disp.m_drones) ∧
    (20 ≤ k →
      ∃ delivered,
        parseDatagram codec ((serializeDetections codec now detections).take k) = some delivered ∧
        delivered.length = detections.length ∧ delivered ≠ []) := by
  have parseDetections_length (codec : F64Codec) (count : Nat) (s : List Nat) :
      (parseDetections codec count s).length = count := by
    induction count generalizing s with
    | zero => rfl
    | succ k ih => simp [parseDetections, ih]
  have parseDatagram_cut_in_header (codec : F64Codec) (now : Int) (ds : List RadarDetection)
      (k : Nat) (h8 : 8 ≤ k) (h20 : k < 20) :
      parseDatagram codec ((serializeDetections codec now ds).take k) = some [] := by
    have readQint64_rest_length (s : List Nat) : (readQint64 s).2.length ≤ s.length - 8 := by
      simp only [readQint64, readUInt, readBlock]
      split_ifs with h
      · simp
      · simp
    have hsplit : (serializeDetections codec now ds).take k
        = writeQuint32 0x52444152 ++ (writeQuint32 1
          ++ (writeQint64 now ++ writeQuint32 ds.length
            ++ (ds.map (serializeDetection codec)).flatten).take (k - 8)) := by
      have h4 : (writeQuint32 0x52444152).length = 4 := toBytesBE_length _ _
      have h4b : (writeQuint32 1).length = 4 := toBytesBE_length _ _
      simp only [serializeDetections, List.append_assoc]
      rw [List.take_append_eq_append_take, List.take_of_length_le (by omega),
        List.take_append_eq_append_take, List.take_of_length_le (by omega), h4, h4b]
      congr 3
    have hlen : ((writeQint64 now ++ writeQuint32 ds.length
        ++ (ds.map (serializeDetection codec)).flatten).take (k - 8)).length < 12 := by
      rw [List.length_take]
      omega
    have hrest := readQint64_rest_length ((writeQint64 now ++ writeQuint32 ds.length
        ++ (ds.map (serializeDetection codec)).flatten).take (k - 8))
    rw [hsplit]
    simp only [parseDatagram,
      readQuint32_write _ _ (by norm_num : (0x52444152 : Nat) < 4294967296),
      readQuint32_write _ _ (by norm_num : (1 : Nat) < 4294967296)]
    rw [readQuint32, readUInt_short 4 _ (by omega)]
    simp [parseDetections]
  refine ⟨fun h8 => ?_, fun h8 h20 => ?_, fun h20 => ?_⟩
  · have hshort : ((serializeDetections codec now detections).take k).length < 8 := by
      rw [List.length_take]; omega
    have hnone := parseDatagram_short codec _ hshort
    exact ⟨hnone, handleDatagram_of_none codec disp _ rxTime hnone⟩
  · have hsome := parseDatagram_cut_in_header codec now detections k h8 h20
    refine ⟨hsome, ?_⟩
    rw [handleDatagram_of_some _ _ _ _ _ hsome]
    rfl
  · refine ⟨_, parseDatagram_cut_in_body codec now detections k hlen h20, ?_, ?_⟩
    · exact parseDetections_length _ _ _
    · intro hnil
      have hl := parseDetections_length codec detections.length
        (((detections.map (serializeDetection codec)).flatten).take (k - 20))
      rw [hnil] at hl
      exact hne (List.length_eq_zero.1 hl.symm)

theorem truncated_frame_delivery_witness :
    ∃ delivered,
      parseDatagram sampleCodec ((serializeDetections sampleCodec 0 [sampleDetection]).take 24)
        = some delivered ∧
      delivered.length = [sampleDetection].length ∧ delivered ≠ [] :=
  (truncated_frame_delivery sampleCodec emptyDisplay 0 1 [sampleDetection] 24
    (by simp) (by simp)
    (by rw [serializeDetections_single_length]; norm_num)).2.2 (by norm_num)

/-- Bearing of the centre itself: `qAtan2(+0, -0)` is `π`. -/
theorem calculateAzimuth_self (center : QPointF) :
    RadarSimulator.calculateAzimuth center center = Real.pi := by
  simp only [RadarSimulator.calculateAzimuth, sub_self, and_self, if_true]
  rw [if_neg (not_lt.2 Real.pi_pos.le)]

/-- C6. Firing while cooling is rejected without side effects: when the
engine has fired (last-fire time `f ≠ 0`, the value 0 standing for "never
fired") and `executeStrike` is called at a time `t` with
`t - f < cooldown * 1000` ms, it returns false, the registry is unchanged, the
engine (last-fire time included) is unchanged and no signal is emitted
(neither `strikeTarget` nor `weaponFired` runs), whatever the registry
holds. -/
theorem fire_while_cooling_rejected (w : WeaponStrategy) (m : DroneManager)
    (radarCenter : QPointF) (radarRadius : ℝ) (t tPredict tFire : Int)
    (hfired : w.m_lastFireTime ≠ 0)
    (hcooling : ((t - w.m_lastFireTime : Int) : ℝ) < w.m_currentConfig.cooldownTime * 1000) :
    (w.executeStrike m radarCenter radarRadius t tPredict tFire).fired = false ∧
    (w.executeStrike m radarCenter radarRadius t tPredict tFire).manager = m ∧
    (w.executeStrike m radarCenter radarRadius t tPredict tFire).weapon = w ∧
    (w.executeStrike m radarCenter radarRadius t tPredict tFire).events = [] :=
  executeStrike_of_cooling w m radarCenter radarRadius t tPredict tFire hfired hcooling

theorem fire_while_cooling_rejected_witness :
    ((weaponWith WeaponType.Missile TargetingStrategy.ThreatPriority 1000).executeStrike
      (registryOf [droneAt ⟨10, 0⟩]) ⟨0, 0⟩ 800 1500 1500 1500).fired = false ∧
    ((weaponWith WeaponType.Missile TargetingStrategy.ThreatPriority 1000).executeStrike
      (registryOf [droneAt ⟨10, 0⟩]) ⟨0, 0⟩ 800 1500 1500 1500).manager
      = registryOf [droneAt ⟨10, 0⟩] :=
  have h := fire_while_cooling_rejected
    (weaponWith WeaponType.Missile TargetingStrategy.ThreatPriority 1000)
    (registryOf [droneAt ⟨10, 0⟩]) ⟨0, 0⟩ 800 1500 1500 1500
    (by rw [(weaponWith_config_missile_threat 1000).2.2.2]; norm_num)
    (by rw [(weaponWith_config_missile_threat 1000).2.2.2]
        simp [weaponWith, WeaponStrategy.new, setCurrentStrategy, initializeStrategies]
        norm_num)
  ⟨h.1, h.2.1⟩

theorem switch_strategy_keeps_cooldown_witness :
    ((weaponWith WeaponType.Laser TargetingStrategy.ThreatPriority 1000).setCurrentStrategy
      WeaponType.Laser TargetingStrategy.TimePriority).1.canFire 2000
      = (weaponWith WeaponType.Laser TargetingStrategy.ThreatPriority 1000).canFire 2000 ∧
    ((weaponWith WeaponType.Laser TargetingStrategy.ThreatPriority 1000).setCurrentStrategy
      WeaponType.Laser TargetingStrategy.TimePriority).1.getTimeUntilReady 2000 2000
      = (weaponWith WeaponType.Laser TargetingStrategy.ThreatPriority 1000).getTimeUntilReady
          2000 2000 :=
  (switch_strategy_keeps_cooldown
    (weaponWith WeaponType.Laser TargetingStrategy.ThreatPriority 1000)
    WeaponType.Laser TargetingStrategy.TimePriority 2000 2000
    (by simp [weaponWith, WeaponStrategy.new, setCurrentStrategy, initializeStrategies])
    (by simp [weaponWith, WeaponStrategy.new, setCurrentStrategy, initializeStrategies])).2
    (weaponWith_config_laser_threat 1000).2.1.symm

/-! ### Parametric motion: endpoints and progress -/

theorem calculatePositionAtTime_parametric (d : Drone) (t : Int)
    (hactive : d.m_active = true) (hnew : d.m_useNewTrajectorySystem = true) :
    d.calculatePositionAtTime t =
      if d.m_trajectoryType = TrajectoryType.Linear then
        QPointF.add d.m_startPos
          (QPointF.scale (d.progressAt (((t - d.m_startTime : Int) : ℝ) / 1000))
            (QPointF.sub d.m_targetPos d.m_startPos))
      else
        d.calculateBezierPoint (d.progressAt (((t - d.m_startTime : Int) : ℝ) / 1000)) := by
  simp only [Drone.calculatePositionAtTime, hactive, hnew, Drone.progressAt, Drone.traverseTime]
  rfl

theorem traverseTime_bounds (d : Drone) : 5 ≤ d.traverseTime ∧ d.traverseTime ≤ 120 := by
  unfold Drone.traverseTime
  constructor
  · exact le_max_left _ _
  · exact max_le (by norm_num) (min_le_left _ _)

theorem progressAt_of_lt (d : Drone) (e : ℝ) (h : e < d.traverseTime) :
    d.progressAt e = e / d.traverseTime := by
  have hT : 0 < d.traverseTime := lt_of_lt_of_le (by norm_num) (traverseTime_bounds d).1
  have hlt : e / d.traverseTime < 1 := (div_lt_one hT).2 h
  unfold Drone.progressAt
  simp only [min_eq_right hlt.le, ge_iff_le, not_le.2 hlt, if_false]

theorem progressAt_of_ge (d : Drone) (e : ℝ) (h : d.traverseTime ≤ e) :
    d.progressAt e = 1 + (e - d.traverseTime) / (2 * d.traverseTime) := by
  have hT : 0 < d.traverseTime := lt_of_lt_of_le (by norm_num) (traverseTime_bounds d).1
  have hge : 1 ≤ e / d.traverseTime := (one_le_div hT).2 h
  unfold Drone.progressAt
  simp only [min_eq_left hge, ge_iff_le, le_refl, if_true]
  field_simp
  ring

theorem progressAt_eq_one_iff (d : Drone) (e : ℝ) : d.progressAt e = 1 ↔ e = d.traverseTime := by
  have hT : 0 < d.traverseTime := lt_of_lt_of_le (by norm_num) (traverseTime_bounds d).1
  constructor
  · intro h
    by_cases h1 : e < d.traverseTime
    · rw [progressAt_of_lt d e h1] at h
      have := (div_lt_one hT).2 h1
      linarith
    · rw [progressAt_of_ge d e (not_lt.1 h1)] at h
      have h0 : (e - d.traverseTime) / (2 * d.traverseTime) = 0 := by linarith
      rcases div_eq_zero_iff.1 h0 with h2 | h2
      · linarith
      · linarith
  · intro h
    rw [progressAt_of_ge d e h.ge, h]
    simp

/-- The set-up `initializeTrajectory` has a value unless the entity is Curved
and its start and target coincide, the one case in which the C++ control point
is not a number. -/
theorem initializeTrajectory_eq_none_iff (d : Drone) (rndOffset : ℝ) (rndSign : Int) :
    d.initializeTrajectory rndOffset rndSign = none ↔
      d.m_trajectoryType = TrajectoryType.Curved ∧ d.m_startPos = d.m_targetPos := by
  have hzero : Real.sqrt (-(d.m_targetPos.y - d.m_startPos.y) * -(d.m_targetPos.y - d.m_startPos.y)
      + (d.m_targetPos.x - d.m_startPos.x) * (d.m_targetPos.x - d.m_startPos.x)) = 0
      ↔ d.m_startPos = d.m_targetPos := by
    rw [Real.sqrt_eq_zero (add_nonneg (mul_self_nonneg _) (mul_self_nonneg _)),
      mul_self_add_mul_self_eq_zero]
    constructor
    · rintro ⟨hy, hx⟩
      cases hs : d.m_startPos with
      | mk sx sy =>
        cases ht : d.m_targetPos with
        | mk tx ty =>
          rw [hs, ht] at hy hx
          simp only at hy hx
          rw [QPointF.mk.injEq]
          constructor <;> linarith
    · intro h
      rw [h]
      simp
  unfold Drone.initializeTrajectory
  simp only [QPointF.sub]
  by_cases hc : d.m_trajectoryType = TrajectoryType.Curved
  · simp only [hc, if_true, true_and]
    rw [← hzero]
    split_ifs with h0
    · exact iff_of_true rfl h0
    · exact iff_of_false id h0
  · simp [hc]

theorem linearDrone_fields (speedType : SpeedType) (startSpeed endSpeed : ℝ) :
    (linearDrone speedType startSpeed endSpeed).m_active = true ∧
    (linearDrone speedType startSpeed endSpeed).m_destroyed = false ∧
    (linearDrone speedType startSpeed endSpeed).m_useNewTrajectorySystem = true ∧
    (linearDrone speedType startSpeed endSpeed).m_trajectoryType = TrajectoryType.Linear ∧
    (linearDrone speedType startSpeed endSpeed).m_speedType = speedType ∧
    (linearDrone speedType startSpeed endSpeed).m_startTime = 0 ∧
    (linearDrone speedType startSpeed endSpeed).m_initialPosition = ⟨-1000, 0⟩ ∧
    (linearDrone speedType startSpeed endSpeed).m_startPos = ⟨-1000, 0⟩ ∧
    (linearDrone speedType startSpeed endSpeed).m_targetPos = ⟨1000, 0⟩ ∧
    (linearDrone speedType startSpeed endSpeed).m_startSpeed = startSpeed ∧
    (linearDrone speedType startSpeed endSpeed).m_endSpeed
      = (if endSpeed < 0 then startSpeed else endSpeed) ∧
    (linearDrone speedType startSpeed endSpeed).m_totalDistance = 2000 ∧
    (linearDrone speedType startSpeed endSpeed).m_velocityX = startSpeed ∧
    (linearDrone speedType startSpeed endSpeed).m_velocityY = 0 := by
  have sqrt_4000000 : Real.sqrt 4000000 = 2000 := by
    rw [show (4000000 : ℝ) = 2000 ^ 2 by norm_num]
    exact Real.sqrt_sq (by norm_num)
  have hd : Real.sqrt ((1000 - -1000 : ℝ) * (1000 - -1000) + (0 - 0) * (0 - 0)) = 2000 := by
    rw [← sqrt_4000000]; norm_num
  have hne : ¬ TrajectoryType.Linear = TrajectoryType.Curved := by decide
  simp only [linearDrone, Drone.newParametric, Drone.initializeTrajectory, QPointF.sub, hd, hne,
    if_false]
  norm_num

/-- C13. Path endpoints: for every active parametric entity, of either shape
and with any control point, `calculateBezierPoint(0)` is the start position and
`calculateBezierPoint(1)` the target position; the position at elapsed time 0
is the start position and the position at an elapsed time equal to the total
traverse time is the target position. -/
theorem path_endpoints (d : Drone) (hactive : d.m_active = true)
    (hnew : d.m_useNewTrajectorySystem = true) :
    d.calculateBezierPoint 0 = d.m_startPos ∧
    d.calculateBezierPoint 1 = d.m_targetPos ∧
    d.calculatePositionAtTime d.m_startTime = d.m_startPos ∧
    ∀ t : Int, ((t - d.m_startTime : Int) : ℝ) / 1000 = d.traverseTime →
      d.calculatePositionAtTime t = d.m_targetPos := by
  have calculateBezierPoint_zero (d : Drone) : d.calculateBezierPoint 0 = d.m_startPos := by
    simp [Drone.calculateBezierPoint, QPointF.add, QPointF.scale]
  have calculateBezierPoint_one (d : Drone) : d.calculateBezierPoint 1 = d.m_targetPos := by
    simp [Drone.calculateBezierPoint, QPointF.add, QPointF.scale]
  have progressAt_zero (d : Drone) : d.progressAt 0 = 0 := by
    have hT : 0 < d.traverseTime := lt_of_lt_of_le (by norm_num) (traverseTime_bounds d).1
    rw [progressAt_of_lt d 0 hT, zero_div]
  have progressAt_traverseTime (d : Drone) : d.progressAt d.traverseTime = 1 :=
    (progressAt_eq_one_iff d _).2 rfl
  have pathPoint_zero (d : Drone) :
      (if d.m_trajectoryType = TrajectoryType.Linear then
          QPointF.add d.m_startPos (QPointF.scale 0 (QPointF.sub d.m_targetPos d.m_startPos))
        else d.calculateBezierPoint 0) = d.m_startPos := by
    split
    · simp [QPointF.add, QPointF.scale]
    · exact calculateBezierPoint_zero d
  have pathPoint_one (d : Drone) :
      (if d.m_trajectoryType = TrajectoryType.Linear then
          QPointF.add d.m_startPos (QPointF.scale 1 (QPointF.sub d.m_targetPos d.m_startPos))
        else d.calculateBezierPoint 1) = d.m_targetPos := by
    split
    · simp [QPointF.add, QPointF.scale, QPointF.sub]
    · exact calculateBezierPoint_one d
  refine ⟨calculateBezierPoint_zero d, calculateBezierPoint_one d, ?_, ?_⟩
  · rw [calculatePositionAtTime_parametric d _ hactive hnew]
    simp only [sub_self, Int.cast_zero, zero_div, progressAt_zero]
    exact pathPoint_zero d
  · intro t ht
    rw [calculatePositionAtTime_parametric d _ hactive hnew, ht, progressAt_traverseTime]
    exact pathPoint_one d

theorem linearDrone_traverseTime :
    (linearDrone SpeedType.Constant 50 50).traverseTime = 40 := by
  obtain ⟨-, -, -, -, hs, -, -, -, -, hss, -, hdist, -, -⟩ :=
    linearDrone_fields SpeedType.Constant 50 50
  simp only [Drone.traverseTime, hs, hss, hdist, if_true]
  norm_num

theorem path_endpoints_witness :
    (linearDrone SpeedType.Constant 50 50).calculatePositionAtTime 0 = ⟨-1000, 0⟩ ∧
    (linearDrone SpeedType.Constant 50 50).calculatePositionAtTime 40000 = ⟨1000, 0⟩ := by
  have h := path_endpoints (linearDrone SpeedType.Constant 50 50)
    (linearDrone_fields _ _ _).1 (linearDrone_fields _ _ _).2.2.1
  obtain ⟨-, -, -, -, -, ht0, -, hsp, htp, -⟩ := linearDrone_fields SpeedType.Constant 50 50
  refine ⟨?_, ?_⟩
  · have h3 := h.2.2.1
    rwa [ht0, hsp] at h3
  · have h4 := h.2.2.2 40000 (by rw [ht0, linearDrone_traverseTime]; norm_num)
    rwa [htp] at h4

/-- C14. For every parametric entity, whatever its start and end speeds and
path length, the total traverse time `T` used by `calculatePositionAtTime` lies
in 5..120 seconds and the progress it uses is `elapsed / T` before `T`, equals 1
exactly at `elapsed = T`, is `1 + (elapsed - T) / (2 T)` from then on (half the
rate), and is non-decreasing in the elapsed time, hence in the time `t`. -/
theorem progress_monotone_and_clamped (d : Drone) :
    5 ≤ d.traverseTime ∧ d.traverseTime ≤ 120 ∧
    (∀ e₁ e₂ : ℝ, e₁ ≤ e₂ → d.progressAt e₁ ≤ d.progressAt e₂) ∧
    (∀ t₁ t₂ : Int, t₁ ≤ t₂ →
      d.progressAt (((t₁ - d.m_startTime : Int) : ℝ) / 1000)
        ≤ d.progressAt (((t₂ - d.m_startTime : Int) : ℝ) / 1000)) ∧
    (∀ e : ℝ, d.progressAt e = 1 ↔ e = d.traverseTime) ∧
    (∀ e : ℝ, e < d.traverseTime → d.progressAt e = e / d.traverseTime) ∧
    (∀ e : ℝ, d.traverseTime ≤ e →
      d.progressAt e = 1 + (e - d.traverseTime) / (2 * d.traverseTime)) ∧
    (d.m_active = true → d.m_useNewTrajectorySystem = true → ∀ t : Int,
      d.calculatePositionAtTime t =
        if d.m_trajectoryType = TrajectoryType.Linear then
          QPointF.add d.m_startPos
            (QPointF.scale (d.progressAt (((t - d.m_startTime : Int) : ℝ) / 1000))
              (QPointF.sub d.m_targetPos d.m_startPos))
        else
          d.calculateBezierPoint (d.progressAt (((t - d.m_startTime : Int) : ℝ) / 1000))) := by
  have progressAt_mono (d : Drone) (e₁ e₂ : ℝ) (h : e₁ ≤ e₂) :
      d.progressAt e₁ ≤ d.progressAt e₂ := by
    have hT : 0 < d.traverseTime := lt_of_lt_of_le (by norm_num) (traverseTime_bounds d).1
    by_cases h1 : e₁ < d.traverseTime
    · by_cases h2 : e₂ < d.traverseTime
      · rw [progressAt_of_lt d e₁ h1, progressAt_of_lt d e₂ h2]
        exact div_le_div_of_nonneg_right h hT.le
      · rw [progressAt_of_lt d e₁ h1, progressAt_of_ge d e₂ (not_lt.1 h2)]
        have ha : e₁ / d.traverseTime ≤ 1 := ((div_lt_one hT).2 h1).le
        have hb : 0 ≤ (e₂ - d.traverseTime) / (2 * d.traverseTime) :=
          div_nonneg (sub_nonneg.2 (not_lt.1 h2)) (by linarith)
        linarith
    · have h1' := not_lt.1 h1
      rw [progressAt_of_ge d e₁ h1', progressAt_of_ge d e₂ (le_trans h1' h)]
      have : (e₁ - d.traverseTime) / (2 * d.traverseTime)
          ≤ (e₂ - d.traverseTime) / (2 * d.traverseTime) :=
        div_le_div_of_nonneg_right (by linarith) (by linarith)
      linarith
  refine ⟨(traverseTime_bounds d).1, (traverseTime_bounds d).2, progressAt_mono d, ?_,
    progressAt_eq_one_iff d, progressAt_of_lt d, progressAt_of_ge d,
    fun ha hn t => calculatePositionAtTime_parametric d t ha hn⟩
  intro t₁ t₂ h
  apply progressAt_mono
  apply div_le_div_of_nonneg_right _ (by norm_num : (0 : ℝ) ≤ 1000)
  exact_mod_cast Int.sub_le_sub_right h _

theorem progress_monotone_and_clamped_witness :
    (linearDrone SpeedType.Constant 50 50).progressAt 10
      ≤ (linearDrone SpeedType.Constant 50 50).progressAt 50 ∧
    (linearDrone SpeedType.Constant 50 50).progressAt 50 = 1 + (50 - 40) / (2 * 40) := by
  have h := progress_monotone_and_clamped (linearDrone SpeedType.Constant 50 50)
  refine ⟨h.2.2.1 10 50 (by norm_num), ?_⟩
  have h7 := h.2.2.2.2.2.2.1 50 (by rw [linearDrone_traverseTime]; norm_num)
  rwa [linearDrone_traverseTime] at h7

/-! ### Prediction against the position function -/

theorem predict_eq_calculate_of_ballistic (d : Drone) (t : Int) (hactive : d.m_active = true)
    (hnd : d.m_destroyed = false) (hballistic : d.m_useNewTrajectorySystem = false) :
    d.predictPositionAtTime t = d.calculatePositionAtTime t := by
  simp [Drone.predictPositionAtTime, Drone.calculatePositionAtTime, hactive, hnd, hballistic]

/-- C15 (failing input). A parametric Linear entity from (-1000, 0) to
(1000, 0) with ramped speed 50 to 150, created at time 0, active and not
destroyed: ten seconds later `calculatePositionAtTime` puts it at (0, 0)
(progress 1/2 of a 20 s traverse) while `predictPositionAtTime` puts it at
(-500, 0) (start plus initial velocity times 10 s). -/
theorem predict_differs_from_position_on_parametric_entity :
    (linearDrone SpeedType.Accelerating 50 150).m_active = true ∧
    (linearDrone SpeedType.Accelerating 50 150).m_destroyed = false ∧
    (linearDrone SpeedType.Accelerating 50 150).calculatePositionAtTime 10000 = ⟨0, 0⟩ ∧
    (linearDrone SpeedType.Accelerating 50 150).predictPositionAtTime 10000 = ⟨-500, 0⟩ ∧
    (linearDrone SpeedType.Accelerating 50 150).predictPositionAtTime 10000
      ≠ (linearDrone SpeedType.Accelerating 50 150).calculatePositionAtTime 10000 := by
  obtain ⟨ha, hd, hn, htr, hs, ht0, hip, hsp, htp, hss, hes, hdist, hvx, hvy⟩ :=
    linearDrone_fields SpeedType.Accelerating 50 150
  have hT : (linearDrone SpeedType.Accelerating 50 150).traverseTime = 20 := by
    have hne : ¬ SpeedType.Accelerating = SpeedType.Constant := by decide
    simp only [Drone.traverseTime, hs, hss, hes, hdist, hne, if_false]
    norm_num
  have hcalc : (linearDrone SpeedType.Accelerating 50 150).calculatePositionAtTime 10000
      = ⟨0, 0⟩ := by
    rw [calculatePositionAtTime_parametric _ _ ha hn, ht0, htr, if_pos rfl, hsp, htp,
      progressAt_of_lt _ _ (by rw [hT]; norm_num), hT]
    simp only [QPointF.add, QPointF.scale, QPointF.sub, QPointF.mk.injEq]
    constructor <;> norm_num
  have hpred : (linearDrone SpeedType.Accelerating 50 150).predictPositionAtTime 10000
      = ⟨-500, 0⟩ := by
    simp only [Drone.predictPositionAtTime, ha, hd, hip, hvx, hvy, ht0]
    simp only [Bool.not_true, Bool.or_self, Bool.false_eq_true, if_false, QPointF.mk.injEq]
    constructor <;> norm_num
  refine ⟨ha, hd, hcalc, hpred, ?_⟩
  rw [hcalc, hpred]
  intro h
  have hx := congrArg QPointF.x h
  norm_num at hx

/-! ### Approach geometry -/

theorem mul_self_add_nonneg (a b : ℝ) : 0 ≤ a * a + b * b :=
  add_nonneg (mul_self_nonneg a) (mul_self_nonneg b)

theorem getSpeed_eq_zero_iff (d : Drone) :
    d.getSpeed = 0 ↔ d.m_velocityX = 0 ∧ d.m_velocityY = 0 := by
  unfold Drone.getSpeed
  rw [Real.sqrt_eq_zero (mul_self_add_nonneg _ _), mul_self_add_mul_self_eq_zero]

theorem getTimeToReachRadarCenter_not_closing (d : Drone)
    (h : d.m_active = false ∨ d.m_destroyed = true ∨ d.getSpeed = 0 ∨
      d.m_velocityX * (-d.m_currentPosition.x) + d.m_velocityY * (-d.m_currentPosition.y) ≤ 0) :
    d.getTimeToReachRadarCenter = -1 := by
  have hdot : (¬ (!d.m_active || d.m_destroyed) = true) →
      d.m_velocityX * (-d.m_currentPosition.x) + d.m_velocityY * (-d.m_currentPosition.y) ≤ 0 := by
    intro hf
    rcases h with h | h | h | h
    · exact absurd (by simp [h]) hf
    · exact absurd (by simp [h]) hf
    · obtain ⟨hx, hy⟩ := (getSpeed_eq_zero_iff d).1 h
      rw [hx, hy]; simp
    · exact h
  unfold Drone.getTimeToReachRadarCenter
  by_cases hf : (!d.m_active || d.m_destroyed) = true
  · rw [if_pos hf]
  · rw [if_neg hf]
    dsimp only
    rw [if_pos (hdot hf)]

theorem getTimeToReachRadarCenter_closing (d : Drone)
    (hactive : d.m_active = true) (hnd : d.m_destroyed = false)
    (hdot : 0 < d.m_velocityX * (-d.m_currentPosition.x)
      + d.m_velocityY * (-d.m_currentPosition.y)) :
    d.getTimeToReachRadarCenter
      = Real.sqrt (d.m_currentPosition.x * d.m_currentPosition.x
          + d.m_currentPosition.y * d.m_currentPosition.y) / d.getSpeed ∧
    0 < d.getTimeToReachRadarCenter := by
  have hspeed : 0 < d.getSpeed := by
    unfold Drone.getSpeed
    apply Real.sqrt_pos.2
    apply lt_of_le_of_ne (mul_self_add_nonneg _ _)
    intro h0
    obtain ⟨hx, hy⟩ := mul_self_add_mul_self_eq_zero.1 h0.symm
    rw [hx, hy] at hdot
    simp at hdot
  have hpos : 0 < d.m_currentPosition.x * d.m_currentPosition.x
      + d.m_currentPosition.y * d.m_currentPosition.y := by
    apply lt_of_le_of_ne (mul_self_add_nonneg _ _)
    intro h0
    obtain ⟨hx, hy⟩ := mul_self_add_mul_self_eq_zero.1 h0.symm
    rw [hx, hy] at hdot
    simp at hdot
  have heq : d.getTimeToReachRadarCenter
      = Real.sqrt (d.m_currentPosition.x * d.m_currentPosition.x
          + d.m_currentPosition.y * d.m_currentPosition.y) / d.getSpeed := by
    unfold Drone.getTimeToReachRadarCenter
    simp only [hactive, hnd, Bool.not_true, Bool.or_self, Bool.false_eq_true, if_false,
      not_le.2 hdot, not_le.2 hspeed]
  exact ⟨heq, by rw [heq]; exact div_pos (Real.sqrt_pos.2 hpos) hspeed⟩

/-- C17. `getTimeToReachRadarCenter` never returns a positive number for an
entity that is not closing: when the entity is inactive or destroyed, has zero
speed, or its velocity has a non-positive dot product with the vector from its
position to the origin, the result is -1; otherwise the result is
`|position| / |velocity|` and is strictly positive. -/
theorem time_to_reach_center (d : Drone) :
    ((d.m_active = false ∨ d.m_destroyed = true ∨ d.getSpeed = 0 ∨
        d.m_velocityX * (-d.m_currentPosition.x)
          + d.m_velocityY * (-d.m_currentPosition.y) ≤ 0) →
      d.getTimeToReachRadarCenter = -1) ∧
    (¬ (d.m_active = false ∨ d.m_destroyed = true ∨ d.getSpeed = 0 ∨
        d.m_velocityX * (-d.m_currentPosition.x)
          + d.m_velocityY * (-d.m_currentPosition.y) ≤ 0) →
      d.getTimeToReachRadarCenter
        = Real.sqrt (d.m_currentPosition.x * d.m_currentPosition.x
            + d.m_currentPosition.y * d.m_currentPosition.y)
          / Real.sqrt (d.m_velocityX * d.m_velocityX + d.m_velocityY * d.m_velocityY) ∧
      0 < d.getTimeToReachRadarCenter) := by
  refine ⟨getTimeToReachRadarCenter_not_closing d, fun h => ?_⟩
  push_neg at h
  obtain ⟨ha, hd, -, hdot⟩ := h
  exact getTimeToReachRadarCenter_closing d (by simpa using ha) (by simpa using hd) hdot

theorem time_to_reach_center_witness :
    (Drone.newBallistic rawDrone 1 ⟨300, 0⟩ 50 0 DroneType.Standard 0).getTimeToReachRadarCenter
      = -1 ∧
    0 < (Drone.newBallistic rawDrone 1 ⟨300, 0⟩ (-50) 0
      DroneType.Standard 0).getTimeToReachRadarCenter :=
  ⟨(time_to_reach_center (Drone.newBallistic rawDrone 1 ⟨300, 0⟩ 50 0 DroneType.Standard 0)).1
      (Or.inr (Or.inr (Or.inr (by simp [Drone.newBallistic])))),
   ((time_to_reach_center
      (Drone.newBallistic rawDrone 1 ⟨300, 0⟩ (-50) 0 DroneType.Standard 0)).2
      (by simp [Drone.newBallistic, getSpeed_eq_zero_iff])).2⟩

theorem getMinDistance_active (d : Drone) (hactive : d.m_active = true)
    (hnd : d.m_destroyed = false) :
    d.getMinDistanceToRadarCenter =
      if d.m_velocityX * d.m_velocityX + d.m_velocityY * d.m_velocityY ≤ 0 then
        Real.sqrt (d.m_currentPosition.x * d.m_currentPosition.x
          + d.m_currentPosition.y * d.m_currentPosition.y)
      else if -(d.m_currentPosition.x * d.m_velocityX + d.m_currentPosition.y * d.m_velocityY)
          / (d.m_velocityX * d.m_velocityX + d.m_velocityY * d.m_velocityY) < 0 then
        Real.sqrt (d.m_currentPosition.x * d.m_currentPosition.x
          + d.m_currentPosition.y * d.m_currentPosition.y)
      else
        Real.sqrt
          ((d.m_currentPosition.x
              + -(d.m_currentPosition.x * d.m_velocityX + d.m_currentPosition.y * d.m_velocityY)
                / (d.m_velocityX * d.m_velocityX + d.m_velocityY * d.m_velocityY)
                * d.m_velocityX)
            * (d.m_currentPosition.x
              + -(d.m_currentPosition.x * d.m_velocityX + d.m_currentPosition.y * d.m_velocityY)
                / (d.m_velocityX * d.m_velocityX + d.m_velocityY * d.m_velocityY)
                * d.m_velocityX)
          + (d.m_currentPosition.y
              + -(d.m_currentPosition.x * d.m_velocityX + d.m_currentPosition.y * d.m_velocityY)
                / (d.m_velocityX * d.m_velocityX + d.m_velocityY * d.m_velocityY)
                * d.m_velocityY)
            * (d.m_currentPosition.y
              + -(d.m_currentPosition.x * d.m_velocityX + d.m_currentPosition.y * d.m_velocityY)
                / (d.m_velocityX * d.m_velocityX + d.m_velocityY * d.m_velocityY)
                * d.m_velocityY)) := by
  simp only [Drone.getMinDistanceToRadarCenter, hactive, hnd, Bool.not_true, Bool.or_self,
    Bool.false_eq_true, if_false]

/-- C18. For every active, non-destroyed entity with current position `p` and
velocity `v`, `getMinDistanceToRadarCenter` is the minimum over `t ≥ 0` of
`|p + t v|`: it is a lower bound of these distances and is attained; it is
`|p|` when `v = 0` or when `t* = -(p·v)/|v|²` is negative, and `|p + t* v|`
otherwise; it never exceeds the current distance `|p|`. -/
theorem min_distance_to_center (d : Drone) (hactive : d.m_active = true)
    (hnd : d.m_destroyed = false) :
    (∀ t : ℝ, 0 ≤ t →
      d.getMinDistanceToRadarCenter
        ≤ Real.sqrt ((d.m_currentPosition.x + t * d.m_velocityX)
              * (d.m_currentPosition.x + t * d.m_velocityX)
            + (d.m_currentPosition.y + t * d.m_velocityY)
              * (d.m_currentPosition.y + t * d.m_velocityY))) ∧
    (∃ t₀ : ℝ, 0 ≤ t₀ ∧
      d.getMinDistanceToRadarCenter
        = Real.sqrt ((d.m_currentPosition.x + t₀ * d.m_velocityX)
              * (d.m_currentPosition.x + t₀ * d.m_velocityX)
            + (d.m_currentPosition.y + t₀ * d.m_velocityY)
              * (d.m_currentPosition.y + t₀ * d.m_velocityY))) ∧
    (((d.m_velocityX = 0 ∧ d.m_velocityY = 0) ∨
        -(d.m_currentPosition.x * d.m_velocityX + d.m_currentPosition.y * d.m_velocityY)
          / (d.m_velocityX * d.m_velocityX + d.m_velocityY * d.m_velocityY) < 0) →
      d.getMinDistanceToRadarCenter
        = Real.sqrt (d.m_currentPosition.x * d.m_currentPosition.x
            + d.m_currentPosition.y * d.m_currentPosition.y)) ∧
    (¬ (d.m_velocityX = 0 ∧ d.m_velocityY = 0) →
      0 ≤ -(d.m_currentPosition.x * d.m_velocityX + d.m_currentPosition.y * d.m_velocityY)
          / (d.m_velocityX * d.m_velocityX + d.m_velocityY * d.m_velocityY) →
      d.getMinDistanceToRadarCenter
        = Real.sqrt
          ((d.m_currentPosition.x
              + -(d.m_currentPosition.x * d.m_velocityX + d.m_currentPosition.y * d.m_velocityY)
                / (d.m_velocityX * d.m_velocityX + d.m_velocityY * d.m_velocityY)
                * d.m_velocityX)
            * (d.m_currentPosition.x
              + -(d.m_currentPosition.x * d.m_velocityX + d.m_currentPosition.y * d.m_velocityY)
                / (d.m_velocityX * d.m_velocityX + d.m_velocityY * d.m_velocityY)
                * d.m_velocityX)
          + (d.m_currentPosition.y
              + -(d.m_currentPosition.x * d.m_velocityX + d.m_currentPosition.y * d.m_velocityY)
                / (d.m_velocityX * d.m_velocityX + d.m_velocityY * d.m_velocityY)
                * d.m_velocityY)
            * (d.m_currentPosition.y
              + -(d.m_currentPosition.x * d.m_velocityX + d.m_currentPosition.y * d.m_velocityY)
                / (d.m_velocityX * d.m_velocityX + d.m_velocityY * d.m_velocityY)
                * d.m_velocityY))) ∧
    d.getMinDistanceToRadarCenter
      ≤ Real.sqrt (d.m_currentPosition.x * d.m_currentPosition.x
          + d.m_currentPosition.y * d.m_currentPosition.y) := by
  have getMinDistance_spec (d : Drone) (hactive : d.m_active = true)
      (hnd : d.m_destroyed = false) :
      (∀ t : ℝ, 0 ≤ t →
        d.getMinDistanceToRadarCenter
          ≤ Real.sqrt ((d.m_currentPosition.x + t * d.m_velocityX)
                * (d.m_currentPosition.x + t * d.m_velocityX)
              + (d.m_currentPosition.y + t * d.m_velocityY)
                * (d.m_currentPosition.y + t * d.m_velocityY))) ∧
      (∃ t₀ : ℝ, 0 ≤ t₀ ∧
        d.getMinDistanceToRadarCenter
          = Real.sqrt ((d.m_currentPosition.x + t₀ * d.m_velocityX)
                * (d.m_currentPosition.x + t₀ * d.m_velocityX)
              + (d.m_currentPosition.y + t₀ * d.m_velocityY)
                * (d.m_currentPosition.y + t₀ * d.m_velocityY))) ∧
      (((d.m_velocityX = 0 ∧ d.m_velocityY = 0) ∨
          -(d.m_currentPosition.x * d.m_velocityX + d.m_currentPosition.y * d.m_velocityY)
            / (d.m_velocityX * d.m_velocityX + d.m_velocityY * d.m_velocityY) < 0) →
        d.getMinDistanceToRadarCenter
          = Real.sqrt (d.m_currentPosition.x * d.m_currentPosition.x
              + d.m_currentPosition.y * d.m_currentPosition.y)) ∧
      (¬ (d.m_velocityX = 0 ∧ d.m_velocityY = 0) →
        0 ≤ -(d.m_currentPosition.x * d.m_velocityX + d.m_currentPosition.y * d.m_velocityY)
            / (d.m_velocityX * d.m_velocityX + d.m_velocityY * d.m_velocityY) →
        d.getMinDistanceToRadarCenter
          = Real.sqrt
            ((d.m_currentPosition.x
                + -(d.m_currentPosition.x * d.m_velocityX + d.m_currentPosition.y * d.m_velocityY)
                  / (d.m_velocityX * d.m_velocityX + d.m_velocityY * d.m_velocityY)
                  * d.m_velocityX)
              * (d.m_currentPosition.x
                + -(d.m_currentPosition.x * d.m_velocityX + d.m_currentPosition.y * d.m_velocityY)
                  / (d.m_velocityX * d.m_velocityX + d.m_velocityY * d.m_velocityY)
                  * d.m_velocityX)
            + (d.m_currentPosition.y
                + -(d.m_currentPosition.x * d.m_velocityX + d.m_currentPosition.y * d.m_velocityY)
                  / (d.m_velocityX * d.m_velocityX + d.m_velocityY * d.m_velocityY)
                  * d.m_velocityY)
              * (d.m_currentPosition.y
                + -(d.m_currentPosition.x * d.m_velocityX + d.m_currentPosition.y * d.m_velocityY)
                  / (d.m_velocityX * d.m_velocityX + d.m_velocityY * d.m_velocityY)
                  * d.m_velocityY))) ∧
      d.getMinDistanceToRadarCenter
        ≤ Real.sqrt (d.m_currentPosition.x * d.m_currentPosition.x
            + d.m_currentPosition.y * d.m_currentPosition.y) := by
    /- Distance from the origin to the point `p + t v`. -/
    have ray_distance_ge (px py vx vy s t : ℝ)
        (hs : s * (vx * vx + vy * vy) = -(px * vx + py * vy)) :
        Real.sqrt ((px + s * vx) * (px + s * vx) + (py + s * vy) * (py + s * vy))
          ≤ Real.sqrt ((px + t * vx) * (px + t * vx) + (py + t * vy) * (py + t * vy)) := by
      apply Real.sqrt_le_sqrt
      have hid : (px + t * vx) * (px + t * vx) + (py + t * vy) * (py + t * vy)
          - ((px + s * vx) * (px + s * vx) + (py + s * vy) * (py + s * vy))
          = (t - s) * (t - s) * (vx * vx + vy * vy)
            + 2 * (t - s) * (s * (vx * vx + vy * vy) + (px * vx + py * vy)) := by ring
      have hn : 0 ≤ (t - s) * (t - s) * (vx * vx + vy * vy) :=
        mul_nonneg (mul_self_nonneg _) (mul_self_add_nonneg _ _)
      rw [hs] at hid
      have : (t - s) * (t - s) * (vx * vx + vy * vy)
          + 2 * (t - s) * (-(px * vx + py * vy) + (px * vx + py * vy))
          = (t - s) * (t - s) * (vx * vx + vy * vy) := by ring
      linarith
    have ray_distance_ge_start (px py vx vy t : ℝ) (ht : 0 ≤ t)
        (hdot : 0 ≤ px * vx + py * vy) :
        Real.sqrt (px * px + py * py)
          ≤ Real.sqrt ((px + t * vx) * (px + t * vx) + (py + t * vy) * (py + t * vy)) := by
      apply Real.sqrt_le_sqrt
      have hid : (px + t * vx) * (px + t * vx) + (py + t * vy) * (py + t * vy)
          = px * px + py * py + 2 * t * (px * vx + py * vy)
            + t * t * (vx * vx + vy * vy) := by ring
      have h1 : 0 ≤ 2 * t * (px * vx + py * vy) := by positivity
      have h2 : 0 ≤ t * t * (vx * vx + vy * vy) :=
        mul_nonneg (mul_self_nonneg _) (mul_self_add_nonneg _ _)
      linarith
    have hval := getMinDistance_active d hactive hnd
    generalize d.m_currentPosition.x = px at hval ⊢
    generalize d.m_currentPosition.y = py at hval ⊢
    generalize d.m_velocityX = vx at hval ⊢
    generalize d.m_velocityY = vy at hval ⊢
    generalize d.getMinDistanceToRadarCenter = r at hval ⊢
    have hstart : Real.sqrt (px * px + py * py)
        = Real.sqrt ((px + 0 * vx) * (px + 0 * vx) + (py + 0 * vy) * (py + 0 * vy)) := by
      simp
    by_cases hden : vx * vx + vy * vy ≤ 0
    · -- zero velocity
      have h0 : vx * vx + vy * vy = 0 := le_antisymm hden (mul_self_add_nonneg _ _)
      obtain ⟨hx, hy⟩ := mul_self_add_mul_self_eq_zero.1 h0
      rw [if_pos hden] at hval
      refine ⟨fun t _ => ?_, ⟨0, le_refl _, by rw [hval]; exact hstart⟩, fun _ => hval,
        fun hne => absurd ⟨hx, hy⟩ hne, hval.le⟩
      rw [hval, hx, hy]; simp
    · have hpos : 0 < vx * vx + vy * vy := not_le.1 hden
      rw [if_neg hden] at hval
      by_cases hneg : -(px * vx + py * vy) / (vx * vx + vy * vy) < 0
      · -- closest point of the line in the past
        rw [if_pos hneg] at hval
        have hdot : 0 ≤ px * vx + py * vy := by
          rw [div_neg_iff] at hneg
          rcases hneg with ⟨_, h2⟩ | ⟨h1, _⟩
          · exact absurd hpos (not_lt.2 h2.le)
          · linarith
        refine ⟨fun t ht => ?_, ⟨0, le_refl _, by rw [hval]; exact hstart⟩, fun _ => hval,
          fun _ hge => absurd hneg (not_lt.2 hge), hval.le⟩
        rw [hval]
        exact ray_distance_ge_start px py vx vy t ht hdot
      · -- closest point ahead
        rw [if_neg hneg] at hval
        have hs : -(px * vx + py * vy) / (vx * vx + vy * vy) * (vx * vx + vy * vy)
            = -(px * vx + py * vy) := div_mul_cancel₀ _ hpos.ne'
        have hge := fun t => ray_distance_ge px py vx vy
          (-(px * vx + py * vy) / (vx * vx + vy * vy)) t hs
        refine ⟨fun t _ => by rw [hval]; exact hge t,
          ⟨_, not_lt.1 hneg, hval⟩, ?_, fun _ _ => hval, ?_⟩
        · rintro (⟨hx, hy⟩ | h)
          · rw [hx, hy] at hpos; simp at hpos
          · exact absurd h hneg
        · rw [hval, hstart]; exact hge 0
  exact
    getMinDistance_spec d hactive hnd

theorem min_distance_to_center_witness :
    (Drone.newBallistic rawDrone 1 ⟨300, 400⟩ (-50) 0
        DroneType.Standard 0).getMinDistanceToRadarCenter
      ≤ Real.sqrt (300 * 300 + 400 * 400) :=
  (min_distance_to_center (Drone.newBallistic rawDrone 1 ⟨300, 400⟩ (-50) 0 DroneType.Standard 0)
    rfl rfl).2.2.2.2

/-! ### Exit time from the radar circle -/

/-- The value computed by the last lines of `calculateTimeToLeaveRadar` from
the coefficients of the quadratic. -/
theorem exit_time_core (a b c M R : ℝ) (ha : 0 < a)
    (hR : R =
      if b * b - 4 * a * c < 0 then M
      else
        if (-b - Real.sqrt (b * b - 4 * a * c)) / (2 * a) > 0 then
          min (if (-b + Real.sqrt (b * b - 4 * a * c)) / (2 * a) > 0 then
              min M ((-b + Real.sqrt (b * b - 4 * a * c)) / (2 * a)) else M)
            ((-b - Real.sqrt (b * b - 4 * a * c)) / (2 * a))
        else
          (if (-b + Real.sqrt (b * b - 4 * a * c)) / (2 * a) > 0 then
              min M ((-b + Real.sqrt (b * b - 4 * a * c)) / (2 * a)) else M)) :
    (∀ t₀ : ℝ, 0 < t₀ → a * t₀ * t₀ + b * t₀ + c = 0 →
      (∀ t : ℝ, 0 < t → a * t * t + b * t + c = 0 → t₀ ≤ t) → R = min M t₀) ∧
    ((∀ t : ℝ, 0 < t → a * t * t + b * t + c ≠ 0) → R = M) ∧
    (b * b - 4 * a * c < 0 → R = M ∧ ∀ t : ℝ, a * t * t + b * t + c ≠ 0) ∧
    (c < 0 → ∃ t₀ : ℝ, 0 < t₀ ∧ a * t₀ * t₀ + b * t₀ + c = 0 ∧
      (∀ t : ℝ, 0 < t → a * t * t + b * t + c = 0 → t = t₀) ∧ R = min M t₀) := by
  have h2a : 0 < 2 * a := by linarith
  by_cases hD : b * b - 4 * a * c < 0
  · -- no real root
    have hno : ∀ t : ℝ, a * t * t + b * t + c ≠ 0 := by
      intro t ht
      have : b * b - 4 * a * c = (2 * a * t + b) * (2 * a * t + b) := by
        have h4 : 4 * a * (a * t * t + b * t + c) = 0 := by rw [ht]; ring
        nlinarith
      have hsq := mul_self_nonneg (2 * a * t + b)
      linarith
    rw [if_pos hD] at hR
    refine ⟨fun t₀ _ h0 _ => absurd h0 (hno t₀), fun _ => hR, fun _ => ⟨hR, hno⟩, fun hc => ?_⟩
    have : 0 ≤ b * b - 4 * a * c := by nlinarith [mul_self_nonneg b]
    exact absurd hD (not_lt.2 this)
  · rw [if_neg hD] at hR
    have hD0 : 0 ≤ b * b - 4 * a * c := not_lt.1 hD
    have hs := Real.sqrt_nonneg (b * b - 4 * a * c)
    have hss : Real.sqrt (b * b - 4 * a * c) * Real.sqrt (b * b - 4 * a * c)
        = b * b - 4 * a * c := Real.mul_self_sqrt hD0
    generalize Real.sqrt (b * b - 4 * a * c) = s at hR hs hss
    have hroot : ∀ t : ℝ, a * t * t + b * t + c = 0 ↔
        t = (-b + s) / (2 * a) ∨ t = (-b - s) / (2 * a) := by
      intro t
      have h := quadratic_eq_zero_iff ha.ne' (show discrim a b c = s * s by
        rw [discrim, hss]; ring) t
      rw [← mul_assoc] at h
      exact h
    have hle : (-b - s) / (2 * a) ≤ (-b + s) / (2 * a) :=
      div_le_div_of_nonneg_right (by linarith) h2a.le
    have hprod : c < 0 → (-b - s) / (2 * a) < 0 ∧ 0 < (-b + s) / (2 * a) := by
      intro hc
      have hgt : b * b < s * s := by rw [hss]; nlinarith
      have h1 : b < s := by
        by_contra hcon
        have hb : s ≤ b := not_lt.1 hcon
        have := mul_le_mul hb hb hs (le_trans hs hb)
        linarith
      have h2 : -b < s := by
        by_contra hcon
        have hb : s ≤ -b := not_lt.1 hcon
        have := mul_le_mul hb hb hs (le_trans hs hb)
        nlinarith
      exact ⟨div_neg_of_neg_of_pos (by linarith) h2a, div_pos (by linarith) h2a⟩
    generalize (-b + s) / (2 * a) = t1 at hR hroot hle hprod
    generalize (-b - s) / (2 * a) = t2 at hR hroot hle hprod
    by_cases h2 : t2 > 0
    · -- both roots positive: the smaller one is returned
      have h1 : t1 > 0 := lt_of_lt_of_le h2 hle
      rw [if_pos h2, if_pos h1] at hR
      have hR' : R = min M t2 := by
        rw [hR, min_assoc, min_eq_right hle]
      refine ⟨fun t₀ ht₀ h0 hmin => ?_, fun hno => ?_, fun hlt => absurd hlt hD, fun hc => ?_⟩
      · have : t₀ = t2 := by
          rcases (hroot t₀).1 h0 with h | h
          · exact le_antisymm (hmin t2 h2 ((hroot t2).2 (Or.inr rfl))) (by rw [h]; exact hle)
          · exact h
        rw [this]; exact hR'
      · exact absurd ((hroot t2).2 (Or.inr rfl)) (hno t2 h2)
      · exact absurd (hprod hc).1 (not_lt.2 h2.le)
    · rw [if_neg h2] at hR
      by_cases h1 : t1 > 0
      · rw [if_pos h1] at hR
        refine ⟨fun t₀ ht₀ h0 hmin => ?_, fun hno => ?_, fun hlt => absurd hlt hD, fun _ => ?_⟩
        · have : t₀ = t1 := by
            rcases (hroot t₀).1 h0 with h | h
            · exact h
            · rw [h] at ht₀; exact absurd ht₀ h2
          rw [this]; exact hR
        · exact absurd ((hroot t1).2 (Or.inl rfl)) (hno t1 h1)
        · refine ⟨t1, h1, (hroot t1).2 (Or.inl rfl), fun t ht h0 => ?_, hR⟩
          rcases (hroot t).1 h0 with h | h
          · exact h
          · rw [h] at ht; exact absurd ht h2
      · rw [if_neg h1] at hR
        refine ⟨fun t₀ ht₀ h0 _ => ?_, fun _ => hR, fun hlt => absurd hlt hD, fun hc => ?_⟩
        · rcases (hroot t₀).1 h0 with h | h
          · rw [h] at ht₀; exact absurd ht₀ h1
          · rw [h] at ht₀; exact absurd ht₀ h2
        · exact absurd (hprod hc).2 h1

theorem exit_equation_iff (px py vx vy cx cy r t : ℝ) :
    (px + t * vx - cx) * (px + t * vx - cx) + (py + t * vy - cy) * (py + t * vy - cy) = r * r ↔
      (vx * vx + vy * vy) * t * t + 2 * ((px - cx) * vx + (py - cy) * vy) * t
        + ((px - cx) * (px - cx) + (py - cy) * (py - cy) - r * r) = 0 := by
  constructor <;> intro h <;> linarith

theorem speed_sq_pos_of_not_slow (vx vy : ℝ) (hv : ¬ (|vx| < 1 / 10 ∧ |vy| < 1 / 10)) :
    0 < vx * vx + vy * vy := by
  apply lt_of_le_of_ne (mul_self_add_nonneg _ _)
  intro h0
  obtain ⟨hx, hy⟩ := mul_self_add_mul_self_eq_zero.1 h0.symm
  apply hv
  rw [hx, hy]
  norm_num

/-- C19. For every entity whose velocity has `|vx| ≥ 0.1` or `|vy| ≥ 0.1`,
every centre `c` and radius `r`, `calculateTimeToLeaveRadar` returns the
smallest `t > 0` with `|p + t v - c|² = r²` when there is one (and it does not
exceed the largest double), and the sentinel `DBL_MAX` when no positive `t`
solves the equation, in particular when the discriminant is negative; an
entity strictly inside the circle has exactly one positive exit time and that
time is returned. -/
theorem time_to_leave_radar (drone : Drone) (radarCenter : QPointF) (radarRadius : ℝ)
    (hv : ¬ (|drone.m_velocityX| < 1 / 10 ∧ |drone.m_velocityY| < 1 / 10)) :
    (∀ t₀ : ℝ, 0 < t₀ →
      (drone.m_currentPosition.x + t₀ * drone.m_velocityX - radarCenter.x)
          * (drone.m_currentPosition.x + t₀ * drone.m_velocityX - radarCenter.x)
        + (drone.m_currentPosition.y + t₀ * drone.m_velocityY - radarCenter.y)
          * (drone.m_currentPosition.y + t₀ * drone.m_velocityY - radarCenter.y)
        = radarRadius * radarRadius →
      (∀ t : ℝ, 0 < t →
        (drone.m_currentPosition.x + t * drone.m_velocityX - radarCenter.x)
            * (drone.m_currentPosition.x + t * drone.m_velocityX - radarCenter.x)
          + (drone.m_currentPosition.y + t * drone.m_velocityY - radarCenter.y)
            * (drone.m_currentPosition.y + t * drone.m_velocityY - radarCenter.y)
          = radarRadius * radarRadius → t₀ ≤ t) →
      t₀ ≤ DBL_MAX →
      calculateTimeToLeaveRadar drone radarCenter radarRadius = t₀) ∧
    ((∀ t : ℝ, 0 < t →
        (drone.m_currentPosition.x + t * drone.m_velocityX - radarCenter.x)
            * (drone.m_currentPosition.x + t * drone.m_velocityX - radarCenter.x)
          + (drone.m_currentPosition.y + t * drone.m_velocityY - radarCenter.y)
            * (drone.m_currentPosition.y + t * drone.m_velocityY - radarCenter.y)
          ≠ radarRadius * radarRadius) →
      calculateTimeToLeaveRadar drone radarCenter radarRadius = DBL_MAX) ∧
    ((2 * ((drone.m_currentPosition.x - radarCenter.x) * drone.m_velocityX
            + (drone.m_currentPosition.y - radarCenter.y) * drone.m_velocityY))
        * (2 * ((drone.m_currentPosition.x - radarCenter.x) * drone.m_velocityX
            + (drone.m_currentPosition.y - radarCenter.y) * drone.m_velocityY))
        - 4 * (drone.m_velocityX * drone.m_velocityX + drone.m_velocityY * drone.m_velocityY)
          * ((drone.m_currentPosition.x - radarCenter.x)
              * (drone.m_currentPosition.x - radarCenter.x)
            + (drone.m_currentPosition.y - radarCenter.y)
              * (drone.m_currentPosition.y - radarCenter.y)
            - radarRadius * radarRadius) < 0 →
      calculateTimeToLeaveRadar drone radarCenter radarRadius = DBL_MAX) ∧
    ((drone.m_currentPosition.x - radarCenter.x) * (drone.m_currentPosition.x - radarCenter.x)
        + (drone.m_currentPosition.y - radarCenter.y)
          * (drone.m_currentPosition.y - radarCenter.y)
        < radarRadius * radarRadius →
      ∃ t₀ : ℝ, 0 < t₀ ∧
        (drone.m_currentPosition.x + t₀ * drone.m_velocityX - radarCenter.x)
            * (drone.m_currentPosition.x + t₀ * drone.m_velocityX - radarCenter.x)
          + (drone.m_currentPosition.y + t₀ * drone.m_velocityY - radarCenter.y)
            * (drone.m_currentPosition.y + t₀ * drone.m_velocityY - radarCenter.y)
          = radarRadius * radarRadius ∧
        (∀ t : ℝ, 0 < t →
          (drone.m_currentPosition.x + t * drone.m_velocityX - radarCenter.x)
              * (drone.m_currentPosition.x + t * drone.m_velocityX - radarCenter.x)
            + (drone.m_currentPosition.y + t * drone.m_velocityY - radarCenter.y)
              * (drone.m_currentPosition.y + t * drone.m_velocityY - radarCenter.y)
            = radarRadius * radarRadius → t = t₀) ∧
        (t₀ ≤ DBL_MAX → calculateTimeToLeaveRadar drone radarCenter radarRadius = t₀)) := by
  have ha := speed_sq_pos_of_not_slow _ _ hv
  obtain ⟨h1, h2, h3, h4⟩ := exit_time_core
    (drone.m_velocityX * drone.m_velocityX + drone.m_velocityY * drone.m_velocityY)
    (2 * ((drone.m_currentPosition.x - radarCenter.x) * drone.m_velocityX
      + (drone.m_currentPosition.y - radarCenter.y) * drone.m_velocityY))
    ((drone.m_currentPosition.x - radarCenter.x) * (drone.m_currentPosition.x - radarCenter.x)
      + (drone.m_currentPosition.y - radarCenter.y) * (drone.m_currentPosition.y - radarCenter.y)
      - radarRadius * radarRadius)
    DBL_MAX (calculateTimeToLeaveRadar drone radarCenter radarRadius) ha
    (by unfold calculateTimeToLeaveRadar
        simp only [hv, if_false])
  have hiff := fun t => exit_equation_iff drone.m_currentPosition.x drone.m_currentPosition.y
    drone.m_velocityX drone.m_velocityY radarCenter.x radarCenter.y radarRadius t
  refine ⟨fun t₀ ht₀ he hmin hfin => ?_, fun hno => h2 (fun t ht he => ?_), fun hD => (h3 hD).1,
    fun hin => ?_⟩
  · rw [h1 t₀ ht₀ ((hiff t₀).1 he) (fun t ht h0 => hmin t ht ((hiff t).2 h0)),
      min_eq_right hfin]
  · exact hno t ht ((hiff t).2 he)
  · obtain ⟨t₀, ht₀, he, huniq, hval⟩ := h4 (by linarith)
    exact ⟨t₀, ht₀, (hiff t₀).2 he, fun t ht h0 => huniq t ht ((hiff t).1 h0),
      fun hfin => by rw [hval, min_eq_right hfin]⟩

theorem time_to_leave_radar_witness :
    calculateTimeToLeaveRadar (Drone.newBallistic rawDrone 1 ⟨0, 0⟩ 50 0 DroneType.Standard 0)
      ⟨0, 0⟩ 800 = 16 := by
  refine (time_to_leave_radar (Drone.newBallistic rawDrone 1 ⟨0, 0⟩ 50 0 DroneType.Standard 0)
    ⟨0, 0⟩ 800 ?_).1 16 (by norm_num) ?_ ?_ ?_
  · simp only [Drone.newBallistic]
    norm_num
  · simp only [Drone.newBallistic]
    norm_num
  · intro t ht he
    simp only [Drone.newBallistic] at he
    nlinarith
  · unfold DBL_MAX
    norm_num

/-! ### Radar scan -/

theorem getDronesInRadarRange_eq_filter (m : DroneManager) (c : QPointF) (r : ℝ) :
    m.getDronesInRadarRange c r
      = m.m_drones.filter (fun d => d.m_active &&
          decide (Real.sqrt ((d.m_currentPosition.x - c.x) * (d.m_currentPosition.x - c.x)
            + (d.m_currentPosition.y - c.y) * (d.m_currentPosition.y - c.y)) ≤ r)) := by
  unfold DroneManager.getDronesInRadarRange DroneManager.getActiveDrones
  rw [List.filter_filter]
  apply List.filter_congr
  intro d _
  simp [Drone.isInRadarRange, Bool.and_comm]

/-- C20. `performScan` returns, in registry order, exactly one detection for
each active entity whose Euclidean distance to the radar centre is at most the
radar radius, and none for any other entity; each detection carries the id,
current position and velocity of its entity and a distance field equal to that
Euclidean distance.  The scan is a function of the registry: it does not
change it. -/
theorem scan_detects_exactly_entities_in_range (sim : RadarSimulator) (m : DroneManager)
    (currentTime : Int) :
    List.Forall₂
      (fun (detection : RadarDetection) (drone : Drone) =>
        detection.droneId = drone.m_id ∧
        detection.position = drone.m_currentPosition ∧
        detection.velocity = ⟨drone.m_velocityX, drone.m_velocityY⟩ ∧
        detection.distance
          = Real.sqrt ((drone.m_currentPosition.x - sim.m_radarCenter.x)
                * (drone.m_currentPosition.x - sim.m_radarCenter.x)
              + (drone.m_currentPosition.y - sim.m_radarCenter.y)
                * (drone.m_currentPosition.y - sim.m_radarCenter.y)))
      (sim.performScan m currentTime)
      (m.m_drones.filter (fun d => d.m_active &&
        decide (Real.sqrt ((d.m_currentPosition.x - sim.m_radarCenter.x)
              * (d.m_currentPosition.x - sim.m_radarCenter.x)
            + (d.m_currentPosition.y - sim.m_radarCenter.y)
              * (d.m_currentPosition.y - sim.m_radarCenter.y)) ≤ sim.m_radarRadius))) := by
  have performScan_eq (sim : RadarSimulator) (m : DroneManager) (currentTime : Int) :
      sim.performScan m currentTime
        = (m.getDronesInRadarRange sim.m_radarCenter sim.m_radarRadius).map
            (fun drone => sim.scanDetection drone currentTime) := by
    have foldl_append_if {α β : Type} (p : α → Bool) (f : α → β) (l : List α) (init : List β) :
        l.foldl (fun acc x => if p x then acc ++ [f x] else acc) init
          = init ++ (l.filter p).map f := by
      induction l generalizing init with
      | nil => simp
      | cons a l ih =>
        rw [List.foldl_cons, ih]
        by_cases hp : p a = true
        · simp [hp, List.filter_cons]
        · simp [hp, List.filter_cons]
    unfold RadarSimulator.performScan DroneManager.getDronesInRadarRange
    rw [foldl_append_if (fun drone => drone.isInRadarRange sim.m_radarCenter sim.m_radarRadius)
      (fun drone => sim.scanDetection drone currentTime)]
    simp
  rw [performScan_eq, getDronesInRadarRange_eq_filter, List.forall₂_map_left_iff]
  apply List.forall₂_same.2
  intro d _
  exact ⟨rfl, rfl, rfl, rfl⟩

/-! ### Engagement gate -/

theorem sqrt_mul_self_add_zero (x : ℝ) : Real.sqrt (x * x + 0 * 0) = |x| := by
  rw [mul_zero, add_zero]
  exact Real.sqrt_mul_self_eq_abs x

theorem westbound_engaged_at_200 :
    shouldEngageTarget (some (westboundAt ⟨200, 0⟩)) ⟨0, 0⟩ 800 0 = true := by
  have westboundAt_score_200 :
      calculateAdvancedThreatScore (some (westboundAt ⟨200, 0⟩)) ⟨0, 0⟩ = 280 / 3 := by
    have hs : Real.sqrt ((-50 : ℝ) * -50 + 0 * 0) = 50 := by
      rw [sqrt_mul_self_add_zero]; norm_num
    have hp : Real.sqrt ((200 : ℝ) * 200 + 0 * 0) = 200 := by
      rw [sqrt_mul_self_add_zero]; norm_num
    have hmin : (westboundAt ⟨200, 0⟩).getMinDistanceToRadarCenter = 0 := by
      rw [getMinDistance_active _ rfl rfl]
      simp only [westboundAt, Drone.newBallistic]
      norm_num
    have htime : (westboundAt ⟨200, 0⟩).getTimeToReachRadarCenter = 4 := by
      rw [(getTimeToReachRadarCenter_closing _ rfl rfl
        (by simp only [westboundAt, Drone.newBallistic]; norm_num)).1]
      simp only [westboundAt, Drone.newBallistic, Drone.getSpeed, hs, hp]
      norm_num
    simp only [calculateAdvancedThreatScore, hmin, htime, Drone.getThreatScore, Drone.getSpeed]
    simp only [westboundAt, Drone.newBallistic, sub_zero, hs, hp]
    norm_num
  have hp : Real.sqrt ((200 : ℝ) * 200 + 0 * 0) = 200 := by
    rw [sqrt_mul_self_add_zero]; norm_num
  have hmin : (westboundAt ⟨200, 0⟩).getMinDistanceToRadarCenter = 0 := by
    rw [getMinDistance_active _ rfl rfl]
    simp only [westboundAt, Drone.newBallistic]
    norm_num
  have hinP : (westboundAt ⟨200, 0⟩).isInRadarRange ⟨0, 0⟩ 800 = true := by
    simp only [Drone.isInRadarRange, westboundAt, Drone.newBallistic, sub_zero, hp]
    norm_num
  have ha : (westboundAt ⟨200, 0⟩).m_active = true := rfl
  have hd : (westboundAt ⟨200, 0⟩).m_destroyed = false := rfl
  simp only [shouldEngageTarget, ha, hd, hinP, westboundAt_score_200, hmin]
  norm_num

/-- C16 (counterexample). An entity with velocity (-50, 0), radar centre
(0, 0), radius 800.  At (200, 0) it heads straight for the centre: advanced
score 280/3, closest approach 0, and `shouldEngageTarget` is true.  Moved to
(-190, 0), strictly closer to the centre, with the same velocity and the same
other state, it flies away from the centre: the score is 52875/1102, below
the threshold 50, and `shouldEngageTarget` is false. -/
theorem engage_not_monotonic_in_proximity :
    Real.sqrt ((-190 - 0 : ℝ) * (-190 - 0) + (0 - 0) * (0 - 0))
      < Real.sqrt ((200 - 0 : ℝ) * (200 - 0) + (0 - 0) * (0 - 0)) ∧
    (westboundAt ⟨-190, 0⟩) = { westboundAt ⟨200, 0⟩ with m_currentPosition := ⟨-190, 0⟩ } ∧
    shouldEngageTarget (some (westboundAt ⟨200, 0⟩)) ⟨0, 0⟩ 800 0 = true ∧
    shouldEngageTarget (some (westboundAt ⟨-190, 0⟩)) ⟨0, 0⟩ 800 0 = false := by
  have westbound_not_engaged_at_190 :
      shouldEngageTarget (some (westboundAt ⟨-190, 0⟩)) ⟨0, 0⟩ 800 0 = false := by
    have westboundAt_score_190 :
        calculateAdvancedThreatScore (some (westboundAt ⟨-190, 0⟩)) ⟨0, 0⟩ = 52875 / 1102 := by
      have hs : Real.sqrt ((-50 : ℝ) * -50 + 0 * 0) = 50 := by
        rw [sqrt_mul_self_add_zero]; norm_num
      have hp : Real.sqrt ((-190 : ℝ) * -190 + 0 * 0) = 190 := by
        rw [sqrt_mul_self_add_zero]; norm_num
      have hmin : (westboundAt ⟨-190, 0⟩).getMinDistanceToRadarCenter = 190 := by
        rw [getMinDistance_active _ rfl rfl]
        simp only [westboundAt, Drone.newBallistic]
        norm_num
        rw [← hp]; norm_num
      have htime : (westboundAt ⟨-190, 0⟩).getTimeToReachRadarCenter = -1 := by
        apply getTimeToReachRadarCenter_not_closing
        right; right; right
        simp only [westboundAt, Drone.newBallistic]
        norm_num
      simp only [calculateAdvancedThreatScore, hmin, htime, Drone.getThreatScore, Drone.getSpeed]
      simp only [westboundAt, Drone.newBallistic, sub_zero, hs, hp]
      norm_num
    have hq : Real.sqrt ((-190 : ℝ) * -190 + 0 * 0) = 190 := by
      rw [sqrt_mul_self_add_zero]; norm_num
    have hinQ : (westboundAt ⟨-190, 0⟩).isInRadarRange ⟨0, 0⟩ 800 = true := by
      simp only [Drone.isInRadarRange, westboundAt, Drone.newBallistic, sub_zero, hq]
      norm_num
    have ha : (westboundAt ⟨-190, 0⟩).m_active = true := rfl
    have hd : (westboundAt ⟨-190, 0⟩).m_destroyed = false := rfl
    simp only [shouldEngageTarget, ha, hd, hinQ, westboundAt_score_190]
    norm_num
  have hp : Real.sqrt ((200 : ℝ) * 200 + 0 * 0) = 200 := by
    rw [sqrt_mul_self_add_zero]; norm_num
  have hq : Real.sqrt ((-190 : ℝ) * -190 + 0 * 0) = 190 := by
    rw [sqrt_mul_self_add_zero]; norm_num
  exact ⟨by simp only [sub_zero, hp, hq]; norm_num, rfl, westbound_engaged_at_200,
    westbound_not_engaged_at_190⟩

/-- C16 (amended). `shouldEngageTarget` depends on the current position only
through radar-range membership, the advanced threat score and the minimum
approach distance.  Moving an entity (same velocity, same other state) to a
position that is in radar range, where the advanced score is not lower and the
minimum approach distance is not larger, never flips a true result to false.
In particular, with the radar centre at the origin, an entity flying straight
at the centre (velocity `-k p`, `k > 0`) that is moved closer along its course
(to `lam p`, `0 < lam ≤ 1`) stays engaged. -/
theorem engage_monotone_when_threat_not_lower (d : Drone) (q c : QPointF) (r : ℝ) (now : Int) :
    (Real.sqrt ((q.x - c.x) * (q.x - c.x) + (q.y - c.y) * (q.y - c.y)) ≤ r →
      calculateAdvancedThreatScore (some d) c
        ≤ calculateAdvancedThreatScore (some { d with m_currentPosition := q }) c →
      ({ d with m_currentPosition := q } : Drone).getMinDistanceToRadarCenter
        ≤ d.getMinDistanceToRadarCenter →
      shouldEngageTarget (some d) c r now = true →
      shouldEngageTarget (some { d with m_currentPosition := q }) c r now = true) ∧
    (∀ k lam : ℝ, 0 < k → 0 < lam → lam ≤ 1 →
      d.m_velocityX = -(k * d.m_currentPosition.x) →
      d.m_velocityY = -(k * d.m_currentPosition.y) →
      shouldEngageTarget (some d) ⟨0, 0⟩ r now = true →
      shouldEngageTarget
        (some { d with m_currentPosition := ⟨lam * d.m_currentPosition.x,
                                             lam * d.m_currentPosition.y⟩ })
        ⟨0, 0⟩ r now = true) := by
  have sqrt_scaled (μ x y : ℝ) (hμ : 0 ≤ μ) :
      Real.sqrt (μ * x * (μ * x) + μ * y * (μ * y)) = μ * Real.sqrt (x * x + y * y) := by
    rw [show μ * x * (μ * x) + μ * y * (μ * y) = μ * μ * (x * x + y * y) by ring,
      Real.sqrt_mul (mul_self_nonneg μ), Real.sqrt_mul_self hμ]
  have willEnterRadarZone_moved (d : Drone) (q c : QPointF) (r : ℝ) (w now : Int) :
      ({ d with m_currentPosition := q } : Drone).willEnterRadarZone c r w now
        = d.willEnterRadarZone c r w now := by
    unfold Drone.willEnterRadarZone
    by_cases h : (!d.m_active || d.m_destroyed) = true
    · simp only [h, if_true]
    · simp only [h, if_false, Drone.predictPositionAtTime, Bool.false_eq_true]
  have shouldEngageTarget_mono_of (d e : Drone) (c : QPointF) (r : ℝ) (now : Int)
      (hact : e.m_active = d.m_active) (hdes : e.m_destroyed = d.m_destroyed)
      (hin : e.isInRadarRange c r = true)
      (hscore : calculateAdvancedThreatScore (some d) c ≤ calculateAdvancedThreatScore (some e) c)
      (hmin : e.getMinDistanceToRadarCenter ≤ d.getMinDistanceToRadarCenter)
      (hwill : e.willEnterRadarZone c (r * (1 / 2)) 10000 now
        = d.willEnterRadarZone c (r * (1 / 2)) 10000 now)
      (heng : shouldEngageTarget (some d) c r now = true) :
      shouldEngageTarget (some e) c r now = true := by
    have getMinDistance_nonneg (d : Drone) (hactive : d.m_active = true)
        (hnd : d.m_destroyed = false) : 0 ≤ d.getMinDistanceToRadarCenter := by
      rw [getMinDistance_active d hactive hnd]
      split_ifs <;> exact Real.sqrt_nonneg _
    unfold shouldEngageTarget at heng ⊢
    dsimp only at heng ⊢
    by_cases hflag : (!d.m_active || d.m_destroyed) = true
    · rw [if_pos hflag] at heng; exact absurd heng (by simp)
    · rw [if_neg hflag] at heng
      have hflag' : ¬ (!e.m_active || e.m_destroyed) = true := by rw [hact, hdes]; exact hflag
      have ha : e.m_active = true := by
        cases h : e.m_active
        · exact absurd (by simp [h]) hflag'
        · rfl
      have hd : e.m_destroyed = false := by
        cases h : e.m_destroyed
        · rfl
        · exact absurd (by simp [h]) hflag'
      rw [if_neg hflag', hin]
      simp only [Bool.not_true, Bool.false_eq_true, if_false]
      by_cases hinD : (!d.isInRadarRange c r) = true
      · rw [if_pos hinD] at heng; exact absurd heng (by simp)
      · rw [if_neg hinD] at heng
        by_cases hlow : calculateAdvancedThreatScore (some d) c < 50
        · rw [if_pos hlow] at heng; exact absurd heng (by simp)
        · rw [if_neg hlow] at heng
          have hlowE : ¬ calculateAdvancedThreatScore (some e) c < 50 := by
            intro h; exact hlow (lt_of_le_of_lt hscore h)
          rw [if_neg hlowE, hwill]
          by_cases hw : d.willEnterRadarZone c (r * (1 / 2)) 10000 now = true
          · rw [if_pos hw]
          · rw [if_neg hw] at heng ⊢
            by_cases hhigh : calculateAdvancedThreatScore (some d) c > 500
            · rw [if_pos (lt_of_lt_of_le hhigh hscore)]
            · rw [if_neg hhigh] at heng
              by_cases hhighE : calculateAdvancedThreatScore (some e) c > 500
              · rw [if_pos hhighE]
              · rw [if_neg hhighE]
                by_cases hm : d.getMinDistanceToRadarCenter ≥ 0
                    ∧ d.getMinDistanceToRadarCenter < r * (7 / 10)
                · rw [if_pos ⟨getMinDistance_nonneg e ha hd, lt_of_le_of_lt hmin hm.2⟩]
                · rw [if_neg hm] at heng; exact absurd heng (by simp)
  /- Quantities entering the advanced score for an entity at `μ (x₀, y₀)` that
  flies with velocity `-k (x₀, y₀)`, straight at the origin. -/
  have head_on_quantities (e : Drone) (x₀ y₀ k μ : ℝ) (hk : 0 < k) (hμ : 0 < μ)
      (hN : 0 < x₀ * x₀ + y₀ * y₀)
      (ha : e.m_active = true) (hd : e.m_destroyed = false)
      (hpx : e.m_currentPosition.x = μ * x₀) (hpy : e.m_currentPosition.y = μ * y₀)
      (hvx : e.m_velocityX = -(k * x₀)) (hvy : e.m_velocityY = -(k * y₀)) :
      e.getMinDistanceToRadarCenter = 0 ∧
      e.getTimeToReachRadarCenter = μ / k ∧
      e.getSpeed = k * Real.sqrt (x₀ * x₀ + y₀ * y₀) ∧
      Real.sqrt (e.m_currentPosition.x * e.m_currentPosition.x
        + e.m_currentPosition.y * e.m_currentPosition.y) = μ * Real.sqrt (x₀ * x₀ + y₀ * y₀) := by
    have hNs : 0 < Real.sqrt (x₀ * x₀ + y₀ * y₀) := Real.sqrt_pos.2 hN
    have hspeed : e.getSpeed = k * Real.sqrt (x₀ * x₀ + y₀ * y₀) := by
      unfold Drone.getSpeed
      rw [hvx, hvy, ← sqrt_scaled k x₀ y₀ hk.le]
      congr 1; ring
    have hpos : Real.sqrt (e.m_currentPosition.x * e.m_currentPosition.x
        + e.m_currentPosition.y * e.m_currentPosition.y)
        = μ * Real.sqrt (x₀ * x₀ + y₀ * y₀) := by
      rw [hpx, hpy, sqrt_scaled μ x₀ y₀ hμ.le]
    have hden : 0 < -(k * x₀) * -(k * x₀) + -(k * y₀) * -(k * y₀) := by
      have : -(k * x₀) * -(k * x₀) + -(k * y₀) * -(k * y₀) = k * k * (x₀ * x₀ + y₀ * y₀) := by ring
      rw [this]; positivity
    have ht : -(μ * x₀ * -(k * x₀) + μ * y₀ * -(k * y₀))
        / (-(k * x₀) * -(k * x₀) + -(k * y₀) * -(k * y₀)) = μ / k := by
      rw [div_eq_div_iff hden.ne' hk.ne']
      ring
    have hzx : μ * x₀ + μ / k * -(k * x₀) = 0 := by field_simp; ring
    have hzy : μ * y₀ + μ / k * -(k * y₀) = 0 := by field_simp; ring
    refine ⟨?_, ?_, hspeed, hpos⟩
    · rw [getMinDistance_active e ha hd, hpx, hpy, hvx, hvy, if_neg (not_le.2 hden)]
      simp only [ht, hzx, hzy]
      rw [if_neg (not_lt.2 (div_pos hμ hk).le)]
      simp
    · have hdot : 0 < e.m_velocityX * (-e.m_currentPosition.x)
          + e.m_velocityY * (-e.m_currentPosition.y) := by
        rw [hpx, hpy, hvx, hvy]
        have : -(k * x₀) * -(μ * x₀) + -(k * y₀) * -(μ * y₀) = k * μ * (x₀ * x₀ + y₀ * y₀) := by
          ring
        rw [this]; positivity
      rw [(getTimeToReachRadarCenter_closing e ha hd hdot).1, hpos, hspeed]
      field_simp
      ring
  have shouldEngageTarget_head_on (d : Drone) (k lam r : ℝ) (now : Int)
      (hk : 0 < k) (hlam : 0 < lam) (hlam1 : lam ≤ 1)
      (hvx : d.m_velocityX = -(k * d.m_currentPosition.x))
      (hvy : d.m_velocityY = -(k * d.m_currentPosition.y))
      (heng : shouldEngageTarget (some d) ⟨0, 0⟩ r now = true) :
      shouldEngageTarget
        (some { d with m_currentPosition := ⟨lam * d.m_currentPosition.x,
                                             lam * d.m_currentPosition.y⟩ })
        ⟨0, 0⟩ r now = true := by
    have head_on_score (e : Drone) (x₀ y₀ k μ : ℝ) (hk : 0 < k) (hμ : 0 < μ)
        (hN : 0 < x₀ * x₀ + y₀ * y₀)
        (ha : e.m_active = true) (hd : e.m_destroyed = false)
        (hpx : e.m_currentPosition.x = μ * x₀) (hpy : e.m_currentPosition.y = μ * y₀)
        (hvx : e.m_velocityX = -(k * x₀)) (hvy : e.m_velocityY = -(k * y₀)) :
        calculateAdvancedThreatScore (some e) ⟨0, 0⟩
          = 1000 / max 1 (μ * Real.sqrt (x₀ * x₀ + y₀ * y₀))
            * (1000 / (μ * Real.sqrt (x₀ * x₀ + y₀ * y₀) + 100))
            * (1 + k * Real.sqrt (x₀ * x₀ + y₀ * y₀) / 100)
            * 2
            * (if μ / k < 30 then 2 - μ / k / 30 else 1) := by
      obtain ⟨hmin, htime, hspeed, hpos⟩ :=
        head_on_quantities e x₀ y₀ k μ hk hμ hN ha hd hpx hpy hvx hvy
      simp only [calculateAdvancedThreatScore, ha, hd, hmin, htime, hspeed, Drone.getThreatScore,
        sub_zero, hpos]
      have hpos' : μ / k > 0 := div_pos hμ hk
      simp [hpos']
    have head_on_score_mono (N k lam : ℝ) (hk : 0 < k) (hN : 0 < N) (hlam : 0 < lam)
        (hlam1 : lam ≤ 1) :
        1000 / max 1 (1 * N) * (1000 / (1 * N + 100)) * (1 + k * N / 100) * 2
            * (if 1 / k < 30 then 2 - 1 / k / 30 else 1)
          ≤ 1000 / max 1 (lam * N) * (1000 / (lam * N + 100)) * (1 + k * N / 100) * 2
            * (if lam / k < 30 then 2 - lam / k / 30 else 1) := by
      have hlN : lam * N ≤ 1 * N := mul_le_mul_of_nonneg_right hlam1 hN.le
      have hlN0 : 0 < lam * N := mul_pos hlam hN
      have h1 : 1000 / max 1 (1 * N) ≤ 1000 / max 1 (lam * N) :=
        div_le_div_of_nonneg_left (by norm_num) (lt_of_lt_of_le one_pos (le_max_left _ _))
          (max_le_max le_rfl hlN)
      have h2 : 1000 / (1 * N + 100) ≤ 1000 / (lam * N + 100) :=
        div_le_div_of_nonneg_left (by norm_num) (by linarith) (by linarith)
      have hlk : lam / k ≤ 1 / k := div_le_div_of_nonneg_right hlam1 hk.le
      have h5 : (if 1 / k < 30 then 2 - 1 / k / 30 else 1)
          ≤ (if lam / k < 30 then 2 - lam / k / 30 else 1) := by
        by_cases hc : 1 / k < 30
        · rw [if_pos hc, if_pos (lt_of_le_of_lt hlk hc)]
          linarith
        · rw [if_neg hc]
          split_ifs with hc2
          · linarith
          · exact le_rfl
      have p1 : 0 ≤ 1000 / max 1 (1 * N) := by positivity
      have p2 : 0 ≤ 1000 / (1 * N + 100) := by positivity
      have p2' : 0 ≤ 1000 / (lam * N + 100) := by positivity
      have p1' : 0 ≤ 1000 / max 1 (lam * N) := by positivity
      have p3 : 0 ≤ 1 + k * N / 100 := by positivity
      have p5 : 0 ≤ (if 1 / k < 30 then 2 - 1 / k / 30 else 1) := by
        split_ifs with hc
        · linarith
        · norm_num
      have p5' : 0 ≤ (if lam / k < 30 then 2 - lam / k / 30 else 1) := le_trans p5 h5
      have e12 := mul_le_mul h1 h2 p2 p1'
      have e123 := mul_le_mul_of_nonneg_right e12 p3
      have e1234 := mul_le_mul_of_nonneg_right e123 (by norm_num : (0 : ℝ) ≤ 2)
      exact mul_le_mul e1234 h5 p5
        (mul_nonneg (mul_nonneg (mul_nonneg p1' p2') p3) (by norm_num))
    have shouldEngageTarget_true_imp (d : Drone) (c : QPointF) (r : ℝ) (now : Int)
        (heng : shouldEngageTarget (some d) c r now = true) :
        d.m_active = true ∧ d.m_destroyed = false ∧ d.isInRadarRange c r = true := by
      unfold shouldEngageTarget at heng
      dsimp only at heng
      by_cases hflag : (!d.m_active || d.m_destroyed) = true
      · rw [if_pos hflag] at heng; exact absurd heng (by simp)
      · rw [if_neg hflag] at heng
        by_cases hin : (!d.isInRadarRange c r) = true
        · rw [if_pos hin] at heng; exact absurd heng (by simp)
        · refine ⟨?_, ?_, by simpa using hin⟩
          · cases h : d.m_active
            · exact absurd (by simp [h]) hflag
            · rfl
          · cases h : d.m_destroyed
            · rfl
            · exact absurd (by simp [h]) hflag
    obtain ⟨ha, hd, hin⟩ := shouldEngageTarget_true_imp d _ r now heng
    by_cases hN : d.m_currentPosition.x * d.m_currentPosition.x
        + d.m_currentPosition.y * d.m_currentPosition.y = 0
    · -- the entity is at the origin: the move leaves it where it is
      obtain ⟨hx, hy⟩ := mul_self_add_mul_self_eq_zero.1 hN
      have hsame : (⟨lam * d.m_currentPosition.x, lam * d.m_currentPosition.y⟩ : QPointF)
          = d.m_currentPosition := by
        have heta : d.m_currentPosition = ⟨d.m_currentPosition.x, d.m_currentPosition.y⟩ := rfl
        rw [heta, hx, hy]
        simp
      rw [hsame]
      exact heng
    · have hNpos : 0 < d.m_currentPosition.x * d.m_currentPosition.x
          + d.m_currentPosition.y * d.m_currentPosition.y :=
        lt_of_le_of_ne (mul_self_add_nonneg _ _) (Ne.symm hN)
      have hNs := Real.sqrt_pos.2 hNpos
      have qd := head_on_quantities d d.m_currentPosition.x d.m_currentPosition.y k 1 hk one_pos
        hNpos ha hd (one_mul _).symm (one_mul _).symm hvx hvy
      have qe := head_on_quantities
        { d with m_currentPosition := ⟨lam * d.m_currentPosition.x, lam * d.m_currentPosition.y⟩ }
        d.m_currentPosition.x d.m_currentPosition.y k lam hk hlam hNpos ha hd rfl rfl hvx hvy
      have sd := head_on_score d d.m_currentPosition.x d.m_currentPosition.y k 1 hk one_pos
        hNpos ha hd (one_mul _).symm (one_mul _).symm hvx hvy
      have se := head_on_score
        { d with m_currentPosition := ⟨lam * d.m_currentPosition.x, lam * d.m_currentPosition.y⟩ }
        d.m_currentPosition.x d.m_currentPosition.y k lam hk hlam hNpos ha hd rfl rfl hvx hvy
      refine shouldEngageTarget_mono_of d
        { d with m_currentPosition := ⟨lam * d.m_currentPosition.x, lam * d.m_currentPosition.y⟩ }
        ⟨0, 0⟩ r now rfl rfl ?_ ?_ ?_ (willEnterRadarZone_moved d _ _ _ _ _) heng
      · -- still in range
        have hdist : Real.sqrt ((d.m_currentPosition.x - 0) * (d.m_currentPosition.x - 0)
            + (d.m_currentPosition.y - 0) * (d.m_currentPosition.y - 0)) ≤ r := by
          simpa [Drone.isInRadarRange] using hin
        simp only [sub_zero] at hdist
        simp only [Drone.isInRadarRange, sub_zero, decide_eq_true_eq]
        rw [sqrt_scaled lam _ _ hlam.le]
        calc lam * Real.sqrt (d.m_currentPosition.x * d.m_currentPosition.x
                + d.m_currentPosition.y * d.m_currentPosition.y)
            ≤ 1 * Real.sqrt (d.m_currentPosition.x * d.m_currentPosition.x
                + d.m_currentPosition.y * d.m_currentPosition.y) :=
              mul_le_mul_of_nonneg_right hlam1 hNs.le
          _ ≤ r := by rw [one_mul]; exact hdist
      · rw [sd, se]
        exact head_on_score_mono _ k lam hk hNs hlam hlam1
      · rw [qd.1, qe.1]
  refine ⟨fun hin hscore hmin heng => ?_, fun k lam hk hlam hlam1 hvx hvy heng =>
    shouldEngageTarget_head_on d k lam r now hk hlam hlam1 hvx hvy heng⟩
  exact shouldEngageTarget_mono_of d _ c r now rfl rfl
    (by simpa [Drone.isInRadarRange] using hin) hscore hmin
    (willEnterRadarZone_moved d _ _ _ _ _) heng

theorem engage_monotone_when_threat_not_lower_witness :
    shouldEngageTarget
      (some { westboundAt ⟨200, 0⟩ with
        m_currentPosition := ⟨1 / 2 * (westboundAt ⟨200, 0⟩).m_currentPosition.x,
                              1 / 2 * (westboundAt ⟨200, 0⟩).m_currentPosition.y⟩ })
      ⟨0, 0⟩ 800 0 = true :=
  (engage_monotone_when_threat_not_lower (westboundAt ⟨200, 0⟩) ⟨0, 0⟩ ⟨0, 0⟩ 800 0).2
    (1 / 4) (1 / 2) (by norm_num) (by norm_num) (by norm_num)
    (by simp only [westboundAt, Drone.newBallistic]; norm_num)
    (by simp only [westboundAt, Drone.newBallistic]; norm_num)
    westbound_engaged_at_200

theorem eraseP_eq_filter_of_unique {α : Type} (p : α → Bool) (a : α) :
    ∀ l : List α, l.Nodup → (∀ x ∈ l, p x = true → x = a) →
      l.eraseP p = l.filter (fun x => !p x)
  | [], _, _ => rfl
  | x :: xs, hnd, huniq => by
    have hnd' := List.nodup_cons.1 hnd
    by_cases hx : p x = true
    · have hxa : x = a := huniq x (List.mem_cons_self _ _) hx
      have hnone : ∀ y ∈ xs, (!p y) = true := by
        intro y hy
        cases hpy : p y
        · rfl
        · have hya : y = a := huniq y (List.mem_cons_of_mem _ hy) hpy
          exact absurd (hya.trans hxa.symm ▸ hy) hnd'.1
      rw [List.eraseP_cons_of_pos hx, List.filter_cons_of_neg (by simp [hx])]
      exact (List.filter_eq_self.2 hnone).symm
    · rw [List.eraseP_cons_of_neg hx, List.filter_cons_of_pos (by simpa using hx)]
      rw [eraseP_eq_filter_of_unique p a xs hnd'.2
        (fun y hy => huniq y (List.mem_cons_of_mem _ hy))]

theorem StrikeInv_init (L : List Drone) :
    StrikeInv L [] ⟨L, List.range L.length, []⟩ where
  heap_hit := fun j hj => absurd hj (List.not_mem_nil j)
  heap_miss := fun _ _ => rfl
  registry_eq := by simp
  events_eq := rfl

theorem StrikeInv_step {L : List Drone} {P : List Nat} {s : StrikeLoop}
    (h : StrikeInv L P s) (hid : (L.map Drone.m_id).Nodup) (k : Nat) (o : Drone)
    (hk : L[k]? = some o) (hkP : k ∉ P) (hdes : o.m_destroyed = false) :
    StrikeInv L (P ++ [k]) (destroyObject s k) := by
  have StrikeInv_heap_id {L : List Drone} {P : List Nat} {s : StrikeLoop}
      (h : StrikeInv L P s) (j : Nat) :
      (s.heap[j]?).map Drone.m_id = (L[j]?).map Drone.m_id := by
    by_cases hj : j ∈ P
    · rw [h.heap_hit j hj]
      cases L[j]? <;> rfl
    · rw [h.heap_miss j hj]
  have removeDroneIn_pos (s : StrikeLoop) (id : Int)
      (h : (s.registry.any fun j =>
        match s.heap[j]? with
        | some obj => decide (obj.m_id = id)
        | none => false) = true) :
      removeDroneIn s id =
        { s with registry := s.registry.eraseP (fun j =>
                   match s.heap[j]? with
                   | some obj => decide (obj.m_id = id)
                   | none => false)
                 events := s.events ++ [Event.droneRemoved id] } := by
    unfold removeDroneIn
    exact if_pos h
  have destroyObject_alive (s : StrikeLoop) (k : Nat) (o : Drone)
      (hheap : s.heap[k]? = some o) (hdes : o.m_destroyed = false) :
      destroyObject s k =
        removeDroneIn { s with heap := s.heap.set k o.struck
                               events := s.events ++ [Event.droneDestroyed o.m_id] } o.m_id := by
    unfold destroyObject
    rw [hheap]
    simp only [hdes, Bool.false_eq_true, if_false]
  have hklt : k < L.length := (List.getElem?_eq_some.1 hk).1
  have hheap : s.heap[k]? = some o := by rw [h.heap_miss k hkP, hk]
  have hkheap : k < s.heap.length := (List.getElem?_eq_some.1 hheap).1
  -- the heap after `destroy()`
  have hset : ∀ j : Nat, (s.heap.set k o.struck)[j]? =
      if k = j then some o.struck else s.heap[j]? := by
    intro j
    rw [List.getElem?_set]
    by_cases hkj : k = j
    · subst hkj
      simp [hkheap]
    · simp [hkj]
  have hsetid : ∀ j : Nat, ((s.heap.set k o.struck)[j]?).map Drone.m_id = (L[j]?).map Drone.m_id := by
    intro j
    rw [hset j]
    by_cases hkj : k = j
    · rw [if_pos hkj, ← hkj, hk]; rfl
    · rw [if_neg hkj]; exact StrikeInv_heap_id h j
  -- the test of `removeDrone` finds exactly the entry `k`
  have hhas : ∀ j : Nat, (match (s.heap.set k o.struck)[j]? with
      | some obj => decide (obj.m_id = o.m_id)
      | none => false) = true → j = k := by
    intro j hj
    have hidj := hsetid j
    cases hh : (s.heap.set k o.struck)[j]? with
    | none => rw [hh] at hj; exact absurd hj (by simp)
    | some obj =>
      rw [hh] at hj hidj
      have hobj : obj.m_id = o.m_id := by simpa using hj
      cases hL : L[j]? with
      | none => rw [hL] at hidj; exact absurd hidj (by simp)
      | some oj =>
        rw [hL] at hidj
        have hoj : oj.m_id = o.m_id := by
          have : obj.m_id = oj.m_id := by simpa using hidj
          rw [← this, hobj]
        have hjlt : j < L.length := (List.getElem?_eq_some.1 hL).1
        have hjm : (L.map Drone.m_id)[j]? = some o.m_id := by
          rw [List.getElem?_map, hL]; simp [hoj]
        have hkm : (L.map Drone.m_id)[k]? = some o.m_id := by
          rw [List.getElem?_map, hk]; rfl
        have hjl : j < (L.map Drone.m_id).length := by simpa using hjlt
        have hkl : k < (L.map Drone.m_id).length := by simpa using hklt
        have e1 : (L.map Drone.m_id)[j] = o.m_id := by
          have := List.getElem?_eq_getElem hjl
          rw [hjm] at this
          exact (Option.some.inj this).symm
        have e2 : (L.map Drone.m_id)[k] = o.m_id := by
          have := List.getElem?_eq_getElem hkl
          rw [hkm] at this
          exact (Option.some.inj this).symm
        exact (List.Nodup.getElem_inj_iff hid).1 (e1.trans e2.symm)
  have hhask : (match (s.heap.set k o.struck)[k]? with
      | some obj => decide (obj.m_id = o.m_id)
      | none => false) = true := by
    rw [hset k, if_pos rfl]
    simp [Drone.struck]
  have hkreg : k ∈ s.registry := by
    rw [h.registry_eq]
    exact List.mem_filter.2 ⟨List.mem_range.2 hklt, by simpa using hkP⟩
  have hany : (s.registry.any fun j =>
      match (s.heap.set k o.struck)[j]? with
      | some obj => decide (obj.m_id = o.m_id)
      | none => false) = true :=
    List.any_eq_true.2 ⟨k, hkreg, hhask⟩
  have hnd : s.registry.Nodup := by
    rw [h.registry_eq]
    exact (List.nodup_range _).filter _
  have hdo : destroyObject s k =
      { heap := s.heap.set k o.struck
        registry := s.registry.filter (fun j => !(match (s.heap.set k o.struck)[j]? with
          | some obj => decide (obj.m_id = o.m_id)
          | none => false))
        events := s.events ++ [Event.droneDestroyed o.m_id] ++ [Event.droneRemoved o.m_id] } := by
    rw [destroyObject_alive s k o hheap hdes, removeDroneIn_pos _ _ hany]
    show StrikeLoop.mk _ (List.eraseP _ s.registry) _ = _
    rw [eraseP_eq_filter_of_unique _ k s.registry hnd (fun x _ hx => hhas x hx)]
  rw [hdo]
  refine ⟨?_, ?_, ?_, ?_⟩
  · intro j hj
    show (s.heap.set k o.struck)[j]? = _
    rw [hset j]
    by_cases hkj : k = j
    · rw [if_pos hkj, ← hkj, hk]; rfl
    · rw [if_neg hkj]
      rcases List.mem_append.1 hj with hjP | hjk
      · exact h.heap_hit j hjP
      · exact absurd (List.mem_singleton.1 hjk).symm hkj
  · intro j hj
    show (s.heap.set k o.struck)[j]? = _
    rw [hset j]
    have hkj : ¬ k = j := fun e => hj (List.mem_append.2 (Or.inr (List.mem_singleton.2 e.symm)))
    rw [if_neg hkj]
    exact h.heap_miss j (fun hjP => hj (List.mem_append.2 (Or.inl hjP)))
  · show s.registry.filter _ = _
    rw [h.registry_eq, List.filter_filter]
    apply List.filter_congr
    intro j _
    by_cases hjk : j = k
    · subst hjk
      simp [hhask]
    · have hno : (match (s.heap.set k o.struck)[j]? with
          | some obj => decide (obj.m_id = o.m_id)
          | none => false) = false := by
        cases hv : (match (s.heap.set k o.struck)[j]? with
          | some obj => decide (obj.m_id = o.m_id)
          | none => false)
        · rfl
        · exact absurd (hhas j hv) hjk
      rw [hno]
      simp [hjk]
  · show s.events ++ _ ++ _ = _
    rw [h.events_eq, List.flatMap_append]
    simp [List.flatMap, hk, strikeEvents]

theorem StrikeInv_foldl {L : List Drone} (hid : (L.map Drone.m_id).Nodup) :
    ∀ (T P : List Nat) (s : StrikeLoop), StrikeInv L P s → T.Nodup →
      (∀ k ∈ T, k ∉ P ∧ ∃ o, L[k]? = some o ∧ o.m_destroyed = false) →
      StrikeInv L (P ++ T) (T.foldl destroyObject s)
  | [], P, s, h, _, _ => by simpa using h
  | k :: T, P, s, h, hnd, hT => by
    obtain ⟨hkP, o, hk, hdes⟩ := hT k (List.mem_cons_self _ _)
    have hnd' := List.nodup_cons.1 hnd
    have h1 := StrikeInv_step h hid k o hk hkP hdes
    have h2 := StrikeInv_foldl hid T (P ++ [k]) _ h1 hnd'.2 (fun j hj =>
      ⟨fun hjm => by
          rcases List.mem_append.1 hjm with hjP | hjk
          · exact (hT j (List.mem_cons_of_mem _ hj)).1 hjP
          · exact hnd'.1 (List.mem_singleton.1 hjk ▸ hj),
        (hT j (List.mem_cons_of_mem _ hj)).2⟩)
    rw [List.foldl_cons]
    have happ : P ++ k :: T = P ++ [k] ++ T := by simp
    rw [happ]
    exact h2

theorem getDronesInStrikeRange_eq_filter (m : DroneManager) (c : QPointF) (r : ℝ) :
    m.getDronesInStrikeRange c r
      = m.m_drones.filter (fun d => d.m_active && d.isInStrikeRange c r) := by
  unfold getDronesInStrikeRange getActiveDrones
  rw [List.filter_filter]
  apply List.filter_congr
  intro d _
  exact Bool.and_comm _ _

theorem strikeTarget_spec (m : DroneManager) (c : QPointF) (r : ℝ)
    (hid : (m.m_drones.map Drone.m_id).Nodup)
    (hact : ∀ d ∈ m.m_drones, d.m_active = true → d.m_destroyed = false) :
    (∀ k : Nat, (m.strikeTargetLoop c r).heap[k]? =
        (m.m_drones[k]?).map (fun o =>
          if (o.m_active && o.isInStrikeRange c r) = true then o.struck else o)) ∧
    (m.strikeTarget c r).1 =
      { m with m_drones :=
          (m.m_drones.filter (fun d => !(d.m_active && d.isInStrikeRange c r))) } ∧
    (m.strikeTarget c r).2 =
      (m.getDronesInStrikeRange c r).flatMap
          (fun d => [Event.droneDestroyed d.m_id, Event.droneRemoved d.m_id])
        ++ [Event.strikeExecuted c r ((m.getDronesInStrikeRange c r).length : Int)] := by
  have range_filter_map_getElem (L : List Drone) (q : Drone → Bool) :
      ∀ f : Nat → Bool, (∀ j o, L[j]? = some o → f j = q o) →
        ((List.range L.length).filter f).map (fun j => L[j]?) = (L.filter q).map some := by
    induction L using List.reverseRecOn with
    | nil => intro f _; rfl
    | append_singleton L a ih =>
      intro f hf
      have hlen : (L ++ [a]).length = L.length + 1 := by simp
      rw [hlen, List.range_succ, List.filter_append, List.map_append, List.filter_append,
        List.map_append]
      congr 1
      · rw [← ih f (fun j o h => hf j o (by
          rw [List.getElem?_append_left (List.getElem?_eq_some.1 h).1]; exact h))]
        apply List.map_congr_left
        intro j hj
        have hjlt : j < L.length := List.mem_range.1 (List.mem_filter.1 hj).1
        exact List.getElem?_append_left hjlt
      · have hlast : (L ++ [a])[L.length]? = some a := by simp
        have hfa : f L.length = q a := hf _ _ hlast
        cases hq : q a
        · simp [hfa, hq]
        · simp [hfa, hq]
  have strikeTarget_eq_loop (m : DroneManager) (c : QPointF) (r : ℝ) :
      m.strikeTarget c r =
        ({ m with
            m_drones := ((m.strikeTargetLoop c r).registry.filterMap
              (fun j => (m.strikeTargetLoop c r).heap[j]?)) },
         (m.strikeTargetLoop c r).events ++
           [Event.strikeExecuted c r
             ((((List.range m.m_drones.length).filter (fun k =>
                match m.m_drones[k]? with
                | some obj => obj.m_active && obj.isInStrikeRange c r
                | none => false)).length : Nat) : Int)]) := rfl
  have range_filter_filterMap_getElem (L : List Drone) (q : Drone → Bool) (f : Nat → Bool)
      (hf : ∀ j o, L[j]? = some o → f j = q o) :
      ((List.range L.length).filter f).filterMap (fun j => L[j]?) = L.filter q := by
    have h := range_filter_map_getElem L q f hf
    have hmap : ∀ l : List Nat,
        l.filterMap (fun j => L[j]?) = (l.map (fun j => L[j]?)).filterMap id := by
      intro l
      rw [List.filterMap_map]
      rfl
    rw [hmap, h, List.filterMap_map]
    simp
  have strikeTargetLoop_inv (m : DroneManager) (c : QPointF) (r : ℝ)
      (hid : (m.m_drones.map Drone.m_id).Nodup)
      (hact : ∀ d ∈ m.m_drones, d.m_active = true → d.m_destroyed = false) :
      StrikeInv m.m_drones
        ((List.range m.m_drones.length).filter (fun k =>
          match m.m_drones[k]? with
          | some obj => obj.m_active && obj.isInStrikeRange c r
          | none => false))
        (m.strikeTargetLoop c r) := by
    have h := StrikeInv_foldl hid
      ((List.range m.m_drones.length).filter (fun k =>
          match m.m_drones[k]? with
          | some obj => obj.m_active && obj.isInStrikeRange c r
          | none => false)) [] _ (StrikeInv_init m.m_drones)
      ((List.nodup_range _).filter _)
      (fun k hk => by
        refine ⟨List.not_mem_nil k, ?_⟩
        obtain ⟨hkr, hin⟩ := List.mem_filter.1 hk
        cases ho : m.m_drones[k]? with
        | none => rw [ho] at hin; exact absurd hin (by simp)
        | some o =>
          rw [ho] at hin
          have hin' : (o.m_active && o.isInStrikeRange c r) = true := hin
          have hoa : o.m_active = true := (Bool.and_eq_true_iff.1 hin').1
          have hmem : o ∈ m.m_drones := by
            obtain ⟨hlt, he⟩ := List.getElem?_eq_some.1 ho
            exact he ▸ List.getElem_mem hlt
          exact ⟨o, rfl, hact o hmem hoa⟩)
    rw [List.nil_append] at h
    exact h
  have hinv := strikeTargetLoop_inv m c r hid hact
  have hmemT : ∀ k : Nat, k ∈ (List.range m.m_drones.length).filter (fun k =>
        match m.m_drones[k]? with
        | some obj => obj.m_active && obj.isInStrikeRange c r
        | none => false) ↔
      (match m.m_drones[k]? with
        | some obj => obj.m_active && obj.isInStrikeRange c r
        | none => false) = true := by
    intro k
    rw [List.mem_filter, List.mem_range]
    constructor
    · exact fun h => h.2
    · intro h
      refine ⟨?_, h⟩
      cases ho : m.m_drones[k]? with
      | none => rw [ho] at h; exact absurd h (by simp)
      | some o => exact (List.getElem?_eq_some.1 ho).1
  have hmap := range_filter_map_getElem m.m_drones
    (fun d => d.m_active && d.isInStrikeRange c r)
    (fun k =>
      match m.m_drones[k]? with
      | some obj => obj.m_active && obj.isInStrikeRange c r
      | none => false)
    (fun j o ho => by simp only [ho])
  refine ⟨?_, ?_, ?_⟩
  · intro k
    by_cases hk : k ∈ (List.range m.m_drones.length).filter (fun k =>
        match m.m_drones[k]? with
        | some obj => obj.m_active && obj.isInStrikeRange c r
        | none => false)
    · rw [hinv.heap_hit k hk]
      have hk' := (hmemT k).1 hk
      cases ho : m.m_drones[k]? with
      | none => rfl
      | some o =>
        rw [ho] at hk'
        have hk'' : (o.m_active && o.isInStrikeRange c r) = true := hk'
        simp only [Option.map_some', hk'', if_true]
    · rw [hinv.heap_miss k hk]
      have hk' : ¬ _ := fun h => hk ((hmemT k).2 h)
      cases ho : m.m_drones[k]? with
      | none => rfl
      | some o =>
        rw [ho] at hk'
        have hk'' : ¬ (o.m_active && o.isInStrikeRange c r) = true := hk'
        rw [Option.map_some', if_neg hk'']
  · rw [strikeTarget_eq_loop]
    show DroneManager.mk _ _ _ _ _ = DroneManager.mk _ _ _ _ _
    congr 1
    rw [hinv.registry_eq]
    have hcongr : ∀ l : List Nat, (∀ j ∈ l, (m.strikeTargetLoop c r).heap[j]? = m.m_drones[j]?) →
        l.filterMap (fun j => (m.strikeTargetLoop c r).heap[j]?)
          = l.filterMap (fun j => m.m_drones[j]?) := by
      intro l
      induction l with
      | nil => intro _; rfl
      | cons a l ih =>
        intro h
        rw [List.filterMap_cons, List.filterMap_cons, h a (List.mem_cons_self _ _),
          ih (fun j hj => h j (List.mem_cons_of_mem _ hj))]
    rw [hcongr _ (fun j hj => hinv.heap_miss j (of_decide_eq_true (List.mem_filter.1 hj).2))]
    apply range_filter_filterMap_getElem
    intro j o ho
    have hj := hmemT j
    rw [ho] at hj
    have hj' : j ∈ (List.range m.m_drones.length).filter (fun k =>
        match m.m_drones[k]? with
        | some obj => obj.m_active && obj.isInStrikeRange c r
        | none => false) ↔ (o.m_active && o.isInStrikeRange c r) = true := hj
    cases hq : (o.m_active && o.isInStrikeRange c r)
    · have hn : j ∉ (List.range m.m_drones.length).filter (fun k =>
          match m.m_drones[k]? with
          | some obj => obj.m_active && obj.isInStrikeRange c r
          | none => false) := fun h => by
        have := hj'.1 h
        rw [hq] at this
        exact absurd this (by simp)
      exact decide_eq_true hn
    · have hy := hj'.2 hq
      exact decide_eq_false (not_not.2 hy)
  · rw [strikeTarget_eq_loop, hinv.events_eq, getDronesInStrikeRange_eq_filter]
    have hlen : ((List.range m.m_drones.length).filter (fun k =>
        match m.m_drones[k]? with
        | some obj => obj.m_active && obj.isInStrikeRange c r
        | none => false)).length
        = (m.m_drones.filter (fun d => d.m_active && d.isInStrikeRange c r)).length := by
      have := congrArg List.length hmap
      simpa using this
    have hev : ∀ l : List Nat, l.flatMap (fun k => strikeEvents m.m_drones[k]?)
        = (l.map (fun j => m.m_drones[j]?)).flatMap strikeEvents := by
      intro l
      induction l with
      | nil => rfl
      | cons a l ih => simp [List.flatMap_cons, ih]
    have hev2 : ∀ l : List Drone, (l.map some).flatMap strikeEvents
        = l.flatMap (fun d => [Event.droneDestroyed d.m_id, Event.droneRemoved d.m_id]) := by
      intro l
      induction l with
      | nil => rfl
      | cons a l ih => simp [List.flatMap_cons, ih, strikeEvents]
    show _ ++ [Event.strikeExecuted c r _] = _
    rw [hlen, hev, hmap, hev2]

/-- C11. For a registry whose ids are pairwise distinct and in which no
active entity is already destroyed (both hold in every reachable registry),
a point `c` and a radius `r`: `getDronesInStrikeRange(c, r)` is the list of
the active entities whose Euclidean distance to `c` is at most `r`, in
registry order; after `strikeTarget(c, r)` each of these objects is destroyed
and inactive with its other members unchanged, every other object is
unchanged, the registry holds exactly the other entities in their order, and
the signals are `droneDestroyed`, `droneRemoved` for each target in turn, then
`strikeExecuted(c, r, destroyedCount)` with `destroyedCount` the number of
targets. -/
theorem strike_destroys_exactly_entities_in_range (m : DroneManager) (c : QPointF) (r : ℝ)
    (hid : (m.m_drones.map Drone.m_id).Nodup)
    (hact : ∀ d ∈ m.m_drones, d.m_active = true → d.m_destroyed = false) :
    m.getDronesInStrikeRange c r =
      m.m_drones.filter (fun d => d.m_active &&
        decide (Real.sqrt ((d.m_currentPosition.x - c.x) * (d.m_currentPosition.x - c.x)
          + (d.m_currentPosition.y - c.y) * (d.m_currentPosition.y - c.y)) ≤ r)) ∧
    (∀ k : Nat, (m.strikeTargetLoop c r).heap[k]? =
        (m.m_drones[k]?).map (fun o =>
          if (o.m_active && o.isInStrikeRange c r) = true then
            { o with m_destroyed := true, m_active := false }
          else o)) ∧
    (m.strikeTarget c r).1 =
      { m with m_drones :=
          (m.m_drones.filter (fun d => !(d.m_active && d.isInStrikeRange c r))) } ∧
    (m.strikeTarget c r).2 =
      (m.getDronesInStrikeRange c r).flatMap
          (fun d => [Event.droneDestroyed d.m_id, Event.droneRemoved d.m_id])
        ++ [Event.strikeExecuted c r ((m.getDronesInStrikeRange c r).length : Int)] :=
  ⟨getDronesInStrikeRange_eq_filter m c r, strikeTarget_spec m c r hid hact⟩

theorem strike_destroys_exactly_entities_in_range_witness :
    (strikeScenario.m_drones.map Drone.m_id).Nodup ∧
    (∀ d ∈ strikeScenario.m_drones, d.m_active = true → d.m_destroyed = false) ∧
    (strikeScenario.getDronesInStrikeRange ⟨0, 0⟩ 150).length = 3 ∧
    (strikeScenario.strikeTarget ⟨0, 0⟩ 150).2 =
      [Event.droneDestroyed 1, Event.droneRemoved 1, Event.droneDestroyed 2,
        Event.droneRemoved 2, Event.droneDestroyed 3, Event.droneRemoved 3,
        Event.strikeExecuted ⟨0, 0⟩ 150 3] := by
  have strikeScenario_ids : (strikeScenario.m_drones.map Drone.m_id).Nodup := by
    simp [strikeScenario, registryOf, droneWithId, Drone.newBallistic]
  have strikeScenario_flags :
      ∀ d ∈ strikeScenario.m_drones, d.m_active = true → d.m_destroyed = false := by
    intro d hd _
    simp only [strikeScenario, registryOf, List.mem_cons, List.mem_singleton,
      List.not_mem_nil, or_false] at hd
    rcases hd with rfl | rfl | rfl | rfl <;> rfl
  have strikeScenario_in_range :
      strikeScenario.getDronesInStrikeRange ⟨0, 0⟩ 150 =
        [droneWithId 1 ⟨0, 0⟩, droneWithId 2 ⟨100, 0⟩, droneWithId 3 ⟨-100, 0⟩] := by
    have droneWithId_in_strike (id : Int) (x r : ℝ) :
        ((droneWithId id ⟨x, 0⟩).m_active && (droneWithId id ⟨x, 0⟩).isInStrikeRange ⟨0, 0⟩ r)
          = decide (|x| ≤ r) := by
      have isInStrikeRange_on_axis (d : Drone) (r : ℝ) (hy : d.m_currentPosition.y = 0) :
          d.isInStrikeRange ⟨0, 0⟩ r = decide (|d.m_currentPosition.x| ≤ r) := by
        simp only [Drone.isInStrikeRange, sub_zero, hy]
        rw [sqrt_mul_self_add_zero]
      rw [isInStrikeRange_on_axis _ _ rfl]
      rfl
    have h0 : (fun d : Drone => d.m_active && d.isInStrikeRange ⟨0, 0⟩ 150)
        (droneWithId 1 ⟨0, 0⟩) = true := by
      show (_ && _) = true
      rw [droneWithId_in_strike, decide_eq_true_eq, abs_zero]
      norm_num
    have h1 : (fun d : Drone => d.m_active && d.isInStrikeRange ⟨0, 0⟩ 150)
        (droneWithId 2 ⟨100, 0⟩) = true := by
      show (_ && _) = true
      rw [droneWithId_in_strike, decide_eq_true_eq, abs_of_nonneg (by norm_num)]
      norm_num
    have h2 : (fun d : Drone => d.m_active && d.isInStrikeRange ⟨0, 0⟩ 150)
        (droneWithId 3 ⟨-100, 0⟩) = true := by
      show (_ && _) = true
      rw [droneWithId_in_strike, decide_eq_true_eq, abs_of_nonpos (by norm_num)]
      norm_num
    have h3 : ¬ (fun d : Drone => d.m_active && d.isInStrikeRange ⟨0, 0⟩ 150)
        (droneWithId 4 ⟨500, 0⟩) = true := by
      show ¬ (_ && _) = true
      rw [droneWithId_in_strike, decide_eq_true_eq, abs_of_nonneg (by norm_num)]
      norm_num
    have hpos : ∀ (a : Drone) (l : List Drone),
        (fun d : Drone => d.m_active && d.isInStrikeRange ⟨0, 0⟩ 150) a = true →
        List.filter (fun d : Drone => d.m_active && d.isInStrikeRange ⟨0, 0⟩ 150) (a :: l)
          = a :: List.filter (fun d : Drone => d.m_active && d.isInStrikeRange ⟨0, 0⟩ 150) l :=
      fun a l h => List.filter_cons_of_pos h
    have hneg : ∀ (a : Drone) (l : List Drone),
        ¬ (fun d : Drone => d.m_active && d.isInStrikeRange ⟨0, 0⟩ 150) a = true →
        List.filter (fun d : Drone => d.m_active && d.isInStrikeRange ⟨0, 0⟩ 150) (a :: l)
          = List.filter (fun d : Drone => d.m_active && d.isInStrikeRange ⟨0, 0⟩ 150) l :=
      fun a l h => List.filter_cons_of_neg h
    rw [getDronesInStrikeRange_eq_filter]
    show List.filter _ [_, _, _, _] = _
    rw [hpos _ _ h0, hpos _ _ h1, hpos _ _ h2, hneg _ _ h3]
    rfl
  have h := (strike_destroys_exactly_entities_in_range strikeScenario ⟨0, 0⟩ 150
    strikeScenario_ids strikeScenario_flags).2.2.2
  refine ⟨strikeScenario_ids, strikeScenario_flags, ?_, ?_⟩
  · rw [strikeScenario_in_range]; rfl
  · rw [h, strikeScenario_in_range]; rfl

theorem getDroneById_isSome_iff (m : DroneManager) (id : Int) :
    (m.getDroneById id).isSome = true ↔ ∃ d ∈ m.m_drones, d.m_id = id := by
  unfold getDroneById
  rw [List.find?_isSome]
  constructor
  · rintro ⟨d, hd, h⟩
    exact ⟨d, hd, of_decide_eq_true h⟩
  · rintro ⟨d, hd, h⟩
    exact ⟨d, hd, decide_eq_true h⟩

theorem addDrone_duplicate (m : DroneManager) (raw : Drone) (id : Int) (initialPos : QPointF)
    (vx vy : ℝ) (type : DroneType) (now : Int) (h : ∃ d ∈ m.m_drones, d.m_id = id) :
    m.addDrone raw id initialPos vx vy type now = (m, []) := by
  unfold addDrone
  rw [if_pos ((getDroneById_isSome_iff m id).2 h)]

theorem addDroneWithTrajectory_duplicate (m : DroneManager) (raw : Drone) (id : Int)
    (startPos endPos : QPointF) (trajectory : TrajectoryType) (speedType : SpeedType)
    (startSpeed endSpeed : ℝ) (type : DroneType) (now : Int) (rndOffset : ℝ) (rndSign : Int)
    (h : ∃ d ∈ m.m_drones, d.m_id = id) :
    m.addDroneWithTrajectory raw id startPos endPos trajectory speedType startSpeed endSpeed
      type now rndOffset rndSign = some (m, []) := by
  unfold addDroneWithTrajectory
  rw [if_pos ((getDroneById_isSome_iff m id).2 h)]

theorem removeDrone_sublist (m : DroneManager) (id : Int) :
    (m.removeDrone id).1.m_drones.Sublist m.m_drones := by
  unfold removeDrone
  split_ifs
  · exact List.eraseP_sublist _
  · exact List.Sublist.refl _

theorem updateEntity_key (m : DroneManager) (d : Drone) (t : TickDraws) :
    (m.updateEntity d t).1.key = d.key := by
  have applyRandomVelocityChange_key (d : Drone) (u uAngle uSpeed : ℝ) :
      (applyRandomVelocityChange d u uAngle uSpeed).key = d.key := by
    have setVelocity_key (d : Drone) (vx vy : ℝ) : (d.setVelocity vx vy).key = d.key := by
      unfold Drone.setVelocity
      dsimp only
      split_ifs <;> rfl
    unfold applyRandomVelocityChange
    dsimp only
    split_ifs
    · exact setVelocity_key _ _ _
    · rfl
  have updatePosition_key (d : Drone) (currentTime : Int) :
      (d.updatePosition currentTime).1.key = d.key := by
    have updateTrajectoryState_key (d : Drone) (currentTime : Int) :
        (d.updateTrajectoryState currentTime).key = d.key := by
      unfold Drone.updateTrajectoryState
      dsimp only
      split_ifs <;> rfl
    unfold Drone.updatePosition
    dsimp only
    split_ifs <;> first | rfl | exact updateTrajectoryState_key _ _
  unfold updateEntity
  dsimp only
  split_ifs <;> first
    | rfl
    | (show (Drone.updatePosition _ _).1.key = _
       refine (updatePosition_key _ _).trans ?_
       first | rfl | exact applyRandomVelocityChange_key _ _ _ _)

theorem updateLoop_key (m : DroneManager) (draws : Nat → TickDraws) :
    ∀ (L : List Drone) (i : Nat), (updateLoop m draws i L).1.map Drone.key = L.map Drone.key
  | [], _ => rfl
  | d :: rest, i => by
    show (m.updateEntity d (draws i)).1.key :: (updateLoop m draws (i + 1) rest).1.map Drone.key
      = d.key :: rest.map Drone.key
    rw [updateEntity_key, updateLoop_key m draws rest (i + 1)]

theorem outOfBounds_foldl_sublist :
    ∀ (out : List Int) (st : DroneManager × List Event),
      (out.foldl
        (fun st id =>
          let e := st.1.onDroneOutOfBounds id
          (e.1, st.2 ++ e.2)) st).1.m_drones.Sublist st.1.m_drones
  | [], _ => List.Sublist.refl _
  | id :: out, st => by
    rw [List.foldl_cons]
    exact (outOfBounds_foldl_sublist out _).trans (removeDrone_sublist st.1 id)

theorem reachable_wellFormed (m : DroneManager) (h : Reachable m) : m.WellFormed := by
  have wellFormed_append (m : DroneManager) (d : Drone) (h : m.WellFormed)
      (hnew : ¬ ∃ e ∈ m.m_drones, e.m_id = d.m_id) (hd : d.m_active = true → d.m_destroyed = false)
      (m' : DroneManager) (hm' : m'.m_drones = m.m_drones ++ [d]) : m'.WellFormed := by
    have registry_invariant_append (L : List Drone) (d : Drone)
        (hid : (L.map Drone.m_id).Nodup) (hnew : ∀ e ∈ L, e.m_id ≠ d.m_id) :
        ((L ++ [d]).map Drone.m_id).Nodup := by
      rw [List.map_append, List.map_singleton]
      refine List.Nodup.append hid (List.nodup_singleton _) ?_
      intro x hx hx'
      obtain ⟨e, he, rfl⟩ := List.mem_map.1 hx
      exact hnew e he (List.mem_singleton.1 hx')
    refine ⟨?_, ?_⟩
    · rw [hm']
      exact registry_invariant_append _ _ h.1 (fun e he heq => hnew ⟨e, he, heq⟩)
    · intro e he
      rw [hm'] at he
      rcases List.mem_append.1 he with he | he
      · exact h.2 e he
      · rw [List.mem_singleton.1 he]; exact hd
  have wellFormed_of_sublist (m m' : DroneManager) (hs : m'.m_drones.Sublist m.m_drones)
      (h : m.WellFormed) : m'.WellFormed :=
    ⟨List.Nodup.sublist (hs.map _) h.1, fun d hd => h.2 d (hs.subset hd)⟩
  have addDroneWithTrajectory_wellFormed (m : DroneManager) (raw : Drone) (id : Int)
      (startPos endPos : QPointF) (trajectory : TrajectoryType) (speedType : SpeedType)
      (startSpeed endSpeed : ℝ) (type : DroneType) (now : Int) (rndOffset : ℝ) (rndSign : Int)
      (r : DroneManager × List Event) (h : m.WellFormed)
      (hr : m.addDroneWithTrajectory raw id startPos endPos trajectory speedType startSpeed
        endSpeed type now rndOffset rndSign = some r) : r.1.WellFormed := by
    have initializeTrajectory_flags (d : Drone) (rndOffset : ℝ) (rndSign : Int) (d' : Drone)
        (hd : d.initializeTrajectory rndOffset rndSign = some d') :
        d'.m_id = d.m_id ∧ d'.m_active = d.m_active ∧ d'.m_destroyed = d.m_destroyed := by
      unfold Drone.initializeTrajectory at hd
      dsimp only at hd
      split_ifs at hd <;>
        first
        | exact absurd hd (Option.noConfusion)
        | (cases hd; exact ⟨rfl, rfl, rfl⟩)
    by_cases hdup : ∃ d ∈ m.m_drones, d.m_id = id
    · rw [addDroneWithTrajectory_duplicate m raw id startPos endPos trajectory speedType startSpeed
        endSpeed type now rndOffset rndSign hdup] at hr
      cases hr
      exact h
    · unfold addDroneWithTrajectory at hr
      rw [if_neg (fun hs => hdup ((getDroneById_isSome_iff m id).1 hs))] at hr
      cases hnp : Drone.newParametric raw id startPos endPos trajectory speedType startSpeed
          endSpeed type now rndOffset rndSign with
      | none =>
        rw [hnp] at hr
        exact absurd hr (Option.noConfusion)
      | some d =>
        rw [hnp] at hr
        cases hr
        have hf := initializeTrajectory_flags _ rndOffset rndSign d hnp
        exact wellFormed_append m d h (by rw [hf.1]; exact hdup) (fun _ => hf.2.2) _ rfl
  have addDrone_wellFormed (m : DroneManager) (raw : Drone) (id : Int) (initialPos : QPointF)
      (vx vy : ℝ) (type : DroneType) (now : Int) (h : m.WellFormed) :
      (m.addDrone raw id initialPos vx vy type now).1.WellFormed := by
    have addDrone_fresh (m : DroneManager) (raw : Drone) (id : Int) (initialPos : QPointF)
        (vx vy : ℝ) (type : DroneType) (now : Int) (h : ¬ ∃ d ∈ m.m_drones, d.m_id = id) :
        m.addDrone raw id initialPos vx vy type now =
          ({ m with m_drones := m.m_drones ++ [Drone.newBallistic raw id initialPos vx vy type now] },
           [Event.droneAdded id]) := by
      unfold addDrone
      rw [if_neg (fun hs => h ((getDroneById_isSome_iff m id).1 hs))]
    by_cases hdup : ∃ d ∈ m.m_drones, d.m_id = id
    · rw [addDrone_duplicate m raw id initialPos vx vy type now hdup]; exact h
    · rw [addDrone_fresh m raw id initialPos vx vy type now hdup]
      exact wellFormed_append m _ h hdup (fun _ => rfl) _ rfl
  have removeDrone_wellFormed (m : DroneManager) (id : Int) (h : m.WellFormed) :
      (m.removeDrone id).1.WellFormed :=
    wellFormed_of_sublist m _ (removeDrone_sublist m id) h
  have generateRandomDrone_wellFormed (m : DroneManager) (g : GenerationDraws)
      (r : DroneManager × List Event) (h : m.WellFormed)
      (hr : m.generateRandomDrone g = some r) : r.1.WellFormed := by
    unfold generateRandomDrone at hr
    refine addDroneWithTrajectory_wellFormed _ _ _ _ _ _ _ _ _ _ _ _ _ r ?_ hr
    exact h
  have updateAllDrones_wellFormed (m : DroneManager) (draws : Nat → TickDraws)
      (h : m.WellFormed) : (m.updateAllDrones draws).1.WellFormed := by
    have wellFormed_of_key (m m' : DroneManager)
        (hk : m'.m_drones.map Drone.key = m.m_drones.map Drone.key)
        (h : m.WellFormed) : m'.WellFormed := by
      have hid : m'.m_drones.map Drone.m_id = m.m_drones.map Drone.m_id := by
        have := congrArg (List.map Prod.fst) hk
        simpa [List.map_map, Function.comp_def, Drone.key] using this
      refine ⟨hid ▸ h.1, ?_⟩
      intro d hd ha
      have hmem : d.key ∈ m.m_drones.map Drone.key := hk ▸ List.mem_map_of_mem _ hd
      obtain ⟨e, he, hke⟩ := List.mem_map.1 hmem
      have h1 : e.m_active = d.m_active := congrArg (fun k => k.2.1) hke
      have h2 : e.m_destroyed = d.m_destroyed := congrArg (fun k => k.2.2) hke
      rw [← h2]
      exact h.2 e he (h1.trans ha)
    unfold updateAllDrones
    dsimp only
    refine wellFormed_of_sublist _ _ (outOfBounds_foldl_sublist _ _) ?_
    exact wellFormed_of_key m _ (updateLoop_key m draws m.m_drones 0) h
  have strikeTarget_wellFormed (m : DroneManager) (c : QPointF) (r : ℝ) (h : m.WellFormed) :
      (m.strikeTarget c r).1.WellFormed := by
    rw [(strikeTarget_spec m c r h.1 h.2).2.1]
    exact wellFormed_of_sublist m _ (List.filter_sublist _) h
  induction h with
  | new squareSize => exact ⟨List.nodup_nil, fun d hd => absurd hd (List.not_mem_nil d)⟩
  | addDrone m raw id initialPos vx vy type now _ ih =>
    exact addDrone_wellFormed m raw id initialPos vx vy type now ih
  | addDroneWithTrajectory m raw id startPos endPos trajectory speedType startSpeed endSpeed type
      now rndOffset rndSign r _ hr ih =>
    exact addDroneWithTrajectory_wellFormed m raw id startPos endPos trajectory speedType
      startSpeed endSpeed type now rndOffset rndSign r ih hr
  | removeDrone m id _ ih => exact removeDrone_wellFormed m id ih
  | removeAllDrones m _ _ => exact ⟨List.nodup_nil, fun d hd => absurd hd (List.not_mem_nil d)⟩
  | generateRandomDrone m g r _ hr ih => exact generateRandomDrone_wellFormed m g r ih hr
  | updateAllDrones m draws _ ih => exact updateAllDrones_wellFormed m draws ih
  | strikeTarget m c r _ ih => exact strikeTarget_wellFormed m c r ih
  | setSquareSize m size _ ih => exact ih
  | startAutoGeneration m intervalMs _ ih => exact ih

/-- C12. Adding an entity whose id is already in the registry is rejected:
`addDrone` and `addDroneWithTrajectory` called with the id of an entity of the
registry return the registry as it was (same entities, same order, same
members) and emit no signal, so no `droneAdded`.  In every registry state
reached from a fresh registry by the commands and slots of `DroneManager` the
ids are pairwise distinct. -/
theorem duplicate_id_add_rejected (m : DroneManager) (id : Int)
    (h : ∃ d ∈ m.m_drones, d.m_id = id) :
    (∀ (raw : Drone) (initialPos : QPointF) (vx vy : ℝ) (type : DroneType) (now : Int),
      m.addDrone raw id initialPos vx vy type now = (m, [])) ∧
    (∀ (raw : Drone) (startPos endPos : QPointF) (trajectory : TrajectoryType)
      (speedType : SpeedType) (startSpeed endSpeed : ℝ) (type : DroneType) (now : Int)
      (rndOffset : ℝ) (rndSign : Int),
      m.addDroneWithTrajectory raw id startPos endPos trajectory speedType startSpeed endSpeed
        type now rndOffset rndSign = some (m, [])) ∧
    (∀ m' : DroneManager, Reachable m' → (m'.m_drones.map Drone.m_id).Nodup) :=
  ⟨fun raw initialPos vx vy type now => addDrone_duplicate m raw id initialPos vx vy type now h,
   fun raw startPos endPos trajectory speedType startSpeed endSpeed type now rndOffset rndSign =>
     addDroneWithTrajectory_duplicate m raw id startPos endPos trajectory speedType startSpeed
       endSpeed type now rndOffset rndSign h,
   fun m' hm' => (reachable_wellFormed m' hm').1⟩

theorem duplicate_id_add_rejected_witness :
    (∃ d ∈ registryWithSeven.m_drones, d.m_id = 7) ∧
    registryWithSeven.addDrone rawDrone 7 ⟨5, 5⟩ 1 1 DroneType.Standard 9
      = (registryWithSeven, []) ∧
    registryWithSeven.addDroneWithTrajectory rawDrone 7 ⟨5, 5⟩ ⟨9, 9⟩ TrajectoryType.Linear
      SpeedType.Constant 50 50 DroneType.Standard 9 0 1 = some (registryWithSeven, []) ∧
    (registryWithSeven.m_drones.map Drone.m_id).Nodup := by
  have registryWithSeven_drones :
      registryWithSeven.m_drones = [Drone.newBallistic rawDrone 7 ⟨0, 0⟩ 0 0 DroneType.Standard 0] :=
    rfl
  have registryWithSeven_reachable : Reachable registryWithSeven :=
    Reachable.addDrone _ _ _ _ _ _ _ _ (Reachable.new 2000)
  exact
    have hex : ∃ d ∈ registryWithSeven.m_drones, d.m_id = 7 :=
      ⟨Drone.newBallistic rawDrone 7 ⟨0, 0⟩ 0 0 DroneType.Standard 0,
        by rw [registryWithSeven_drones]; exact List.mem_singleton.2 rfl, rfl⟩
    have h := duplicate_id_add_rejected registryWithSeven 7 hex
    ⟨hex, h.1 rawDrone ⟨5, 5⟩ 1 1 DroneType.Standard 9,
      h.2.1 rawDrone ⟨5, 5⟩ ⟨9, 9⟩ TrajectoryType.Linear SpeedType.Constant 50 50
        DroneType.Standard 9 0 1,
      h.2.2 registryWithSeven registryWithSeven_reachable⟩

theorem calculateCurrentSpeedForProgress_constant (d : Drone) (progress : ℝ)
    (h : d.m_speedType = SpeedType.Constant) :
    d.calculateCurrentSpeedForProgress progress = d.m_startSpeed := by
  unfold Drone.calculateCurrentSpeedForProgress
  rw [if_pos h]

/-- C28 (counterexample). A parametric Linear entity with the Constant speed
profile and configured speed 5: `calculateCurrentSpeedForProgress` returns 5,
below the floor of 10, at progress 1/2. -/
theorem constant_speed_below_floor :
    (linearDrone SpeedType.Constant 5 5).m_useNewTrajectorySystem = true ∧
    (linearDrone SpeedType.Constant 5 5).m_speedType = SpeedType.Constant ∧
    (linearDrone SpeedType.Constant 5 5).calculateCurrentSpeedForProgress (1 / 2) = 5 ∧
    (linearDrone SpeedType.Constant 5 5).calculateCurrentSpeedForProgress (1 / 2) < 10 := by
  have hf := linearDrone_fields SpeedType.Constant 5 5
  have hs : (linearDrone SpeedType.Constant 5 5).calculateCurrentSpeedForProgress (1 / 2) = 5 := by
    rw [calculateCurrentSpeedForProgress_constant _ _ hf.2.2.2.2.1, hf.2.2.2.2.2.2.2.2.2.1]
  refine ⟨hf.2.2.1, hf.2.2.2.2.1, hs, ?_⟩
  rw [hs]
  norm_num

/-- C28 (amended). For every entity, start speed, end speed and progress
value: with a speed profile other than Constant `calculateCurrentSpeedForProgress`
returns `max(10, start + (end - start) * progress)`, which is at least 10; with
the Constant profile it returns the configured start speed, without a floor,
so the result is at least 10 exactly when the configured speed is. -/
theorem speed_floor_applies_to_ramped_profile (d : Drone) (progress : ℝ) :
    (d.m_speedType ≠ SpeedType.Constant →
      d.calculateCurrentSpeedForProgress progress
        = max 10 (d.m_startSpeed + (d.m_endSpeed - d.m_startSpeed) * progress) ∧
      10 ≤ d.calculateCurrentSpeedForProgress progress) ∧
    (d.m_speedType = SpeedType.Constant →
      d.calculateCurrentSpeedForProgress progress = d.m_startSpeed ∧
      (10 ≤ d.calculateCurrentSpeedForProgress progress ↔ 10 ≤ d.m_startSpeed)) := by
  have calculateCurrentSpeedForProgress_ramped (d : Drone) (progress : ℝ)
      (h : d.m_speedType ≠ SpeedType.Constant) :
      d.calculateCurrentSpeedForProgress progress
        = max 10 (d.m_startSpeed + (d.m_endSpeed - d.m_startSpeed) * progress) := by
    unfold Drone.calculateCurrentSpeedForProgress
    rw [if_neg h]
  constructor
  · intro h
    rw [calculateCurrentSpeedForProgress_ramped d progress h]
    exact ⟨rfl, le_max_left _ _⟩
  · intro h
    rw [calculateCurrentSpeedForProgress_constant d progress h]
    exact ⟨rfl, Iff.rfl⟩

theorem speed_floor_applies_to_ramped_profile_witness :
    (linearDrone SpeedType.Accelerating 50 150).m_speedType ≠ SpeedType.Constant ∧
    (linearDrone SpeedType.Accelerating 50 150).calculateCurrentSpeedForProgress (1 / 2)
      = max 10 ((linearDrone SpeedType.Accelerating 50 150).m_startSpeed
          + ((linearDrone SpeedType.Accelerating 50 150).m_endSpeed
              - (linearDrone SpeedType.Accelerating 50 150).m_startSpeed) * (1 / 2)) ∧
    10 ≤ (linearDrone SpeedType.Accelerating 50 150).calculateCurrentSpeedForProgress (1 / 2) :=
  have hne : (linearDrone SpeedType.Accelerating 50 150).m_speedType ≠ SpeedType.Constant := by
    rw [(linearDrone_fields SpeedType.Accelerating 50 150).2.2.2.2.1]
    decide
  ⟨hne, (speed_floor_applies_to_ramped_profile
    (linearDrone SpeedType.Accelerating 50 150) (1 / 2)).1 hne⟩

/-- C24. For every active, non-destroyed entity `calculateAdvancedThreatScore`
is `base * 1000/(d + 100) * (1 + speed/100) * T * U`, with `base` the base
threat score, `d` the distance to the radar centre, `T = 2 - m/800` if the
minimum approach distance `m` (`getMinDistanceToRadarCenter`) satisfies
`0 ≤ m < 800` and `T = 1` otherwise, `U = 2 - tau/30` if the time to reach the
centre `tau` (`getTimeToReachRadarCenter`) satisfies `0 < tau < 30` and `U = 1`
otherwise; `1 ≤ T ≤ 2` and `1 ≤ U ≤ 2`; the score is 0 for a null pointer and
for an inactive or destroyed entity. -/
theorem advanced_threat_score_formula (d : Drone) (c : QPointF) :
    (d.m_active = true → d.m_destroyed = false →
      calculateAdvancedThreatScore (some d) c =
        d.getThreatScore
          * (1000 / (Real.sqrt ((d.m_currentPosition.x - c.x) * (d.m_currentPosition.x - c.x)
              + (d.m_currentPosition.y - c.y) * (d.m_currentPosition.y - c.y)) + 100))
          * (1 + d.getSpeed / 100)
          * (if d.getMinDistanceToRadarCenter ≥ 0 ∧ d.getMinDistanceToRadarCenter < 800 then
              2 - d.getMinDistanceToRadarCenter / 800 else 1)
          * (if d.getTimeToReachRadarCenter > 0 ∧ d.getTimeToReachRadarCenter < 30 then
              2 - d.getTimeToReachRadarCenter / 30 else 1)) ∧
    (1 ≤ (if d.getMinDistanceToRadarCenter ≥ 0 ∧ d.getMinDistanceToRadarCenter < 800 then
        2 - d.getMinDistanceToRadarCenter / 800 else 1) ∧
      (if d.getMinDistanceToRadarCenter ≥ 0 ∧ d.getMinDistanceToRadarCenter < 800 then
        2 - d.getMinDistanceToRadarCenter / 800 else 1) ≤ 2) ∧
    (1 ≤ (if d.getTimeToReachRadarCenter > 0 ∧ d.getTimeToReachRadarCenter < 30 then
        2 - d.getTimeToReachRadarCenter / 30 else 1) ∧
      (if d.getTimeToReachRadarCenter > 0 ∧ d.getTimeToReachRadarCenter < 30 then
        2 - d.getTimeToReachRadarCenter / 30 else 1) ≤ 2) ∧
    calculateAdvancedThreatScore none c = 0 ∧
    (d.m_active = false ∨ d.m_destroyed = true → calculateAdvancedThreatScore (some d) c = 0) := by
  have calculateAdvancedThreatScore_active (d : Drone) (c : QPointF)
      (ha : d.m_active = true) (hd : d.m_destroyed = false) :
      calculateAdvancedThreatScore (some d) c =
        d.getThreatScore
          * (1000 / (Real.sqrt ((d.m_currentPosition.x - c.x) * (d.m_currentPosition.x - c.x)
              + (d.m_currentPosition.y - c.y) * (d.m_currentPosition.y - c.y)) + 100))
          * (1 + d.getSpeed / 100)
          * (if d.getMinDistanceToRadarCenter ≥ 0 ∧ d.getMinDistanceToRadarCenter < 800 then
              2 - d.getMinDistanceToRadarCenter / 800 else 1)
          * (if d.getTimeToReachRadarCenter > 0 ∧ d.getTimeToReachRadarCenter < 30 then
              2 - d.getTimeToReachRadarCenter / 30 else 1) := by
    unfold calculateAdvancedThreatScore
    simp only [ha, hd, Bool.not_true, Bool.or_self, Bool.false_eq_true, if_false]
  have calculateAdvancedThreatScore_dead (d : Drone) (c : QPointF)
      (h : d.m_active = false ∨ d.m_destroyed = true) :
      calculateAdvancedThreatScore (some d) c = 0 := by
    unfold calculateAdvancedThreatScore
    rcases h with h | h <;> simp [h]
  have ramp_factor_bounds (x bound : ℝ) (hb : 0 < bound) :
      1 ≤ (if x ≥ 0 ∧ x < bound then 2 - x / bound else 1) ∧
      (if x ≥ 0 ∧ x < bound then 2 - x / bound else 1) ≤ 2 := by
    split_ifs with h
    · have h1 : x / bound < 1 := (div_lt_one hb).2 h.2
      have h0 : 0 ≤ x / bound := div_nonneg h.1 hb.le
      constructor <;> linarith
    · constructor <;> norm_num
  have urgency_factor_bounds (x bound : ℝ) (hb : 0 < bound) :
      1 ≤ (if x > 0 ∧ x < bound then 2 - x / bound else 1) ∧
      (if x > 0 ∧ x < bound then 2 - x / bound else 1) ≤ 2 := by
    split_ifs with h
    · have h1 : x / bound < 1 := (div_lt_one hb).2 h.2
      have h0 : 0 ≤ x / bound := div_nonneg h.1.le hb.le
      constructor <;> linarith
    · constructor <;> norm_num
  exact
    ⟨calculateAdvancedThreatScore_active d c,
     ramp_factor_bounds _ 800 (by norm_num),
     urgency_factor_bounds _ 30 (by norm_num),
     rfl,
     calculateAdvancedThreatScore_dead d c⟩

theorem advanced_threat_score_formula_witness :
    (westboundAt ⟨200, 0⟩).m_active = true ∧ (westboundAt ⟨200, 0⟩).m_destroyed = false ∧
    calculateAdvancedThreatScore (some (westboundAt ⟨200, 0⟩)) ⟨0, 0⟩ =
      (westboundAt ⟨200, 0⟩).getThreatScore
        * (1000 / (Real.sqrt (((westboundAt ⟨200, 0⟩).m_currentPosition.x - 0)
              * ((westboundAt ⟨200, 0⟩).m_currentPosition.x - 0)
            + ((westboundAt ⟨200, 0⟩).m_currentPosition.y - 0)
              * ((westboundAt ⟨200, 0⟩).m_currentPosition.y - 0)) + 100))
        * (1 + (westboundAt ⟨200, 0⟩).getSpeed / 100)
        * (if (westboundAt ⟨200, 0⟩).getMinDistanceToRadarCenter ≥ 0
              ∧ (westboundAt ⟨200, 0⟩).getMinDistanceToRadarCenter < 800 then
            2 - (westboundAt ⟨200, 0⟩).getMinDistanceToRadarCenter / 800 else 1)
        * (if (westboundAt ⟨200, 0⟩).getTimeToReachRadarCenter > 0
              ∧ (westboundAt ⟨200, 0⟩).getTimeToReachRadarCenter < 30 then
            2 - (westboundAt ⟨200, 0⟩).getTimeToReachRadarCenter / 30 else 1) :=
  ⟨rfl, rfl, (advanced_threat_score_formula (westboundAt ⟨200, 0⟩) ⟨0, 0⟩).1 rfl rfl⟩

theorem updateTrajectoryState_progress (d : Drone) (currentTime : Int) :
    (d.updateTrajectoryState currentTime).m_trajectoryProgress =
      min 1 ((((currentTime - d.m_startTime : Int) : ℝ) / 1000) /
        (if d.m_speedType = SpeedType.Constant then d.m_totalDistance / d.m_startSpeed
         else d.m_totalDistance / ((d.m_startSpeed + d.m_endSpeed) / 2))) := by
  unfold Drone.updateTrajectoryState
  dsimp only
  split_ifs <;> rfl

theorem updateTrajectoryState_position (d : Drone) (currentTime : Int) :
    (d.updateTrajectoryState currentTime).m_currentPosition = d.m_currentPosition := by
  unfold Drone.updateTrajectoryState
  dsimp only
  split_ifs <;> rfl

theorem updatePosition_changed (d : Drone) (currentTime : Int) (ha : d.m_active = true)
    (hnew : d.m_useNewTrajectorySystem = true)
    (hne : ¬ QPointF.fuzzyEq (d.calculatePositionAtTime currentTime) d.m_currentPosition) :
    (d.updatePosition currentTime).1 =
      Drone.updateTrajectoryState
        { d with m_currentPosition := d.calculatePositionAtTime currentTime } currentTime := by
  unfold Drone.updatePosition
  simp only [ha, Bool.not_true, Bool.false_eq_true, if_false]
  rw [if_pos hne]
  simp only [hnew, if_true]

theorem linearDrone_currentPosition (speedType : SpeedType) (startSpeed endSpeed : ℝ) :
    (linearDrone speedType startSpeed endSpeed).m_currentPosition = ⟨-1000, 0⟩ := by
  have hne : ¬ TrajectoryType.Linear = TrajectoryType.Curved := by decide
  simp only [linearDrone, Drone.newParametric, Drone.initializeTrajectory, hne, if_false,
    Option.getD_some]
  split_ifs <;> rfl

/-- Whenever neither the speed floor nor the 5..120 s clamp of
`calculatePositionAtTime` is active, the time base of `updatePosition` is the
traverse time of `calculatePositionAtTime`. -/
theorem updateTrajectoryState_progress_unclamped (d : Drone) (currentTime : Int)
    (hfloor : if d.m_speedType = SpeedType.Constant then 1 ≤ d.m_startSpeed
      else 10 ≤ (d.m_startSpeed + d.m_endSpeed) / 2)
    (hclamp : if d.m_speedType = SpeedType.Constant then
        5 ≤ d.m_totalDistance / d.m_startSpeed ∧ d.m_totalDistance / d.m_startSpeed ≤ 120
      else
        5 ≤ d.m_totalDistance / ((d.m_startSpeed + d.m_endSpeed) / 2) ∧
        d.m_totalDistance / ((d.m_startSpeed + d.m_endSpeed) / 2) ≤ 120) :
    (d.updateTrajectoryState currentTime).m_trajectoryProgress =
      min 1 ((((currentTime - d.m_startTime : Int) : ℝ) / 1000) / d.traverseTime) := by
  rw [updateTrajectoryState_progress]
  unfold Drone.traverseTime
  by_cases hc : d.m_speedType = SpeedType.Constant
  · rw [if_pos hc] at hfloor hclamp ⊢
    simp only [hc, if_true]
    rw [max_eq_right hfloor, min_eq_right hclamp.2, max_eq_right hclamp.1]
  · rw [if_neg hc] at hfloor hclamp ⊢
    simp only [hc, if_false]
    rw [max_eq_right hfloor, min_eq_right hclamp.2, max_eq_right hclamp.1]

/-- C29 (failing input). A parametric Linear entity from (-1000, 0) to
(1000, 0) with the Constant profile at speed 1000, created at time 0.  The
traverse time of `calculatePositionAtTime` is 5 s (2 s clamped up to 5 s).  At
`t = 2500` ms `updatePosition` moves the entity to (0, 0), half way, and stores
the progress 1, while `min(1, elapsed / T) = 1/2`. -/
theorem stored_progress_ignores_time_clamp :
    (linearDrone SpeedType.Constant 1000 1000).traverseTime = 5 ∧
    (linearDrone SpeedType.Constant 1000 1000).m_currentPosition = ⟨-1000, 0⟩ ∧
    ((linearDrone SpeedType.Constant 1000 1000).updatePosition 2500).1.m_currentPosition
      = ⟨0, 0⟩ ∧
    ((linearDrone SpeedType.Constant 1000 1000).updatePosition 2500).1.m_trajectoryProgress
      = 1 ∧
    min 1 ((((2500 - (linearDrone SpeedType.Constant 1000 1000).m_startTime : Int) : ℝ) / 1000)
      / (linearDrone SpeedType.Constant 1000 1000).traverseTime) = 1 / 2 := by
  have not_fuzzyEq_of_x (p q : QPointF) (hp : p.x = 0) (hq : 1 ≤ |q.x|) :
      ¬ QPointF.fuzzyEq p q := by
    intro h
    have hx := h.1
    unfold qCoordEq at hx
    rw [if_pos (Or.inl hp)] at hx
    unfold qFuzzyIsNull at hx
    rw [hp, zero_sub, abs_neg] at hx
    linarith
  obtain ⟨ha, hd, hn, htr, hs, ht0, hip, hsp, htp, hss, hes, hdist, hvx, hvy⟩ :=
    linearDrone_fields SpeedType.Constant 1000 1000
  have hcur := linearDrone_currentPosition SpeedType.Constant 1000 1000
  have hT : (linearDrone SpeedType.Constant 1000 1000).traverseTime = 5 := by
    simp only [Drone.traverseTime, hs, hss, hdist, if_true]
    norm_num
  have hcalc : (linearDrone SpeedType.Constant 1000 1000).calculatePositionAtTime 2500
      = ⟨0, 0⟩ := by
    rw [calculatePositionAtTime_parametric _ _ ha hn, ht0, htr, if_pos rfl, hsp, htp,
      progressAt_of_lt _ _ (by rw [hT]; norm_num), hT]
    simp only [QPointF.add, QPointF.scale, QPointF.sub, QPointF.mk.injEq]
    constructor <;> norm_num
  have hne : ¬ QPointF.fuzzyEq
      ((linearDrone SpeedType.Constant 1000 1000).calculatePositionAtTime 2500)
      (linearDrone SpeedType.Constant 1000 1000).m_currentPosition := by
    rw [hcalc, hcur]
    exact not_fuzzyEq_of_x _ _ rfl (by norm_num)
  have hup := updatePosition_changed _ 2500 ha hn hne
  refine ⟨hT, hcur, ?_, ?_, ?_⟩
  · rw [hup, updateTrajectoryState_position]
    exact hcalc
  · rw [hup, updateTrajectoryState_progress]
    show min 1 ((((2500 - (linearDrone SpeedType.Constant 1000 1000).m_startTime : Int) : ℝ)
        / 1000) /
      (if (linearDrone SpeedType.Constant 1000 1000).m_speedType = SpeedType.Constant then
        (linearDrone SpeedType.Constant 1000 1000).m_totalDistance
          / (linearDrone SpeedType.Constant 1000 1000).m_startSpeed
       else (linearDrone SpeedType.Constant 1000 1000).m_totalDistance
          / (((linearDrone SpeedType.Constant 1000 1000).m_startSpeed
              + (linearDrone SpeedType.Constant 1000 1000).m_endSpeed) / 2))) = 1
    rw [hs, if_pos rfl, ht0, hdist, hss]
    norm_num
  · rw [hT, ht0]
    norm_num

set_option maxRecDepth 100000 in
/-- C21 (failing input). One active entity at (560, 560), search radius 800,
blast radius 50.  The entity is within the search radius of the origin.  The
grid cell centre (7 * 80, 7 * 80) = (560, 560) lies in the disk of radius 800
(distance about 792) and the summed base threat within 50 of it is positive,
but its Manhattan length 1120 exceeds 800, so the search skips it: the
function returns (0, 0), where the summed threat is 0. -/
theorem optimal_strike_point_skips_cell_in_disk :
    (registryOf [droneAt ⟨560, 560⟩]).getDronesInRadarRange ⟨0, 0⟩ 800 = [droneAt ⟨560, 560⟩] ∧
    ((7 : Int), (7 : Int)) ∈ gridCells 20 ∧
    Real.sqrt ((((7 : Int) : ℝ) * 80) * (((7 : Int) : ℝ) * 80)
      + (((7 : Int) : ℝ) * 80) * (((7 : Int) : ℝ) * 80)) ≤ 800 ∧
    QPointF.manhattanLength ⟨((7 : Int) : ℝ) * 80, ((7 : Int) : ℝ) * 80⟩ > 800 ∧
    (registryOf [droneAt ⟨560, 560⟩]).findOptimalStrikePoint 50 800 = ⟨0, 0⟩ ∧
    calculateTotalThreat ((registryOf [droneAt ⟨560, 560⟩]).getDronesInStrikeRange
        ((registryOf [droneAt ⟨560, 560⟩]).findOptimalStrikePoint 50 800) 50)
      < calculateTotalThreat ((registryOf [droneAt ⟨560, 560⟩]).getDronesInStrikeRange
        ⟨((7 : Int) : ℝ) * 80, ((7 : Int) : ℝ) * 80⟩ 50) := by
  have far_from_corner_of_manhattan (u v : ℝ) (h : |u| + |v| ≤ 800) :
      50 < Real.sqrt ((560 - u) * (560 - u) + (560 - v) * (560 - v)) := by
    have hu : u ≤ |u| := le_abs_self u
    have hv : v ≤ |v| := le_abs_self v
    rw [Real.lt_sqrt (by norm_num)]
    nlinarith [sq_nonneg ((560 - u) - (560 - v)), sq_nonneg ((560 - u) + (560 - v) - 320)]
  have corner_drone_in_radar :
      (registryOf [droneAt ⟨560, 560⟩]).getDronesInRadarRange ⟨0, 0⟩ 800 = [droneAt ⟨560, 560⟩] := by
    have hin : (droneAt ⟨560, 560⟩).isInRadarRange ⟨0, 0⟩ 800 = true := by
      simp only [Drone.isInRadarRange, droneAt_position, decide_eq_true_eq]
      rw [Real.sqrt_le_left (by norm_num)]
      norm_num
    simp [getDronesInRadarRange, registryOf_single_active, hin]
  have corner_drone_optimal_point :
      (registryOf [droneAt ⟨560, 560⟩]).findOptimalStrikePoint 50 800 = ⟨0, 0⟩ := by
    have corner_drone_no_diamond_cell (cell : Int × Int) :
        (registryOf [droneAt ⟨560, 560⟩]).strikePointStep 50 800 80 (⟨0, 0⟩, 0) cell
          = (⟨0, 0⟩, 0) := by
      dsimp only [strikePointStep]
      split_ifs with hman hgt
      · rfl
      · exfalso
        have hfar := far_from_corner_of_manhattan ((cell.1 : ℝ) * 80) ((cell.2 : ℝ) * 80)
          (not_lt.1 hman)
        have hout : (droneAt ⟨560, 560⟩).isInStrikeRange
            ⟨(cell.1 : ℝ) * 80, (cell.2 : ℝ) * 80⟩ 50 = false := by
          simp only [Drone.isInStrikeRange, droneAt_position, decide_eq_false_iff_not, not_le]
          exact hfar
        rw [single_strikeRange, hout] at hgt
        simp [calculateTotalThreat] at hgt
      · rfl
    have hstep : (800 : ℝ) * 2 / ((20 : ℕ) : ℝ) = 80 := by norm_num
    unfold findOptimalStrikePoint
    have hne : ((registryOf [droneAt ⟨560, 560⟩]).getDronesInRadarRange ⟨0, 0⟩ 800).isEmpty
        = false := by
      rw [corner_drone_in_radar]; rfl
    simp only [hne, Bool.false_eq_true, if_false, hstep]
    rw [foldl_fixed _ _ _ (fun cell _ => corner_drone_no_diamond_cell cell)]
  have gridCells_mem_7_7 : ((7 : Int), (7 : Int)) ∈ gridCells 20 := by decide
  refine ⟨corner_drone_in_radar, gridCells_mem_7_7, ?_, ?_, corner_drone_optimal_point, ?_⟩
  · rw [Real.sqrt_le_left (by norm_num)]
    norm_num
  · simp only [QPointF.manhattanLength]
    norm_num
  · rw [corner_drone_optimal_point]
    have h0 : (droneAt ⟨560, 560⟩).isInStrikeRange ⟨0, 0⟩ 50 = false := by
      simp only [Drone.isInStrikeRange, droneAt_position, decide_eq_false_iff_not, not_le]
      have := far_from_corner_of_manhattan 0 0 (by norm_num)
      simpa using this
    have h1 : (droneAt ⟨560, 560⟩).isInStrikeRange
        ⟨((7 : Int) : ℝ) * 80, ((7 : Int) : ℝ) * 80⟩ 50 = true := by
      simp only [Drone.isInStrikeRange, droneAt_position, decide_eq_true_eq]
      rw [Real.sqrt_le_left (by norm_num)]
      norm_num
    rw [single_strikeRange, single_strikeRange, h0, h1]
    simp only [Bool.false_eq_true, if_false, if_true, calculateTotalThreat, List.foldl_nil,
      List.foldl_cons, zero_add]
    exact getThreatScore_pos _

theorem single_radarRange (d : Drone) (c : QPointF) (r : ℝ) (ha : d.m_active = true)
    (hin : d.isInRadarRange c r = true) :
    (registryOf [d]).getDronesInRadarRange c r = [d] := by
  simp [getDronesInRadarRange, getActiveDrones, registryOf, ha, hin]

theorem findMissileTimeTarget_single (w : WeaponStrategy) (d : Drone) (c : QPointF) (r : ℝ)
    (now : Int) (ha : d.m_active = true) (hin : d.isInRadarRange c r = true)
    (hurg : calculateTimeToLeaveRadar d c r ≤ 20 ∧ calculateTimeToLeaveRadar d c r > 0) :
    findMissileTimeTarget w (registryOf [d]) c r now =
      if Real.sqrt ((d.predictPositionAtTime (now + 500)).x * (d.predictPositionAtTime (now + 500)).x
          + (d.predictPositionAtTime (now + 500)).y * (d.predictPositionAtTime (now + 500)).y) > r
      then d.m_currentPosition
      else d.predictPositionAtTime (now + 500) := by
  have highestThreat_single (d : Drone) :
      highestThreat [d] = (some d, d.getThreatScore) := by
    simp [highestThreat, getThreatScore_pos]
  have hurgent : getDronesWithTimeToLeave (registryOf [d]) c r 20 = [d] := by
    unfold getDronesWithTimeToLeave
    rw [single_radarRange d c r ha hin]
    simp [hurg]
  unfold findMissileTimeTarget
  rw [hurgent]
  simp only [highestThreat_single, List.isEmpty_cons, Bool.false_eq_true, if_false]

theorem calculateTimeToLeaveRadar_of_root_inside (drone : Drone) (c : QPointF) (r t₀ : ℝ)
    (hv : ¬ (|drone.m_velocityX| < 1 / 10 ∧ |drone.m_velocityY| < 1 / 10))
    (hin : (drone.m_currentPosition.x - c.x) * (drone.m_currentPosition.x - c.x)
        + (drone.m_currentPosition.y - c.y) * (drone.m_currentPosition.y - c.y) < r * r)
    (ht₀ : 0 < t₀)
    (hroot : (drone.m_currentPosition.x + t₀ * drone.m_velocityX - c.x)
          * (drone.m_currentPosition.x + t₀ * drone.m_velocityX - c.x)
        + (drone.m_currentPosition.y + t₀ * drone.m_velocityY - c.y)
          * (drone.m_currentPosition.y + t₀ * drone.m_velocityY - c.y) = r * r)
    (hfin : t₀ ≤ DBL_MAX) :
    calculateTimeToLeaveRadar drone c r = t₀ := by
  have ha := speed_sq_pos_of_not_slow _ _ hv
  obtain ⟨-, -, -, h4⟩ := exit_time_core
    (drone.m_velocityX * drone.m_velocityX + drone.m_velocityY * drone.m_velocityY)
    (2 * ((drone.m_currentPosition.x - c.x) * drone.m_velocityX
      + (drone.m_currentPosition.y - c.y) * drone.m_velocityY))
    ((drone.m_currentPosition.x - c.x) * (drone.m_currentPosition.x - c.x)
      + (drone.m_currentPosition.y - c.y) * (drone.m_currentPosition.y - c.y) - r * r)
    DBL_MAX (calculateTimeToLeaveRadar drone c r) ha
    (by unfold calculateTimeToLeaveRadar
        simp only [hv, if_false])
  obtain ⟨t', -, -, huniq, hval⟩ := h4 (by linarith)
  have heq : t₀ = t' := huniq t₀ ht₀
    ((exit_equation_iff drone.m_currentPosition.x drone.m_currentPosition.y
      drone.m_velocityX drone.m_velocityY c.x c.y r t₀).1 hroot)
  rw [hval, ← heq, min_eq_right hfin]

theorem DBL_MAX_ge_thousand : (1000 : ℝ) ≤ DBL_MAX := by
  unfold DBL_MAX
  have h1 : (1 : ℝ) ≤ 2 ^ 53 - 1 := by norm_num
  have h2 : (1000 : ℝ) ≤ 2 ^ 971 := by
    calc (1000 : ℝ) ≤ 2 ^ 10 := by norm_num
      _ ≤ 2 ^ 971 := pow_le_pow_right₀ (by norm_num) (by norm_num)
  calc (1000 : ℝ) = 1 * 1000 := by ring
    _ ≤ (2 ^ 53 - 1) * 2 ^ 971 := mul_le_mul h1 h2 (by norm_num) (by norm_num)

/-- C27 (failing input). Radar centre (1000, 0), radius 800, area weapon with
time priority.  One active ballistic entity created at time 0 at (250, 0)
with velocity (-150, 0): it is in range (750 from the centre) and leaves the
circle after 1/3 s.  At clock 0 the 0.5 s prediction is (175, 0); its distance
to the origin, 175, passes the test against the radius, so (175, 0) is
returned, at distance 825 > 800 from the radar centre. -/
theorem missile_time_target_outside_radar_circle :
    (registryOf [recedingDrone]).getDronesInRadarRange ⟨1000, 0⟩ 800 = [recedingDrone] ∧
    calculateTimeToLeaveRadar recedingDrone ⟨1000, 0⟩ 800 = 1 / 3 ∧
    findMissileTimeTarget (weaponWith WeaponType.Missile TargetingStrategy.TimePriority 0)
      (registryOf [recedingDrone]) ⟨1000, 0⟩ 800 0 = ⟨175, 0⟩ ∧
    800 < Real.sqrt ((175 - 1000 : ℝ) * (175 - 1000) + (0 - 0) * (0 - 0)) := by
  have hin : recedingDrone.isInRadarRange ⟨1000, 0⟩ 800 = true := by
    simp only [Drone.isInRadarRange, recedingDrone, Drone.newBallistic, decide_eq_true_eq]
    rw [Real.sqrt_le_left (by norm_num)]
    norm_num
  have hexit : calculateTimeToLeaveRadar recedingDrone ⟨1000, 0⟩ 800 = 1 / 3 := by
    apply calculateTimeToLeaveRadar_of_root_inside
    · simp only [recedingDrone, Drone.newBallistic]
      norm_num
    · simp only [recedingDrone, Drone.newBallistic]
      norm_num
    · norm_num
    · simp only [recedingDrone, Drone.newBallistic]
      norm_num
    · exact le_trans (by norm_num) DBL_MAX_ge_thousand
  have hpred : recedingDrone.predictPositionAtTime (0 + 500) = ⟨175, 0⟩ := by
    simp only [Drone.predictPositionAtTime, recedingDrone, Drone.newBallistic]
    simp only [Bool.not_true, Bool.or_self, Bool.false_eq_true, if_false, QPointF.mk.injEq]
    constructor <;> norm_num
  refine ⟨single_radarRange _ _ _ rfl hin, hexit, ?_, ?_⟩
  · rw [findMissileTimeTarget_single _ _ _ _ _ rfl hin (by rw [hexit]; norm_num), hpred]
    have hd : Real.sqrt ((175 : ℝ) * 175 + 0 * 0) = 175 := by
      rw [sqrt_mul_self_add_zero]; norm_num
    rw [if_neg (by rw [hd]; norm_num)]
  · rw [Real.lt_sqrt (by norm_num)]
    norm_num

theorem highestThreat_foldl_some (P : Drone → Prop) :
    ∀ (l : List Drone) (acc : Option Drone × ℝ),
      (∀ d, acc.1 = some d → P d) → (∀ d ∈ l, P d) →
      (acc.1 = none → acc.2 = 0 ∧ l ≠ []) →
      ∃ d, (l.foldl
        (fun (acc : Option Drone × ℝ) drone =>
          if drone.getThreatScore > acc.2 then (some drone, drone.getThreatScore) else acc)
        acc).1 = some d ∧ P d
  | [], acc, hacc, _, hne => by
    cases h : acc.1 with
    | none => exact absurd rfl (hne h).2
    | some d => exact ⟨d, h, hacc d h⟩
  | a :: l, acc, hacc, hl, hne => by
    rw [List.foldl_cons]
    apply highestThreat_foldl_some P l
    · intro d hd
      split_ifs at hd with hgt
      · cases hd
        exact hl a (List.mem_cons_self _ _)
      · exact hacc d hd
    · exact fun d hd => hl d (List.mem_cons_of_mem _ hd)
    · intro hnone
      split_ifs at hnone with hgt
      exact absurd (by rw [(hne hnone).1]; exact getThreatScore_pos a) hgt

/-- With at least one urgent entity, `findMissileTimeTarget` returns either
the 0.5 s prediction of an urgent entity, whose distance to the origin is at
most the radar radius, or the current position of an urgent entity, which is
within the radar radius of the radar centre.  With the radar centre at the
origin the returned point is within the radar radius of the centre. -/
theorem findMissileTimeTarget_urgent (w : WeaponStrategy) (m : DroneManager) (c : QPointF)
    (r : ℝ) (now : Int) (hne : getDronesWithTimeToLeave m c r 20 ≠ []) :
    ∃ d ∈ getDronesWithTimeToLeave m c r 20,
      (findMissileTimeTarget w m c r now = d.m_currentPosition ∧
        Real.sqrt ((d.m_currentPosition.x - c.x) * (d.m_currentPosition.x - c.x)
          + (d.m_currentPosition.y - c.y) * (d.m_currentPosition.y - c.y)) ≤ r) ∨
      (findMissileTimeTarget w m c r now = d.predictPositionAtTime (now + 500) ∧
        Real.sqrt ((d.predictPositionAtTime (now + 500)).x * (d.predictPositionAtTime (now + 500)).x
          + (d.predictPositionAtTime (now + 500)).y * (d.predictPositionAtTime (now + 500)).y)
          ≤ r) := by
  have highestThreat_some_mem (l : List Drone) (hne : l ≠ []) :
      ∃ d, (highestThreat l).1 = some d ∧ d ∈ l :=
    highestThreat_foldl_some (fun d => d ∈ l) l (none, 0)
      (fun d hd => absurd hd (by simp)) (fun d hd => hd) (fun _ => ⟨rfl, hne⟩)
  obtain ⟨d, hd, hmem⟩ := highestThreat_some_mem _ hne
  refine ⟨d, hmem, ?_⟩
  have hin : d.isInRadarRange c r = true := by
    have h1 := (List.mem_filter.1 hmem).1
    unfold getDronesInRadarRange at h1
    exact (List.mem_filter.1 h1).2
  have hempty : (getDronesWithTimeToLeave m c r 20).isEmpty = false := by
    cases h : getDronesWithTimeToLeave m c r 20 with
    | nil => exact absurd h hne
    | cons a l => rfl
  unfold findMissileTimeTarget
  simp only [hempty, Bool.false_eq_true, if_false, hd]
  split_ifs with hfar
  · left
    refine ⟨rfl, ?_⟩
    simpa [Drone.isInRadarRange] using hin
  · right
    exact ⟨rfl, not_lt.1 hfar⟩

theorem findMissileTimeTarget_origin_in_circle (w : WeaponStrategy) (m : DroneManager) (r : ℝ)
    (now : Int) (hne : getDronesWithTimeToLeave m ⟨0, 0⟩ r 20 ≠ []) :
    Real.sqrt (((findMissileTimeTarget w m ⟨0, 0⟩ r now).x - 0)
        * ((findMissileTimeTarget w m ⟨0, 0⟩ r now).x - 0)
      + ((findMissileTimeTarget w m ⟨0, 0⟩ r now).y - 0)
        * ((findMissileTimeTarget w m ⟨0, 0⟩ r now).y - 0)) ≤ r := by
  obtain ⟨d, -, h | h⟩ := findMissileTimeTarget_urgent w m ⟨0, 0⟩ r now hne
  · rw [h.1]; exact h.2
  · rw [h.1]; simpa using h.2

/-- C30 (failing input). Area weapon with time priority, never fired, radar
centre (0, 0), radius 800.  The registry holds one parametric Linear entity
(from (-1000, 0) to (1000, 0), speed ramping from 50 to 150, created at time
0) as `updatePosition()` left it at clock 12000: position (200, 0), velocity
(110, 0).  Fired at clock 12000, the strike point is the 0.5 s prediction
(375, 0), which `predictPositionAtTime` extrapolates from the start position;
the entity is 175 away, outside the effect radius 150.  `executeStrike`
returns true and starts the cooldown, `strikeExecuted` reports
`destroyedCount = 0` and the registry is unchanged. -/
theorem fire_succeeds_on_empty_strike :
    (registryOf [rampedAfterTick]).getDronesInStrikeRange ⟨375, 0⟩ 150 = [] ∧
    (weaponWith WeaponType.Missile TargetingStrategy.TimePriority 0).executeStrike
        (registryOf [rampedAfterTick]) ⟨0, 0⟩ 800 12000 12000 12000 =
      ⟨true,
       { weaponWith WeaponType.Missile TargetingStrategy.TimePriority 0 with
         m_lastFireTime := 12000 },
       registryOf [rampedAfterTick],
       [Event.strikeExecuted ⟨375, 0⟩ 150 0,
        Event.cooldownTimerStarted (truncToInt
          ((weaponWith WeaponType.Missile TargetingStrategy.TimePriority 0).m_currentConfig.cooldownTime
            * 1000)),
        Event.weaponFired ⟨375, 0⟩ 150 WeaponType.Missile]⟩ := by
  have rampedAfterTick_fields :
      rampedAfterTick.m_active = true ∧
      rampedAfterTick.m_destroyed = false ∧
      rampedAfterTick.m_initialPosition = ⟨-1000, 0⟩ ∧
      rampedAfterTick.m_startTime = 0 ∧
      rampedAfterTick.m_currentPosition = ⟨200, 0⟩ ∧
      rampedAfterTick.m_velocityX = 110 ∧
      rampedAfterTick.m_velocityY = 0 := by
    /- Effect of `updatePosition()` on an active parametric Linear entity heading
    in the positive x direction, when the position changes. -/
    have updatePosition_linear_east (d : Drone) (currentTime : Int) (speed : ℝ)
        (ha : d.m_active = true) (hn : d.m_useNewTrajectorySystem = true)
        (hne : ¬ QPointF.fuzzyEq (d.calculatePositionAtTime currentTime) d.m_currentPosition)
        (hlin : d.m_trajectoryType = TrajectoryType.Linear)
        (hx : 0 < d.m_targetPos.x - d.m_startPos.x) (hy : d.m_targetPos.y - d.m_startPos.y = 0)
        (hspeed :
          (if d.m_speedType = SpeedType.Constant then d.m_startSpeed
           else max 10 (d.m_startSpeed + (d.m_endSpeed - d.m_startSpeed) *
              min 1 ((((currentTime - d.m_startTime : Int) : ℝ) / 1000) /
                (if d.m_speedType = SpeedType.Constant then d.m_totalDistance / d.m_startSpeed
                 else d.m_totalDistance / ((d.m_startSpeed + d.m_endSpeed) / 2))))) = speed)
        (hpos : 0 < speed) :
        (d.updatePosition currentTime).1.m_currentPosition = d.calculatePositionAtTime currentTime ∧
        (d.updatePosition currentTime).1.m_velocityX = speed ∧
        (d.updatePosition currentTime).1.m_velocityY = 0 ∧
        (d.updatePosition currentTime).1.m_initialPosition = d.m_initialPosition ∧
        (d.updatePosition currentTime).1.m_startTime = d.m_startTime ∧
        (d.updatePosition currentTime).1.m_active = d.m_active ∧
        (d.updatePosition currentTime).1.m_destroyed = d.m_destroyed := by
      have updateTrajectoryState_frame (d : Drone) (currentTime : Int) :
          (d.updateTrajectoryState currentTime).m_initialPosition = d.m_initialPosition ∧
          (d.updateTrajectoryState currentTime).m_startTime = d.m_startTime ∧
          (d.updateTrajectoryState currentTime).m_active = d.m_active ∧
          (d.updateTrajectoryState currentTime).m_destroyed = d.m_destroyed := by
        unfold Drone.updateTrajectoryState
        dsimp only
        split_ifs <;> exact ⟨rfl, rfl, rfl, rfl⟩
      have updateTrajectoryState_velocity_linear (d : Drone) (currentTime : Int) (speed : ℝ)
          (hlin : d.m_trajectoryType = TrajectoryType.Linear)
          (hx : 0 < d.m_targetPos.x - d.m_startPos.x) (hy : d.m_targetPos.y - d.m_startPos.y = 0)
          (hspeed :
            (if d.m_speedType = SpeedType.Constant then d.m_startSpeed
             else max 10 (d.m_startSpeed + (d.m_endSpeed - d.m_startSpeed) *
                min 1 ((((currentTime - d.m_startTime : Int) : ℝ) / 1000) /
                  (if d.m_speedType = SpeedType.Constant then d.m_totalDistance / d.m_startSpeed
                   else d.m_totalDistance / ((d.m_startSpeed + d.m_endSpeed) / 2))))) = speed)
          (hpos : 0 < speed) :
          (d.updateTrajectoryState currentTime).m_velocityX = speed ∧
          (d.updateTrajectoryState currentTime).m_velocityY = 0 := by
        have qAtan2_zero_pos (x : ℝ) (hx : 0 ≤ x) : qAtan2 0 x = 0 := by
          unfold qAtan2
          show Complex.arg ((x : ℝ) : ℂ) = 0
          exact Complex.arg_ofReal_of_nonneg hx
        unfold Drone.updateTrajectoryState Drone.calculateCurrentSpeedForProgress
        simp only [hlin, if_true, QPointF.sub, hy, qAtan2_zero_pos _ hx.le]
        rw [if_pos (Or.inl hx.ne')]
        simp only [hspeed, hpos, gt_iff_lt, if_true, Real.cos_zero, Real.sin_zero, mul_one,
          mul_zero, and_self]
      rw [updatePosition_changed d currentTime ha hn hne]
      have hv := updateTrajectoryState_velocity_linear
        { d with m_currentPosition := d.calculatePositionAtTime currentTime } currentTime speed
        hlin hx hy hspeed hpos
      have hf := updateTrajectoryState_frame
        { d with m_currentPosition := d.calculatePositionAtTime currentTime } currentTime
      exact ⟨updateTrajectoryState_position _ _, hv.1, hv.2, hf.1, hf.2.1, hf.2.2.1, hf.2.2.2⟩
    obtain ⟨ha, hd, hn, htr, hs, ht0, hip, hsp, htp, hss, hes, hdist, hvx, hvy⟩ :=
      linearDrone_fields SpeedType.Accelerating 50 150
    have hcur := linearDrone_currentPosition SpeedType.Accelerating 50 150
    have hne' : ¬ SpeedType.Accelerating = SpeedType.Constant := by decide
    have hT : (linearDrone SpeedType.Accelerating 50 150).traverseTime = 20 := by
      simp only [Drone.traverseTime, hs, hss, hes, hdist, hne', if_false]
      norm_num
    have hcalc : (linearDrone SpeedType.Accelerating 50 150).calculatePositionAtTime 12000
        = ⟨200, 0⟩ := by
      rw [calculatePositionAtTime_parametric _ _ ha hn, ht0, htr, if_pos rfl, hsp, htp,
        progressAt_of_lt _ _ (by rw [hT]; norm_num), hT]
      simp only [QPointF.add, QPointF.scale, QPointF.sub, QPointF.mk.injEq]
      constructor <;> norm_num
    have hne : ¬ QPointF.fuzzyEq
        ((linearDrone SpeedType.Accelerating 50 150).calculatePositionAtTime 12000)
        (linearDrone SpeedType.Accelerating 50 150).m_currentPosition := by
      rw [hcalc, hcur]
      intro h
      have hx := h.1
      unfold qCoordEq at hx
      rw [if_neg (by norm_num)] at hx
      unfold qFuzzyCompare at hx
      norm_num at hx
    have hup := updatePosition_linear_east (linearDrone SpeedType.Accelerating 50 150) 12000 110
      ha hn hne htr (by rw [htp, hsp]; norm_num) (by rw [htp, hsp]; norm_num)
      (by rw [hs, if_neg hne', if_neg hne', ht0, hdist, hss, hes]; norm_num) (by norm_num)
    unfold rampedAfterTick
    exact ⟨hup.2.2.2.2.2.1.trans ha, hup.2.2.2.2.2.2.trans hd, hup.2.2.2.1.trans hip,
      hup.2.2.2.2.1.trans ht0, hup.1.trans hcalc, hup.2.1, hup.2.2.1⟩
  have strikeTarget_of_no_target (m : DroneManager) (c : QPointF) (r : ℝ)
      (hid : (m.m_drones.map Drone.m_id).Nodup)
      (hact : ∀ d ∈ m.m_drones, d.m_active = true → d.m_destroyed = false)
      (h : m.getDronesInStrikeRange c r = []) :
      m.strikeTarget c r = (m, [Event.strikeExecuted c r 0]) := by
    obtain ⟨-, hreg, hev⟩ := strikeTarget_spec m c r hid hact
    have hall : m.m_drones.filter (fun d => !(d.m_active && d.isInStrikeRange c r)) = m.m_drones := by
      rw [List.filter_eq_self]
      intro d hd
      have hnil := h
      rw [getDronesInStrikeRange_eq_filter, List.filter_eq_nil_iff] at hnil
      have hnot := hnil d hd
      cases hq : (d.m_active && d.isInStrikeRange c r)
      · rfl
      · exact absurd hq hnot
    apply Prod.ext
    · rw [hreg, hall]
    · rw [hev, h]
      rfl
  have executeStrike_of_target (w : WeaponStrategy) (m : DroneManager) (c : QPointF) (r : ℝ)
      (tCheck tPredict tFire : Int) (target : QPointF) (hcan : w.canFire tCheck = true)
      (ht : (if w.m_currentConfig.strategy = TargetingStrategy.ThreatPriority then
            findThreatPriorityTarget w m w.m_currentConfig.type c r
          else findTimePriorityTarget w m w.m_currentConfig.type c r tPredict) = target)
      (hnn : ¬ target.isNull) :
      w.executeStrike m c r tCheck tPredict tFire =
        ⟨true, { w with m_lastFireTime := tFire },
          (m.strikeTarget target w.m_currentConfig.radius).1,
          (m.strikeTarget target w.m_currentConfig.radius).2 ++
            [Event.cooldownTimerStarted (truncToInt (w.m_currentConfig.cooldownTime * 1000)),
             Event.weaponFired target w.m_currentConfig.radius w.m_currentConfig.type]⟩ := by
    unfold executeStrike
    simp only [hcan, Bool.not_true, Bool.false_eq_true, if_false, ht, hnn]
  have weaponWith_config_missile_time (f : Int) :
      (weaponWith WeaponType.Missile TargetingStrategy.TimePriority f).m_currentConfig.radius
        = 150 ∧
      (weaponWith WeaponType.Missile TargetingStrategy.TimePriority f).m_currentConfig.type
        = WeaponType.Missile ∧
      (weaponWith WeaponType.Missile TargetingStrategy.TimePriority f).m_currentConfig.strategy
        = TargetingStrategy.TimePriority ∧
      (weaponWith WeaponType.Missile TargetingStrategy.TimePriority f).m_lastFireTime = f := by
    simp [weaponWith, WeaponStrategy.new, setCurrentStrategy, initializeStrategies]
  have rampedAfterTick_target :
      findMissileTimeTarget (weaponWith WeaponType.Missile TargetingStrategy.TimePriority 0)
        (registryOf [rampedAfterTick]) ⟨0, 0⟩ 800 12000 = ⟨375, 0⟩ := by
    obtain ⟨ha, hd, hip, ht0, hcur, hvx, hvy⟩ := rampedAfterTick_fields
    have hin : rampedAfterTick.isInRadarRange ⟨0, 0⟩ 800 = true := by
      simp only [Drone.isInRadarRange, hcur, decide_eq_true_eq, sub_zero]
      rw [sqrt_mul_self_add_zero]
      norm_num
    have hexit : calculateTimeToLeaveRadar rampedAfterTick ⟨0, 0⟩ 800 = 60 / 11 := by
      apply calculateTimeToLeaveRadar_of_root_inside
      · rw [hvx, hvy]; norm_num
      · rw [hcur]; norm_num
      · norm_num
      · rw [hcur, hvx, hvy]; norm_num
      · exact le_trans (by norm_num) DBL_MAX_ge_thousand
    have hpred : rampedAfterTick.predictPositionAtTime (12000 + 500) = ⟨375, 0⟩ := by
      simp only [Drone.predictPositionAtTime, ha, hd, hip, hvx, hvy, ht0]
      simp only [Bool.not_true, Bool.or_self, Bool.false_eq_true, if_false, QPointF.mk.injEq]
      constructor <;> norm_num
    rw [findMissileTimeTarget_single _ _ _ _ _ ha hin (by rw [hexit]; norm_num), hpred]
    have h375 : Real.sqrt ((375 : ℝ) * 375 + 0 * 0) = 375 := by
      rw [sqrt_mul_self_add_zero]; norm_num
    rw [if_neg (by rw [h375]; norm_num)]
  obtain ⟨ha, hd, hip, ht0, hcur, hvx, hvy⟩ := rampedAfterTick_fields
  obtain ⟨hrad, hty, hst, hl⟩ := weaponWith_config_missile_time 0
  have hout : (registryOf [rampedAfterTick]).getDronesInStrikeRange ⟨375, 0⟩ 150 = [] := by
    rw [getDronesInStrikeRange_eq_filter, List.filter_eq_nil_iff]
    intro d hd'
    have hdd : d = rampedAfterTick := by simpa [registryOf] using hd'
    rw [hdd]
    simp only [Drone.isInStrikeRange, hcur, ha, Bool.true_and, decide_eq_true_eq, not_le]
    rw [Real.lt_sqrt (by norm_num)]
    norm_num
  have hcan : (weaponWith WeaponType.Missile TargetingStrategy.TimePriority 0).canFire 12000
      = true := by
    rw [canFire_eq_true_iff, hl]; left; rfl
  have htarget : (if (weaponWith WeaponType.Missile TargetingStrategy.TimePriority 0).m_currentConfig.strategy
        = TargetingStrategy.ThreatPriority then
        findThreatPriorityTarget (weaponWith WeaponType.Missile TargetingStrategy.TimePriority 0)
          (registryOf [rampedAfterTick])
          (weaponWith WeaponType.Missile TargetingStrategy.TimePriority 0).m_currentConfig.type
          ⟨0, 0⟩ 800
      else
        findTimePriorityTarget (weaponWith WeaponType.Missile TargetingStrategy.TimePriority 0)
          (registryOf [rampedAfterTick])
          (weaponWith WeaponType.Missile TargetingStrategy.TimePriority 0).m_currentConfig.type
          ⟨0, 0⟩ 800 12000) = ⟨375, 0⟩ := by
    rw [hst, if_neg (by decide), hty]
    unfold findTimePriorityTarget
    rw [if_neg (by decide)]
    exact rampedAfterTick_target
  refine ⟨hout, ?_⟩
  rw [executeStrike_of_target _ _ _ _ _ _ _ ⟨375, 0⟩ hcan htarget
    (by unfold QPointF.isNull; norm_num), hrad, hty,
    strikeTarget_of_no_target _ _ _ (by simp [registryOf])
      (by intro d hd' _
          have hdd : d = rampedAfterTick := by simpa [registryOf] using hd'
          rw [hdd]; exact hd) hout]
  rfl

theorem findLaserTimeTarget_eq_loop (m : DroneManager) (c : QPointF) (r : ℝ) :
    findLaserTimeTarget m c r =
      if (m.getDronesInRadarRange c r).isEmpty then QPointF.null
      else
        match ((m.getDronesInRadarRange c r).foldl (laserTimeStep c r) (none, DBL_MAX)).1 with
        | some bestTarget => bestTarget.m_currentPosition
        | none => findLaserThreatTarget m c r := rfl

theorem sortByThreat_head_max :
    ∀ l : List Drone, l ≠ [] →
      ∃ d rest, sortByThreat l = d :: rest ∧ d ∈ l ∧ ∀ e ∈ l, e.getThreatScore ≤ d.getThreatScore
  | [], h => absurd rfl h
  | [a], _ => ⟨a, [], rfl, List.mem_singleton.2 rfl,
      fun e he => by rw [List.mem_singleton.1 he]⟩
  | a :: b :: l, _ => by
    obtain ⟨d, rest, hs, hd, hmax⟩ := sortByThreat_head_max (b :: l) (List.cons_ne_nil _ _)
    have hsort : sortByThreat (a :: b :: l)
        = List.orderedInsert (fun x y => ¬ threatGreater y x) a (sortByThreat (b :: l)) := rfl
    rw [hsort, hs, List.orderedInsert]
    by_cases hge : ¬ threatGreater d a
    · rw [if_pos hge]
      refine ⟨a, d :: rest, rfl, List.mem_cons_self _ _, fun e he => ?_⟩
      rcases List.mem_cons.1 he with he | he
      · rw [he]
      · exact le_trans (hmax e he) (not_lt.1 hge)
    · rw [if_neg hge]
      refine ⟨d, _, rfl, List.mem_cons_of_mem _ hd, fun e he => ?_⟩
      rcases List.mem_cons.1 he with he | he
      · rw [he]; exact le_of_lt (not_not.1 hge)
      · exact hmax e he

/-- Entities with equal score keep their order. -/
theorem sortByThreat_pair_tie (a b : Drone) (h : a.getThreatScore = b.getThreatScore) :
    sortByThreat [a, b] = [a, b] := by
  simp [sortByThreat, List.insertionSort, List.orderedInsert, threatGreater, h]

/-- C26. `findLaserTimeTarget` works on the in-range entities (the active
entities within the radar radius of the centre, in registry order).  If one
of them qualifies (base threat score at least 3.0, exit time from the radar
circle positive and below the "never" sentinel), the result is the current
position of a qualifying entity whose exit time is minimal among the
qualifying ones, the first such entity in registry order.  If none qualifies
the result is what `findLaserThreatTarget` returns: the null point when
nothing is in range, otherwise the position of an in-range entity with
maximal base threat score. -/
theorem laser_time_target_selection (m : DroneManager) (c : QPointF) (r : ℝ) :
    m.getDronesInRadarRange c r =
      m.m_drones.filter (fun d => d.m_active &&
        decide (Real.sqrt ((d.m_currentPosition.x - c.x) * (d.m_currentPosition.x - c.x)
          + (d.m_currentPosition.y - c.y) * (d.m_currentPosition.y - c.y)) ≤ r)) ∧
    ((∃ e ∈ m.getDronesInRadarRange c r, LaserTimeCandidate c r e) →
      ∃ pre d post, m.getDronesInRadarRange c r = pre ++ d :: post ∧
        findLaserTimeTarget m c r = d.m_currentPosition ∧
        LaserTimeCandidate c r d ∧
        (∀ e ∈ pre, LaserTimeCandidate c r e →
          calculateTimeToLeaveRadar d c r < calculateTimeToLeaveRadar e c r) ∧
        (∀ e ∈ post, LaserTimeCandidate c r e →
          calculateTimeToLeaveRadar d c r ≤ calculateTimeToLeaveRadar e c r)) ∧
    ((∀ e ∈ m.getDronesInRadarRange c r, ¬ LaserTimeCandidate c r e) →
      findLaserTimeTarget m c r = findLaserThreatTarget m c r) ∧
    (m.getDronesInRadarRange c r = [] → findLaserThreatTarget m c r = QPointF.null) ∧
    (m.getDronesInRadarRange c r ≠ [] →
      ∃ d ∈ m.getDronesInRadarRange c r, findLaserThreatTarget m c r = d.m_currentPosition ∧
        ∀ e ∈ m.getDronesInRadarRange c r, e.getThreatScore ≤ d.getThreatScore) := by
  have findLaserThreatTarget_spec (m : DroneManager) (c : QPointF) (r : ℝ) :
      (m.getDronesInRadarRange c r = [] → findLaserThreatTarget m c r = QPointF.null) ∧
      (m.getDronesInRadarRange c r ≠ [] →
        ∃ d ∈ m.getDronesInRadarRange c r, findLaserThreatTarget m c r = d.m_currentPosition ∧
          ∀ e ∈ m.getDronesInRadarRange c r, e.getThreatScore ≤ d.getThreatScore) := by
    constructor
    · intro h
      unfold findLaserThreatTarget
      simp [h]
    · intro h
      obtain ⟨d, rest, hs, hd, hmax⟩ := sortByThreat_head_max _ h
      refine ⟨d, hd, ?_, hmax⟩
      have hempty : (m.getDronesInRadarRange c r).isEmpty = false := by
        cases h' : m.getDronesInRadarRange c r with
        | nil => exact absurd h' h
        | cons a l => rfl
      unfold findLaserThreatTarget
      simp only [hempty, Bool.false_eq_true, if_false, hs]
  have findLaserTimeTarget_spec (m : DroneManager) (c : QPointF) (r : ℝ) :
      ((∃ e ∈ m.getDronesInRadarRange c r, LaserTimeCandidate c r e) →
        ∃ pre d post, m.getDronesInRadarRange c r = pre ++ d :: post ∧
          findLaserTimeTarget m c r = d.m_currentPosition ∧
          LaserTimeCandidate c r d ∧
          (∀ e ∈ pre, LaserTimeCandidate c r e →
            calculateTimeToLeaveRadar d c r < calculateTimeToLeaveRadar e c r) ∧
          (∀ e ∈ post, LaserTimeCandidate c r e →
            calculateTimeToLeaveRadar d c r ≤ calculateTimeToLeaveRadar e c r)) ∧
      ((∀ e ∈ m.getDronesInRadarRange c r, ¬ LaserTimeCandidate c r e) →
        findLaserTimeTarget m c r = findLaserThreatTarget m c r) := by
    have laserTime_loop_spec (c : QPointF) (r : ℝ) (l : List Drone) :
        (((l.foldl (laserTimeStep c r) (none, DBL_MAX)) = (none, DBL_MAX)) ∧
          ∀ e ∈ l, ¬ LaserTimeCandidate c r e) ∨
        (∃ pre d post, l = pre ++ d :: post ∧
          l.foldl (laserTimeStep c r) (none, DBL_MAX) = (some d, calculateTimeToLeaveRadar d c r) ∧
          LaserTimeCandidate c r d ∧
          (∀ e ∈ pre, LaserTimeCandidate c r e →
            calculateTimeToLeaveRadar d c r < calculateTimeToLeaveRadar e c r) ∧
          (∀ e ∈ post, LaserTimeCandidate c r e →
            calculateTimeToLeaveRadar d c r ≤ calculateTimeToLeaveRadar e c r)) := by
      induction l using List.reverseRecOn with
      | nil => exact Or.inl ⟨rfl, fun e he => absurd he (List.not_mem_nil e)⟩
      | append_singleton l a ih =>
        rw [List.foldl_append, List.foldl_cons, List.foldl_nil]
        by_cases hlow : a.getThreatScore < 3
        · -- below the score floor: skipped
          have hstep : ∀ acc, laserTimeStep c r acc a = acc := by
            intro acc; unfold laserTimeStep; rw [if_pos hlow]
          have hna : ¬ LaserTimeCandidate c r a := fun h => absurd h.1 (not_le.2 hlow)
          rw [hstep]
          rcases ih with ⟨hacc, hnone⟩ | ⟨pre, d, post, hl, hacc, hd, hpre, hpost⟩
          · left
            refine ⟨hacc, fun e he => ?_⟩
            rcases List.mem_append.1 he with he | he
            · exact hnone e he
            · rw [List.mem_singleton.1 he]; exact hna
          · right
            refine ⟨pre, d, post ++ [a], by rw [hl]; simp, hacc, hd, hpre, fun e he hc => ?_⟩
            rcases List.mem_append.1 he with he | he
            · exact hpost e he hc
            · rw [List.mem_singleton.1 he] at hc; exact absurd hc hna
        · rcases ih with ⟨hacc, hnone⟩ | ⟨pre, d, post, hl, hacc, hd, hpre, hpost⟩
          · rw [hacc]
            by_cases hq : calculateTimeToLeaveRadar a c r > 0
                ∧ calculateTimeToLeaveRadar a c r < DBL_MAX
            · right
              refine ⟨l, a, [], rfl, ?_, ⟨not_lt.1 hlow, hq.1, hq.2⟩, ?_, ?_⟩
              · unfold laserTimeStep
                rw [if_neg hlow]
                exact if_pos hq
              · exact fun e he hc => absurd hc (hnone e he)
              · exact fun e he => absurd he (List.not_mem_nil e)
            · left
              refine ⟨?_, fun e he => ?_⟩
              · unfold laserTimeStep
                rw [if_neg hlow]
                exact if_neg hq
              · rcases List.mem_append.1 he with he | he
                · exact hnone e he
                · rw [List.mem_singleton.1 he]
                  exact fun hc => hq ⟨hc.2.1, hc.2.2⟩
          · rw [hacc]
            by_cases hq : calculateTimeToLeaveRadar a c r > 0
                ∧ calculateTimeToLeaveRadar a c r < calculateTimeToLeaveRadar d c r
            · right
              refine ⟨l, a, [], rfl, ?_,
                ⟨not_lt.1 hlow, hq.1, lt_trans hq.2 hd.2.2⟩, ?_, ?_⟩
              · unfold laserTimeStep
                rw [if_neg hlow]
                exact if_pos hq
              · intro e he hc
                rw [hl] at he
                rcases List.mem_append.1 he with he | he
                · exact lt_trans hq.2 (hpre e he hc)
                · rcases List.mem_cons.1 he with he | he
                  · rw [he]; exact hq.2
                  · exact lt_of_lt_of_le hq.2 (hpost e he hc)
              · exact fun e he => absurd he (List.not_mem_nil e)
            · right
              refine ⟨pre, d, post ++ [a], by rw [hl]; simp, ?_, hd, hpre, fun e he hc => ?_⟩
              · unfold laserTimeStep
                rw [if_neg hlow]
                exact if_neg hq
              · rcases List.mem_append.1 he with he | he
                · exact hpost e he hc
                · rw [List.mem_singleton.1 he] at hc ⊢
                  by_contra hlt
                  exact hq ⟨hc.2.1, not_le.1 hlt⟩
    rw [findLaserTimeTarget_eq_loop]
    constructor
    · rintro ⟨e, he, hce⟩
      have hempty : (m.getDronesInRadarRange c r).isEmpty = false := by
        cases h' : m.getDronesInRadarRange c r with
        | nil => rw [h'] at he; exact absurd he (List.not_mem_nil e)
        | cons a l => rfl
      rcases laserTime_loop_spec c r (m.getDronesInRadarRange c r) with
        ⟨-, hnone⟩ | ⟨pre, d, post, hl, hacc, hd, hpre, hpost⟩
      · exact absurd hce (hnone e he)
      · refine ⟨pre, d, post, hl, ?_, hd, hpre, hpost⟩
        simp only [hempty, Bool.false_eq_true, if_false, hacc]
    · intro hnone
      cases hR : m.getDronesInRadarRange c r with
      | nil =>
        simp only [List.isEmpty_nil, if_true]
        exact ((findLaserThreatTarget_spec m c r).1 hR).symm
      | cons a l =>
        rcases laserTime_loop_spec c r (m.getDronesInRadarRange c r) with
          ⟨hacc, -⟩ | ⟨pre, d, post, hl, -, hd, -, -⟩
        · rw [hR] at hacc
          simp only [List.isEmpty_cons, Bool.false_eq_true, if_false, hacc]
        · exact absurd hd (hnone d (by rw [hl]; simp))
  exact
    ⟨getDronesInRadarRange_eq_filter m c r, (findLaserTimeTarget_spec m c r).1,
      (findLaserTimeTarget_spec m c r).2, (findLaserThreatTarget_spec m c r).1,
      (findLaserThreatTarget_spec m c r).2⟩

theorem laser_time_target_selection_witness :
    (∃ e ∈ (registryOf [recedingDrone]).getDronesInRadarRange ⟨1000, 0⟩ 800,
      LaserTimeCandidate ⟨1000, 0⟩ 800 e) ∧
    ∃ pre d post,
      (registryOf [recedingDrone]).getDronesInRadarRange ⟨1000, 0⟩ 800 = pre ++ d :: post ∧
      findLaserTimeTarget (registryOf [recedingDrone]) ⟨1000, 0⟩ 800 = d.m_currentPosition ∧
      LaserTimeCandidate ⟨1000, 0⟩ 800 d ∧
      (∀ e ∈ pre, LaserTimeCandidate ⟨1000, 0⟩ 800 e →
        calculateTimeToLeaveRadar d ⟨1000, 0⟩ 800 < calculateTimeToLeaveRadar e ⟨1000, 0⟩ 800) ∧
      (∀ e ∈ post, LaserTimeCandidate ⟨1000, 0⟩ 800 e →
        calculateTimeToLeaveRadar d ⟨1000, 0⟩ 800 ≤ calculateTimeToLeaveRadar e ⟨1000, 0⟩ 800) := by
  have recedingDrone_in_range : recedingDrone.isInRadarRange ⟨1000, 0⟩ 800 = true := by
    simp only [Drone.isInRadarRange, recedingDrone, Drone.newBallistic, decide_eq_true_eq]
    rw [Real.sqrt_le_left (by norm_num)]
    norm_num
  have recedingDrone_candidate : LaserTimeCandidate ⟨1000, 0⟩ 800 recedingDrone := by
    have recedingDrone_exit_time :
        calculateTimeToLeaveRadar recedingDrone ⟨1000, 0⟩ 800 = 1 / 3 := by
      apply calculateTimeToLeaveRadar_of_root_inside
      · simp only [recedingDrone, Drone.newBallistic]
        norm_num
      · simp only [recedingDrone, Drone.newBallistic]
        norm_num
      · norm_num
      · simp only [recedingDrone, Drone.newBallistic]
        norm_num
      · exact le_trans (by norm_num) DBL_MAX_ge_thousand
    have recedingDrone_score : recedingDrone.getThreatScore = 4 := by
      have h : Real.sqrt ((250 : ℝ) * 250 + 0 * 0) = 250 := by
        rw [sqrt_mul_self_add_zero]; norm_num
      simp only [Drone.getThreatScore, recedingDrone, Drone.newBallistic, h]
      norm_num
    refine ⟨by rw [recedingDrone_score]; norm_num, ?_, ?_⟩
    · rw [recedingDrone_exit_time]; norm_num
    · rw [recedingDrone_exit_time]
      exact lt_of_lt_of_le (by norm_num) DBL_MAX_ge_thousand
  exact
    have hex : ∃ e ∈ (registryOf [recedingDrone]).getDronesInRadarRange ⟨1000, 0⟩ 800,
        LaserTimeCandidate ⟨1000, 0⟩ 800 e :=
      ⟨recedingDrone, by rw [single_radarRange _ _ _ rfl recedingDrone_in_range]; simp,
        recedingDrone_candidate⟩
    ⟨hex, (laser_time_target_selection (registryOf [recedingDrone]) ⟨1000, 0⟩ 800).2.1 hex⟩

theorem updateEntity_events (m : DroneManager) (d : Drone) (t : TickDraws) :
    ∀ ev ∈ (m.updateEntity d t).2.1, ∃ id p, ev = Event.dronePositionUpdated id p := by
  have updatePosition_events (d : Drone) (currentTime : Int) :
      ∀ ev ∈ (d.updatePosition currentTime).2, ∃ id p, ev = Event.dronePositionUpdated id p := by
    intro ev hev
    unfold Drone.updatePosition at hev
    dsimp only at hev
    split_ifs at hev
    all_goals first
      | exact absurd hev (List.not_mem_nil ev)
      | exact ⟨_, _, List.mem_singleton.1 hev⟩
  intro ev hev
  unfold updateEntity at hev
  dsimp only at hev
  split_ifs at hev
  all_goals first
    | exact absurd hev (List.not_mem_nil ev)
    | exact updatePosition_events _ _ ev hev

theorem updateEntity_out (m : DroneManager) (d : Drone) (t : TickDraws) :
    (m.updateEntity d t).2.2 =
      if ((m.updateEntity d t).1.m_active && !(m.updateEntity d t).1.isInSquareArea m.m_squareSize)
          = true
      then [(m.updateEntity d t).1.m_id] else [] := by
  have hkey := updateEntity_key m d t
  have hact : (m.updateEntity d t).1.m_active = d.m_active := congrArg (fun k => k.2.1) hkey
  rw [hact]
  unfold updateEntity
  by_cases ha : d.m_active = true
  · simp only [ha, if_true, Bool.true_and]
  · have ha' : d.m_active = false := by simpa using ha
    simp [ha']

theorem updateLoop_events (m : DroneManager) (draws : Nat → TickDraws) :
    ∀ (L : List Drone) (i : Nat), ∀ ev ∈ (updateLoop m draws i L).2.1,
      ∃ id p, ev = Event.dronePositionUpdated id p
  | [], _, ev, hev => absurd hev (List.not_mem_nil ev)
  | d :: rest, i, ev, hev => by
    have hev' : ev ∈ (m.updateEntity d (draws i)).2.1 ++ (updateLoop m draws (i + 1) rest).2.1 :=
      hev
    rcases List.mem_append.1 hev' with h | h
    · exact updateEntity_events m d _ ev h
    · exact updateLoop_events m draws rest (i + 1) ev h

theorem updateLoop_out (m : DroneManager) (draws : Nat → TickDraws) :
    ∀ (L : List Drone) (i : Nat),
      (updateLoop m draws i L).2.2 =
        ((updateLoop m draws i L).1.filter
          (fun d => d.m_active && !d.isInSquareArea m.m_squareSize)).map Drone.m_id
  | [], _ => rfl
  | d :: rest, i => by
    show (m.updateEntity d (draws i)).2.2 ++ (updateLoop m draws (i + 1) rest).2.2 =
      (((m.updateEntity d (draws i)).1 :: (updateLoop m draws (i + 1) rest).1).filter
        (fun d => d.m_active && !d.isInSquareArea m.m_squareSize)).map Drone.m_id
    rw [updateLoop_out m draws rest (i + 1), updateEntity_out, List.filter_cons]
    split_ifs <;> simp

theorem updateLoop_getElem (m : DroneManager) (draws : Nat → TickDraws) :
    ∀ (L : List Drone) (i k : Nat),
      (updateLoop m draws i L).1[k]? = (L[k]?).map (fun d => (m.updateEntity d (draws (i + k))).1)
  | [], _, _ => rfl
  | d :: rest, i, 0 => by
    show ((m.updateEntity d (draws i)).1 :: (updateLoop m draws (i + 1) rest).1)[0]? = _
    simp
  | d :: rest, i, k + 1 => by
    show ((m.updateEntity d (draws i)).1 :: (updateLoop m draws (i + 1) rest).1)[k + 1]? = _
    rw [List.getElem?_cons_succ, updateLoop_getElem m draws rest (i + 1) k,
      List.getElem?_cons_succ]
    have hik : i + 1 + k = i + (k + 1) := by omega
    rw [hik]

theorem removeDrone_present (m : DroneManager) (a : Drone)
    (hid : (m.m_drones.map Drone.m_id).Nodup) (ha : a ∈ m.m_drones) :
    m.removeDrone a.m_id =
      ({ m with m_drones := m.m_drones.filter (fun d => !decide (d.m_id = a.m_id)) },
       [Event.droneRemoved a.m_id]) := by
  have hany : (m.m_drones.any fun drone => decide (drone.m_id = a.m_id)) = true :=
    List.any_eq_true.2 ⟨a, ha, by simp⟩
  have hinj : ∀ x ∈ m.m_drones, decide (x.m_id = a.m_id) = true → x = a := by
    intro x hx hxa
    exact List.inj_on_of_nodup_map hid hx ha (of_decide_eq_true hxa)
  unfold removeDrone
  rw [if_pos hany, eraseP_eq_filter_of_unique _ a m.m_drones (List.Nodup.of_map _ hid) hinj]

theorem outOfBounds_foldl (m : DroneManager) :
    ∀ (targets cur : List Drone) (ev : List Event),
      (cur.map Drone.m_id).Nodup → (targets.map Drone.m_id).Nodup →
      (∀ a ∈ targets, a ∈ cur) →
      (targets.map Drone.m_id).foldl
        (fun st id =>
          let e := st.1.onDroneOutOfBounds id
          (e.1, st.2 ++ e.2))
        ({ m with m_drones := cur }, ev) =
      ({ m with m_drones := cur.filter (fun d => !decide (d.m_id ∈ targets.map Drone.m_id)) },
       ev ++ targets.flatMap (fun d => [Event.droneEscaped d.m_id, Event.droneRemoved d.m_id]))
  | [], cur, ev, _, _, _ => by simp
  | a :: targets, cur, ev, hcur, htg, hsub => by
    have htg' := List.nodup_cons.1 (by simpa using htg : (a.m_id :: targets.map Drone.m_id).Nodup)
    have hstep : (({ m with m_drones := cur } : DroneManager).onDroneOutOfBounds a.m_id) =
        ({ m with m_drones := cur.filter (fun d => !decide (d.m_id = a.m_id)) },
         [Event.droneEscaped a.m_id, Event.droneRemoved a.m_id]) := by
      unfold onDroneOutOfBounds
      rw [removeDrone_present { m with m_drones := cur } a hcur (hsub a (List.mem_cons_self _ _))]
    rw [List.map_cons, List.foldl_cons]
    simp only [hstep]
    rw [outOfBounds_foldl m targets _ _
      (List.Nodup.sublist ((List.filter_sublist _).map _) hcur) htg'.2
      (fun b hb => List.mem_filter.2 ⟨hsub b (List.mem_cons_of_mem _ hb), by
        have hne : b.m_id ≠ a.m_id := fun h =>
          htg'.1 (h ▸ List.mem_map_of_mem _ hb)
        simpa using hne⟩)]
    apply Prod.ext
    · show DroneManager.mk _ _ _ _ _ = DroneManager.mk _ _ _ _ _
      congr 1
      rw [List.filter_filter]
      apply List.filter_congr
      intro d _
      by_cases hda : d.m_id = a.m_id
      · simp [hda]
      · simp [hda]
    · simp [List.flatMap_cons]

theorem isInSquareArea_eq_false_iff (d : Drone) (squareSize : ℝ) :
    d.isInSquareArea squareSize = false ↔
      (|d.m_currentPosition.x| > squareSize / 2 ∨ |d.m_currentPosition.y| > squareSize / 2) := by
  unfold Drone.isInSquareArea
  simp only [decide_eq_false_iff_not, ge_iff_le, gt_iff_lt]
  rw [← and_assoc, ← abs_le, ← abs_le, not_and_or, not_le, not_le]

/-- C23. A tick (`updateAllDrones`) on a registry with pairwise distinct ids
(every reachable registry).  Let `U` be the entities as the first loop leaves
them: entity `k` of the registry after `updateEntity` (velocity change and
`updatePosition()` for an active entity).  The registry after the tick holds
exactly the entities of `U` that are not both active and outside the square
(`|x|` or `|y|` greater than `squareSize / 2`), in their order: each active
entity that ended outside is removed, the others stay.  The signals are the
position updates of the first loop followed, for each removed entity in turn,
by one `droneEscaped` and one `droneRemoved` with its id; the ids of the
removed entities are pairwise distinct; no `droneDestroyed` is emitted.  Every
active entity of the registry after the tick lies inside the square. -/
theorem tick_removes_exactly_escaped_entities (m : DroneManager) (draws : Nat → TickDraws)
    (hid : (m.m_drones.map Drone.m_id).Nodup) :
    (∀ k : Nat, (updateLoop m draws 0 m.m_drones).1[k]? =
      (m.m_drones[k]?).map (fun d => (m.updateEntity d (draws k)).1)) ∧
    (m.updateAllDrones draws).1.m_drones =
      (updateLoop m draws 0 m.m_drones).1.filter
        (fun d => !(d.m_active && !d.isInSquareArea m.m_squareSize)) ∧
    (m.updateAllDrones draws).2 =
      (updateLoop m draws 0 m.m_drones).2.1 ++
        ((updateLoop m draws 0 m.m_drones).1.filter
          (fun d => d.m_active && !d.isInSquareArea m.m_squareSize)).flatMap
          (fun d => [Event.droneEscaped d.m_id, Event.droneRemoved d.m_id]) ∧
    (∀ ev ∈ (updateLoop m draws 0 m.m_drones).2.1, ∃ id p, ev = Event.dronePositionUpdated id p) ∧
    (((updateLoop m draws 0 m.m_drones).1.filter
      (fun d => d.m_active && !d.isInSquareArea m.m_squareSize)).map Drone.m_id).Nodup ∧
    (∀ id : Int, Event.droneDestroyed id ∉ (m.updateAllDrones draws).2) ∧
    (∀ d ∈ (m.updateAllDrones draws).1.m_drones, d.m_active = true →
      |d.m_currentPosition.x| ≤ m.m_squareSize / 2 ∧
      |d.m_currentPosition.y| ≤ m.m_squareSize / 2) ∧
    (∀ d : Drone, d.isInSquareArea m.m_squareSize = false ↔
      (|d.m_currentPosition.x| > m.m_squareSize / 2 ∨
        |d.m_currentPosition.y| > m.m_squareSize / 2)) := by
  have updateAllDrones_spec (m : DroneManager) (draws : Nat → TickDraws)
      (hid : (m.m_drones.map Drone.m_id).Nodup) :
      (m.updateAllDrones draws).1 =
        { m with m_drones := ((updateLoop m draws 0 m.m_drones).1.filter
            (fun d => !(d.m_active && !d.isInSquareArea m.m_squareSize))) } ∧
      (m.updateAllDrones draws).2 =
        (updateLoop m draws 0 m.m_drones).2.1 ++
          ((updateLoop m draws 0 m.m_drones).1.filter
            (fun d => d.m_active && !d.isInSquareArea m.m_squareSize)).flatMap
            (fun d => [Event.droneEscaped d.m_id, Event.droneRemoved d.m_id]) ∧
      (((updateLoop m draws 0 m.m_drones).1.filter
        (fun d => d.m_active && !d.isInSquareArea m.m_squareSize)).map Drone.m_id).Nodup := by
    have hkey := updateLoop_key m draws m.m_drones 0
    have hids : (updateLoop m draws 0 m.m_drones).1.map Drone.m_id = m.m_drones.map Drone.m_id := by
      have := congrArg (List.map Prod.fst) hkey
      simpa [List.map_map, Function.comp_def, Drone.key] using this
    have hcur : ((updateLoop m draws 0 m.m_drones).1.map Drone.m_id).Nodup := hids ▸ hid
    have htg : (((updateLoop m draws 0 m.m_drones).1.filter
        (fun d => d.m_active && !d.isInSquareArea m.m_squareSize)).map Drone.m_id).Nodup :=
      List.Nodup.sublist ((List.filter_sublist _).map _) hcur
    have hfold := outOfBounds_foldl m
      ((updateLoop m draws 0 m.m_drones).1.filter
        (fun d => d.m_active && !d.isInSquareArea m.m_squareSize))
      (updateLoop m draws 0 m.m_drones).1 (updateLoop m draws 0 m.m_drones).2.1 hcur htg
      (fun a ha => (List.mem_filter.1 ha).1)
    have hall : m.updateAllDrones draws =
        ({ m with m_drones := ((updateLoop m draws 0 m.m_drones).1.filter (fun d =>
            !decide (d.m_id ∈ ((updateLoop m draws 0 m.m_drones).1.filter
              (fun d => d.m_active && !d.isInSquareArea m.m_squareSize)).map Drone.m_id))) },
         (updateLoop m draws 0 m.m_drones).2.1 ++
          ((updateLoop m draws 0 m.m_drones).1.filter
            (fun d => d.m_active && !d.isInSquareArea m.m_squareSize)).flatMap
            (fun d => [Event.droneEscaped d.m_id, Event.droneRemoved d.m_id])) := by
      rw [← hfold, ← updateLoop_out]
      rfl
    refine ⟨?_, by rw [hall], htg⟩
    rw [hall]
    show DroneManager.mk _ _ _ _ _ = DroneManager.mk _ _ _ _ _
    congr 1
    apply List.filter_congr
    intro d hd
    congr 1
    by_cases hP : (d.m_active && !d.isInSquareArea m.m_squareSize) = true
    · rw [hP, decide_eq_true_eq]
      exact List.mem_map_of_mem _ (List.mem_filter.2 ⟨hd, hP⟩)
    · have hP' : (d.m_active && !d.isInSquareArea m.m_squareSize) = false := by
        simpa using hP
      rw [hP', decide_eq_false_iff_not]
      intro hmem
      obtain ⟨e, he, hed⟩ := List.mem_map.1 hmem
      have hee := List.mem_filter.1 he
      have : e = d := List.inj_on_of_nodup_map hcur hee.1 hd hed
      rw [this] at hee
      exact hP hee.2
  have updateAllDrones_no_destroyed (m : DroneManager) (draws : Nat → TickDraws)
      (hid : (m.m_drones.map Drone.m_id).Nodup) (id : Int) :
      Event.droneDestroyed id ∉ (m.updateAllDrones draws).2 := by
    rw [(updateAllDrones_spec m draws hid).2.1]
    intro h
    rcases List.mem_append.1 h with h | h
    · obtain ⟨i, p, hp⟩ := updateLoop_events m draws m.m_drones 0 _ h
      exact absurd hp (by simp)
    · obtain ⟨d, -, hd⟩ := List.mem_flatMap.1 h
      simp at hd
  have updateAllDrones_active_inside (m : DroneManager) (draws : Nat → TickDraws)
      (hid : (m.m_drones.map Drone.m_id).Nodup) :
      ∀ d ∈ (m.updateAllDrones draws).1.m_drones, d.m_active = true →
        |d.m_currentPosition.x| ≤ m.m_squareSize / 2 ∧
        |d.m_currentPosition.y| ≤ m.m_squareSize / 2 := by
    intro d hd ha
    rw [(updateAllDrones_spec m draws hid).1] at hd
    have hkeep := (List.mem_filter.1 hd).2
    rw [ha] at hkeep
    have hin : ¬ d.isInSquareArea m.m_squareSize = false := by
      intro hf
      rw [hf] at hkeep
      exact absurd hkeep (by simp)
    rw [isInSquareArea_eq_false_iff, not_or, not_lt, not_lt] at hin
    exact hin
  obtain ⟨h1, h2, h3⟩ := updateAllDrones_spec m draws hid
  refine ⟨fun k => ?_, by rw [h1], h2, updateLoop_events m draws m.m_drones 0, h3,
    updateAllDrones_no_destroyed m draws hid, updateAllDrones_active_inside m draws hid,
    fun d => isInSquareArea_eq_false_iff d _⟩
  rw [updateLoop_getElem, Nat.zero_add]

theorem tick_removes_exactly_escaped_entities_witness :
    (tickScenario.m_drones.map Drone.m_id).Nodup ∧
    (tickScenario.updateAllDrones tickDraws).1.m_drones = [droneWithId 2 ⟨0, 0⟩] ∧
    (tickScenario.updateAllDrones tickDraws).2 =
      [Event.dronePositionUpdated 1 ⟨1090, 0⟩, Event.droneEscaped 1, Event.droneRemoved 1] := by
  have updateEntity_no_change (m : DroneManager) (d : Drone) (t : TickDraws)
      (ha : d.m_active = true) (hc : ¬ t.uChange < 3 / 10) :
      m.updateEntity d t =
        ((d.updatePosition t.now).1, (d.updatePosition t.now).2,
          if !(d.updatePosition t.now).1.isInSquareArea m.m_squareSize
          then [(d.updatePosition t.now).1.m_id] else []) := by
    unfold updateEntity
    simp only [ha, if_true, hc, if_false]
  have tickScenario_loop :
      updateLoop tickScenario tickDraws 0 tickScenario.m_drones =
        ([eastboundAt ⟨1090, 0⟩, droneWithId 2 ⟨0, 0⟩],
         [Event.dronePositionUpdated 1 ⟨1090, 0⟩], [1]) := by
    have eastbound_tick :
        tickScenario.updateEntity (eastboundAt ⟨990, 0⟩) (tickDraws 0) =
          (eastboundAt ⟨1090, 0⟩, [Event.dronePositionUpdated 1 ⟨1090, 0⟩], [1]) := by
      have updatePosition_ballistic_changed (d : Drone) (currentTime : Int) (ha : d.m_active = true)
          (hn : d.m_useNewTrajectorySystem = false)
          (hne : ¬ QPointF.fuzzyEq (d.calculatePositionAtTime currentTime) d.m_currentPosition) :
          d.updatePosition currentTime =
            ({ d with m_currentPosition := d.calculatePositionAtTime currentTime },
             [Event.dronePositionUpdated d.m_id (d.calculatePositionAtTime currentTime)]) := by
        unfold Drone.updatePosition
        simp only [ha, Bool.not_true, Bool.false_eq_true, if_false]
        rw [if_pos hne]
        simp only [hn, Bool.false_eq_true, if_false]
      have hcalc : (eastboundAt ⟨990, 0⟩).calculatePositionAtTime 1000 = ⟨1090, 0⟩ := by
        simp only [Drone.calculatePositionAtTime, eastboundAt, Drone.newBallistic]
        simp only [Bool.not_true, Bool.not_false, Bool.false_eq_true, if_false, if_true,
          QPointF.mk.injEq]
        constructor <;> norm_num
      have hne : ¬ QPointF.fuzzyEq ((eastboundAt ⟨990, 0⟩).calculatePositionAtTime 1000)
          (eastboundAt ⟨990, 0⟩).m_currentPosition := by
        rw [hcalc]
        intro h
        have hx := h.1
        unfold qCoordEq at hx
        rw [if_neg (by simp only [eastboundAt]; norm_num)] at hx
        unfold qFuzzyCompare at hx
        simp only [eastboundAt] at hx
        norm_num at hx
      have hup := updatePosition_ballistic_changed (eastboundAt ⟨990, 0⟩) 1000 rfl rfl hne
      rw [hcalc] at hup
      rw [updateEntity_no_change _ _ _ rfl (by simp only [tickDraws]; norm_num)]
      have hnow : (tickDraws 0).now = 1000 := rfl
      rw [hnow, hup]
      have hout : (eastboundAt ⟨1090, 0⟩).isInSquareArea tickScenario.m_squareSize = false := by
        rw [isInSquareArea_eq_false_iff]
        left
        simp only [eastboundAt, tickScenario, registryOf]
        rw [abs_of_nonneg (by norm_num)]
        norm_num
      have hsame : ({ eastboundAt ⟨990, 0⟩ with m_currentPosition := ⟨1090, 0⟩ } : Drone)
          = eastboundAt ⟨1090, 0⟩ := rfl
      simp only [hsame, hout, Bool.not_false, if_true]
    have resting_tick :
        tickScenario.updateEntity (droneWithId 2 ⟨0, 0⟩) (tickDraws 1) =
          (droneWithId 2 ⟨0, 0⟩, [], []) := by
      have updatePosition_unchanged (d : Drone) (currentTime : Int)
          (heq : QPointF.fuzzyEq (d.calculatePositionAtTime currentTime) d.m_currentPosition) :
          d.updatePosition currentTime = (d, []) := by
        unfold Drone.updatePosition
        by_cases ha : (!d.m_active) = true
        · rw [if_pos ha]
        · rw [if_neg ha]
          dsimp only
          rw [if_neg (not_not.2 heq)]
      have hcalc : (droneWithId 2 ⟨0, 0⟩).calculatePositionAtTime 1000 = ⟨0, 0⟩ := by
        simp only [Drone.calculatePositionAtTime, droneWithId, Drone.newBallistic]
        simp only [Bool.not_true, Bool.not_false, Bool.false_eq_true, if_false, if_true,
          QPointF.mk.injEq]
        constructor <;> norm_num
      have heq : QPointF.fuzzyEq ((droneWithId 2 ⟨0, 0⟩).calculatePositionAtTime 1000)
          (droneWithId 2 ⟨0, 0⟩).m_currentPosition := by
        rw [hcalc]
        have h0 : qCoordEq 0 0 := by
          unfold qCoordEq
          rw [if_pos (Or.inl rfl)]
          unfold qFuzzyIsNull
          norm_num
        exact ⟨h0, h0⟩
      rw [updateEntity_no_change _ _ _ rfl (by simp only [tickDraws]; norm_num)]
      have hnow : (tickDraws 1).now = 1000 := rfl
      rw [hnow, updatePosition_unchanged _ _ heq]
      have hin : (droneWithId 2 ⟨0, 0⟩).isInSquareArea tickScenario.m_squareSize = true := by
        simp only [Drone.isInSquareArea, droneWithId, Drone.newBallistic, tickScenario, registryOf,
          decide_eq_true_eq]
        norm_num
      simp only [hin, Bool.not_true, Bool.false_eq_true, if_false]
    show ((tickScenario.updateEntity (eastboundAt ⟨990, 0⟩) (tickDraws 0)).1 ::
        (tickScenario.updateEntity (droneWithId 2 ⟨0, 0⟩) (tickDraws 1)).1 :: [],
      (tickScenario.updateEntity (eastboundAt ⟨990, 0⟩) (tickDraws 0)).2.1 ++
        ((tickScenario.updateEntity (droneWithId 2 ⟨0, 0⟩) (tickDraws 1)).2.1 ++ []),
      (tickScenario.updateEntity (eastboundAt ⟨990, 0⟩) (tickDraws 0)).2.2 ++
        ((tickScenario.updateEntity (droneWithId 2 ⟨0, 0⟩) (tickDraws 1)).2.2 ++ [])) = _
    rw [eastbound_tick, resting_tick]
    rfl
  have hid : (tickScenario.m_drones.map Drone.m_id).Nodup := by
    simp [tickScenario, registryOf, eastboundAt, droneWithId, Drone.newBallistic]
  have h := tick_removes_exactly_escaped_entities tickScenario tickDraws hid
  have hout : (eastboundAt ⟨1090, 0⟩).isInSquareArea tickScenario.m_squareSize = false := by
    rw [isInSquareArea_eq_false_iff]
    left
    simp only [eastboundAt, tickScenario, registryOf]
    rw [abs_of_nonneg (by norm_num)]
    norm_num
  have hin : (droneWithId 2 ⟨0, 0⟩).isInSquareArea tickScenario.m_squareSize = true := by
    simp only [Drone.isInSquareArea, droneWithId, Drone.newBallistic, tickScenario, registryOf,
      decide_eq_true_eq]
    norm_num
  have ha1 : (eastboundAt ⟨1090, 0⟩).m_active = true := rfl
  have ha2 : (droneWithId 2 ⟨0, 0⟩).m_active = true := rfl
  refine ⟨hid, ?_, ?_⟩
  · rw [h.2.1, tickScenario_loop]
    simp [List.filter_cons, ha1, ha2, hout, hin]
  · rw [h.2.2.1, tickScenario_loop]
    simp [List.filter_cons, ha1, ha2, hout, hin]

theorem radarCommand_fields (i : Int) (r x y : ℝ) :
    ((radarCommand i r x y).value "type").toString = "config" ∧
    ((radarCommand i r x y).value "category").toString = "radar" ∧
    (radarCommand i r x y).contains "scanInterval" = true ∧
    (radarCommand i r x y).contains "radarRadius" = true ∧
    (radarCommand i r x y).contains "centerX" = true ∧
    (radarCommand i r x y).contains "centerY" = true ∧
    (radarCommand i r x y).value "scanInterval" = QJsonValue.number (i : ℝ) ∧
    (radarCommand i r x y).value "radarRadius" = QJsonValue.number r ∧
    (radarCommand i r x y).value "centerX" = QJsonValue.number x ∧
    (radarCommand i r x y).value "centerY" = QJsonValue.number y := by
  refine ⟨?_, ?_, ?_, ?_, ?_, ?_, ?_, ?_, ?_, ?_⟩ <;>
    simp [radarCommand, QJsonObject.value, QJsonObject.contains, QJsonValue.toString]

theorem toInt_of_int (i : Int) (hi : IsInt32 i) : (QJsonValue.number (i : ℝ)).toInt = i := by
  unfold QJsonValue.toInt
  simp only [Int.floor_intCast]
  rw [if_pos ⟨trivial, hi.1, hi.2⟩]

theorem QJsonObject.value_insert_self (o : QJsonObject) (k : String) (v : QJsonValue) :
    (o.insert k v).value k = v := by
  simp [QJsonObject.insert, QJsonObject.value]

theorem QJsonObject.find_filter_ne (k k' : String) (hne : k' ≠ k) :
    ∀ o : List (String × QJsonValue),
      List.find? (fun kv => kv.1 == k') (List.filter (fun kv => kv.1 != k) o)
        = List.find? (fun kv => kv.1 == k') o
  | [] => rfl
  | kv :: o => by
    by_cases h1 : kv.1 = k
    · have h2 : kv.1 ≠ k' := fun h => hne (h.symm.trans h1)
      rw [List.filter_cons_of_neg (by simp [h1]), List.find?_cons_of_neg _ (by simp [h2])]
      exact QJsonObject.find_filter_ne k k' hne o
    · rw [List.filter_cons_of_pos (by simp [h1])]
      by_cases h2 : kv.1 = k'
      · rw [List.find?_cons_of_pos _ (by simp [h2]), List.find?_cons_of_pos _ (by simp [h2])]
      · rw [List.find?_cons_of_neg _ (by simp [h2]), List.find?_cons_of_neg _ (by simp [h2])]
        exact QJsonObject.find_filter_ne k k' hne o

theorem QJsonObject.value_insert_ne (o : QJsonObject) (k k' : String) (v : QJsonValue)
    (hne : k' ≠ k) : (o.insert k v).value k' = o.value k' := by
  unfold QJsonObject.insert QJsonObject.value
  rw [List.find?_cons_of_neg _ (by simpa using fun h => hne h.symm),
    QJsonObject.find_filter_ne k k' hne]

theorem configureRadar_radarCommand (fmt : QStringArg) (s : ControlState) (i : Int)
    (r x y : ℝ) (hi : IsInt32 i) :
    (ControlState.configureRadar fmt s (radarCommand i r x y)).1.sim.m_scanInterval = i ∧
    (ControlState.configureRadar fmt s (radarCommand i r x y)).1.sim.m_radarRadius = r ∧
    (ControlState.configureRadar fmt s (radarCommand i r x y)).1.sim.m_radarCenter =
      (if QPointF.fuzzyEq ⟨x, y⟩ s.sim.m_radarCenter then s.sim.m_radarCenter else ⟨x, y⟩) ∧
    (ControlState.configureRadar fmt s (radarCommand i r x y)).1.manager = s.manager ∧
    (ControlState.configureRadar fmt s (radarCommand i r x y)).1.generationTimerActive
      = s.generationTimerActive ∧
    (ControlState.configureRadar fmt s (radarCommand i r x y)).1.scanTimerActive
      = s.scanTimerActive ∧
    ((ControlState.configureRadar fmt s (radarCommand i r x y)).2.1 = true ↔
      (i ≠ s.sim.m_scanInterval ∨ r ≠ s.sim.m_radarRadius ∨
        ¬ QPointF.fuzzyEq ⟨x, y⟩ s.sim.m_radarCenter)) := by
  obtain ⟨-, -, c1, c2, c3, c4, v1, v2, v3, v4⟩ := radarCommand_fields i r x y
  unfold ControlState.configureRadar
  simp only [c1, c2, c3, c4, v1, v2, v3, v4, toInt_of_int i hi, QJsonValue.toDouble,
    Bool.and_self, if_true]
  by_cases h1 : i = s.sim.m_scanInterval <;> by_cases h2 : r = s.sim.m_radarRadius <;>
    by_cases h3 : QPointF.fuzzyEq ⟨x, y⟩ s.sim.m_radarCenter <;>
    simp [h1, h2, h3]

theorem processConfigCommand_radar (fmt : QStringArg) (s : ControlState) (i : Int)
    (r x y : ℝ) :
    (s.processConfigCommand fmt (radarCommand i r x y)).1
      = (s.configureRadar fmt (radarCommand i r x y)).1 ∧
    (s.processConfigCommand fmt (radarCommand i r x y)).2.value "success"
      = QJsonValue.bool (s.configureRadar fmt (radarCommand i r x y)).2.1 := by
  obtain ⟨ht, hc, -⟩ := radarCommand_fields i r x y
  unfold ControlState.processConfigCommand
  simp only [ht, hc, if_true]
  refine ⟨trivial, ?_⟩
  rw [QJsonObject.value_insert_ne _ _ _ _ (by decide), QJsonObject.value_insert_self]

theorem processConfigCommand_query (fmt : QStringArg) (s : ControlState) :
    (s.processConfigCommand fmt settingsQuery).1 = s ∧
    (s.processConfigCommand fmt settingsQuery).2.value "type" = QJsonValue.string "settings" ∧
    (s.processConfigCommand fmt settingsQuery).2.value "scanInterval"
      = QJsonValue.number (s.sim.m_scanInterval : ℝ) ∧
    (s.processConfigCommand fmt settingsQuery).2.value "radarRadius"
      = QJsonValue.number s.sim.m_radarRadius ∧
    (s.processConfigCommand fmt settingsQuery).2.value "centerX"
      = QJsonValue.number s.sim.m_radarCenter.x ∧
    (s.processConfigCommand fmt settingsQuery).2.value "centerY"
      = QJsonValue.number s.sim.m_radarCenter.y ∧
    (s.processConfigCommand fmt settingsQuery).2.value "generationInterval"
      = QJsonValue.number (s.manager.m_generationInterval : ℝ) := by
  have ht : (settingsQuery.value "type").toString = "query" := by
    simp [settingsQuery, QJsonObject.value, QJsonValue.toString]
  have hr : (settingsQuery.value "request").toString = "current_settings" := by
    simp [settingsQuery, QJsonObject.value, QJsonValue.toString]
  have hne : ¬ ("query" = "config") := by decide
  unfold ControlState.processConfigCommand
  simp only [ht, hr, hne, if_true, if_false]
  refine ⟨trivial, ?_, ?_, ?_, ?_, ?_, ?_⟩
  · repeat rw [QJsonObject.value_insert_ne _ _ _ _ (by decide)]
    rw [QJsonObject.value_insert_self]
  · repeat rw [QJsonObject.value_insert_ne _ _ _ _ (by decide)]
    rw [QJsonObject.value_insert_self]
  · repeat rw [QJsonObject.value_insert_ne _ _ _ _ (by decide)]
    rw [QJsonObject.value_insert_self]
  · repeat rw [QJsonObject.value_insert_ne _ _ _ _ (by decide)]
    rw [QJsonObject.value_insert_self]
  · repeat rw [QJsonObject.value_insert_ne _ _ _ _ (by decide)]
    rw [QJsonObject.value_insert_self]
  · repeat rw [QJsonObject.value_insert_ne _ _ _ _ (by decide)]
    rw [QJsonObject.value_insert_self]

/-- C22 (counterexample). Fresh simulator: centre (0, 0), radius 800, scan
interval 1000.  The radar command with the same interval and radius and the
centre (1e-13, 0) leaves the centre at (0, 0), because `operator!=` of
`QPointF` is a fuzzy comparison: the centre does not equal (x, y), the reply
has `success = false` although `centerX` differs from the previous setting,
and a following query reports `centerX = 0`. -/
theorem tiny_center_change_is_ignored :
    ((1 / 10000000000000 : ℝ) ≠ freshControl.sim.m_radarCenter.x) ∧
    (freshControl.processConfigCommand sampleArg
      (radarCommand 1000 800 (1 / 10000000000000) 0)).1.sim.m_radarCenter = ⟨0, 0⟩ ∧
    (freshControl.processConfigCommand sampleArg
      (radarCommand 1000 800 (1 / 10000000000000) 0)).1.sim.m_radarCenter
        ≠ ⟨1 / 10000000000000, 0⟩ ∧
    (freshControl.processConfigCommand sampleArg
      (radarCommand 1000 800 (1 / 10000000000000) 0)).2.value "success"
        = QJsonValue.bool false ∧
    ((freshControl.processConfigCommand sampleArg
      (radarCommand 1000 800 (1 / 10000000000000) 0)).1.processConfigCommand sampleArg
        settingsQuery).2.value "centerX" = QJsonValue.number 0 := by
  have fuzzyEq_tiny : QPointF.fuzzyEq ⟨1 / 10000000000000, 0⟩ ⟨0, 0⟩ := by
    constructor
    · unfold qCoordEq
      rw [if_pos (Or.inr rfl)]
      unfold qFuzzyIsNull
      rw [abs_of_nonneg (by norm_num)]
      norm_num
    · unfold qCoordEq
      rw [if_pos (Or.inl rfl)]
      unfold qFuzzyIsNull
      norm_num
  have hi : IsInt32 1000 := by unfold IsInt32; norm_num
  obtain ⟨h1, h2, h3, -, -, -, h7⟩ :=
    configureRadar_radarCommand sampleArg freshControl 1000 800 (1 / 10000000000000) 0 hi
  obtain ⟨hs, hv⟩ := processConfigCommand_radar sampleArg freshControl 1000 800
    (1 / 10000000000000) 0
  have hc : (freshControl.processConfigCommand sampleArg
      (radarCommand 1000 800 (1 / 10000000000000) 0)).1.sim.m_radarCenter = ⟨0, 0⟩ := by
    rw [hs, h3]
    exact if_pos fuzzyEq_tiny
  have hfalse : (freshControl.configureRadar sampleArg
      (radarCommand 1000 800 (1 / 10000000000000) 0)).2.1 = false := by
    cases hb : (freshControl.configureRadar sampleArg
      (radarCommand 1000 800 (1 / 10000000000000) 0)).2.1
    · rfl
    · rcases h7.1 hb with h | h | h
      · exact absurd rfl h
      · exact absurd rfl h
      · exact absurd fuzzyEq_tiny h
  refine ⟨?_, hc, ?_, ?_, ?_⟩
  · show (1 / 10000000000000 : ℝ) ≠ 0
    norm_num
  · rw [hc]
    intro h
    have hx := congrArg QPointF.x h
    norm_num at hx
  · rw [hv, hfalse]
  · rw [(processConfigCommand_query sampleArg _).2.2.2.2.1, hc]

/-- C22 (amended). After `processConfigCommand` handles the radar command with
scan interval `i` (an `int`), radius `r` and centre `(x, y)`: the scan
interval is `i` and the radius is `r`; the centre is `(x, y)` unless `(x, y)`
compares equal to the previous centre under the fuzzy `QPointF` comparison,
in which case the previous centre is kept.  The reply has `success = true`
exactly when `i` differs from the previous interval, or `r` from the previous
radius, or `(x, y)` is not fuzzy-equal to the previous centre.  A following
`current_settings` query leaves the state as it is and reports the interval
`i`, the radius `r` and the coordinates of the centre now stored. -/
theorem radar_reconfiguration_applied (fmt : QStringArg) (s : ControlState) (i : Int)
    (r x y : ℝ) (hi : IsInt32 i) :
    (s.processConfigCommand fmt (radarCommand i r x y)).1.sim.m_scanInterval = i ∧
    (s.processConfigCommand fmt (radarCommand i r x y)).1.sim.m_radarRadius = r ∧
    (s.processConfigCommand fmt (radarCommand i r x y)).1.sim.m_radarCenter =
      (if QPointF.fuzzyEq ⟨x, y⟩ s.sim.m_radarCenter then s.sim.m_radarCenter else ⟨x, y⟩) ∧
    ((s.processConfigCommand fmt (radarCommand i r x y)).2.value "success"
        = QJsonValue.bool true ↔
      (i ≠ s.sim.m_scanInterval ∨ r ≠ s.sim.m_radarRadius ∨
        ¬ QPointF.fuzzyEq ⟨x, y⟩ s.sim.m_radarCenter)) ∧
    ((s.processConfigCommand fmt (radarCommand i r x y)).2.value "success"
        = QJsonValue.bool false ↔
      ¬ (i ≠ s.sim.m_scanInterval ∨ r ≠ s.sim.m_radarRadius ∨
        ¬ QPointF.fuzzyEq ⟨x, y⟩ s.sim.m_radarCenter)) ∧
    ((s.processConfigCommand fmt (radarCommand i r x y)).1.processConfigCommand fmt
        settingsQuery).1 = (s.processConfigCommand fmt (radarCommand i r x y)).1 ∧
    ((s.processConfigCommand fmt (radarCommand i r x y)).1.processConfigCommand fmt
        settingsQuery).2.value "scanInterval" = QJsonValue.number (i : ℝ) ∧
    ((s.processConfigCommand fmt (radarCommand i r x y)).1.processConfigCommand fmt
        settingsQuery).2.value "radarRadius" = QJsonValue.number r ∧
    ((s.processConfigCommand fmt (radarCommand i r x y)).1.processConfigCommand fmt
        settingsQuery).2.value "centerX" = QJsonValue.number
          (s.processConfigCommand fmt (radarCommand i r x y)).1.sim.m_radarCenter.x ∧
    ((s.processConfigCommand fmt (radarCommand i r x y)).1.processConfigCommand fmt
        settingsQuery).2.value "centerY" = QJsonValue.number
          (s.processConfigCommand fmt (radarCommand i r x y)).1.sim.m_radarCenter.y := by
  obtain ⟨h1, h2, h3, -, -, -, h7⟩ := configureRadar_radarCommand fmt s i r x y hi
  obtain ⟨hs, hv⟩ := processConfigCommand_radar fmt s i r x y
  obtain ⟨q0, -, q1, q2, q3, q4, -⟩ :=
    processConfigCommand_query fmt (s.processConfigCommand fmt (radarCommand i r x y)).1
  have hi' : (s.processConfigCommand fmt (radarCommand i r x y)).1.sim.m_scanInterval = i := by
    rw [hs]; exact h1
  have hr' : (s.processConfigCommand fmt (radarCommand i r x y)).1.sim.m_radarRadius = r := by
    rw [hs]; exact h2
  refine ⟨hi', hr', by rw [hs]; exact h3, ?_, ?_, q0, by rw [q1, hi'], by rw [q2, hr'], q3, q4⟩
  · rw [hv, ← h7]
    constructor
    · intro h; exact QJsonValue.bool.inj h
    · intro h; rw [h]
  · rw [hv, ← h7]
    constructor
    · intro h hb
      rw [hb] at h
      exact absurd (QJsonValue.bool.inj h) (by decide)
    · intro h
      cases hb : (s.configureRadar fmt (radarCommand i r x y)).2.1
      · rfl
      · exact absurd hb h

theorem radar_reconfiguration_applied_witness :
    IsInt32 500 ∧
    (freshControl.processConfigCommand sampleArg (radarCommand 500 600 10 20)).1.sim.m_scanInterval
      = 500 ∧
    (freshControl.processConfigCommand sampleArg (radarCommand 500 600 10 20)).1.sim.m_radarRadius
      = 600 ∧
    ((freshControl.processConfigCommand sampleArg (radarCommand 500 600 10 20)).2.value "success"
        = QJsonValue.bool true ↔
      ((500 : Int) ≠ freshControl.sim.m_scanInterval ∨ (600 : ℝ) ≠ freshControl.sim.m_radarRadius ∨
        ¬ QPointF.fuzzyEq ⟨10, 20⟩ freshControl.sim.m_radarCenter)) ∧
    ((freshControl.processConfigCommand sampleArg (radarCommand 500 600 10 20)).1.processConfigCommand
        sampleArg settingsQuery).2.value "scanInterval" = QJsonValue.number ((500 : Int) : ℝ) :=
  have hi : IsInt32 500 := by unfold IsInt32; norm_num
  have h := radar_reconfiguration_applied sampleArg freshControl 500 600 10 20 hi
  ⟨hi, h.1, h.2.1, h.2.2.2.1, h.2.2.2.2.2.2.1⟩

theorem droneCommand_fields (g : Int) :
    ((droneCommand g).value "type").toString = "config" ∧
    ((droneCommand g).value "category").toString = "drone" ∧
    (droneCommand g).contains "generationInterval" = true ∧
    (droneCommand g).contains "maxDrones" = false ∧
    (droneCommand g).contains "minSpeed" = false ∧
    (droneCommand g).contains "maxSpeed" = false ∧
    (droneCommand g).value "generationInterval" = QJsonValue.number (g : ℝ) := by
  refine ⟨?_, ?_, ?_, ?_, ?_, ?_, ?_⟩ <;>
    simp [droneCommand, QJsonObject.value, QJsonObject.contains, QJsonValue.toString]

theorem configureDrone_droneCommand (fmt : QStringArg) (s : ControlState) (g : Int)
    (hg : IsInt32 g) :
    (s.configureDrone fmt (droneCommand g)).1 =
      (if s.manager.m_generationInterval ≠ g ∧ s.generationTimerActive = true then
        s.stopAutoGeneration.startAutoGeneration g else s) ∧
    ((s.configureDrone fmt (droneCommand g)).2.1 = true ↔ s.manager.m_generationInterval ≠ g) := by
  obtain ⟨-, -, c1, c2, c3, c4, v1⟩ := droneCommand_fields g
  unfold ControlState.configureDrone
  simp only [c1, c2, c3, c4, v1, toInt_of_int g hg, ControlState.getGenerationInterval,
    ControlState.isAutoGenerationActive, Bool.or_self, Bool.false_eq_true, if_true, if_false]
  by_cases h1 : s.manager.m_generationInterval = g <;>
    by_cases h2 : s.generationTimerActive = true <;> simp [h1, h2]

theorem processConfigCommand_drone (fmt : QStringArg) (s : ControlState) (g : Int) :
    (s.processConfigCommand fmt (droneCommand g)).1 = (s.configureDrone fmt (droneCommand g)).1 ∧
    (s.processConfigCommand fmt (droneCommand g)).2.value "success"
      = QJsonValue.bool (s.configureDrone fmt (droneCommand g)).2.1 := by
  obtain ⟨ht, hc, -⟩ := droneCommand_fields g
  have hne : ¬ ("drone" = "radar") := by decide
  unfold ControlState.processConfigCommand
  simp only [ht, hc, hne, if_true, if_false]
  refine ⟨trivial, ?_⟩
  rw [QJsonObject.value_insert_ne _ _ _ _ (by decide), QJsonObject.value_insert_self]

/-- With the generation timer inactive, a drone command that is answered with
`success = true` never sets the generation interval: the interval after the
command differs from `g`.  With the timer active it is `g`. -/
theorem drone_command_interval (fmt : QStringArg) (s : ControlState) (g : Int) (hg : IsInt32 g)
    (hsucc : (s.processConfigCommand fmt (droneCommand g)).2.value "success"
      = QJsonValue.bool true) :
    (s.generationTimerActive = false →
      (s.processConfigCommand fmt (droneCommand g)).1.manager.m_generationInterval
          = s.manager.m_generationInterval ∧
      (s.processConfigCommand fmt (droneCommand g)).1.manager.m_generationInterval ≠ g) ∧
    (s.generationTimerActive = true →
      (s.processConfigCommand fmt (droneCommand g)).1.manager.m_generationInterval = g) := by
  obtain ⟨hs, hv⟩ := processConfigCommand_drone fmt s g
  obtain ⟨hst, hch⟩ := configureDrone_droneCommand fmt s g hg
  rw [hv] at hsucc
  have hne : s.manager.m_generationInterval ≠ g := hch.1 (QJsonValue.bool.inj hsucc)
  rw [hs, hst]
  constructor
  · intro hoff
    rw [if_neg (by rw [hoff]; simp)]
    exact ⟨rfl, hne⟩
  · intro hon
    rw [if_pos ⟨hne, hon⟩]
    rfl

/-- C25 (failing input). Fresh registry: generation interval 3000, automatic
generation not running.  The drone command with `generationInterval = 5000`
is answered with `success = true` (the text of the reply lists the new
interval as a change), but `startAutoGeneration` is called only when the
generation timer is active: the registry keeps the interval 3000, and a
following `current_settings` query reports 3000. -/
theorem drone_command_reports_success_without_change :
    freshControl.generationTimerActive = false ∧
    (freshControl.processConfigCommand sampleArg (droneCommand 5000)).2.value "success"
      = QJsonValue.bool true ∧
    (freshControl.processConfigCommand sampleArg (droneCommand 5000)).1.getGenerationInterval
      = 3000 ∧
    ((freshControl.processConfigCommand sampleArg (droneCommand 5000)).1.processConfigCommand
      sampleArg settingsQuery).2.value "generationInterval" = QJsonValue.number ((3000 : Int) : ℝ) := by
  have hg : IsInt32 5000 := by unfold IsInt32; norm_num
  obtain ⟨hs, hv⟩ := processConfigCommand_drone sampleArg freshControl 5000
  obtain ⟨hst, hch⟩ := configureDrone_droneCommand sampleArg freshControl 5000 hg
  have hne : freshControl.manager.m_generationInterval ≠ 5000 := by
    show (3000 : Int) ≠ 5000
    decide
  have hstate : (freshControl.processConfigCommand sampleArg (droneCommand 5000)).1
      = freshControl := by
    rw [hs, hst]
    exact if_neg (fun h => absurd h.2 (by decide))
  refine ⟨rfl, ?_, ?_, ?_⟩
  · rw [hv, hch.2 hne]
  · rw [hstate]; rfl
  · rw [(processConfigCommand_query sampleArg _).2.2.2.2.2.2, hstate]
    rfl

end DroneRadar
